import Mathlib

/-!
# Styx3D Direct3D 12 driver: polygon cache, frames and fences

A shallow embedding of `source/Drivers/Direct3D12Driver/D3D12PolyCache.{h,cpp}` and of
`D3D12Drv_Init`, `D3D12Drv_Shutdown` and the scene, frame, matrix and texture-size functions
of `source/Drivers/Direct3D12Driver/Direct3D12Driver.cpp`.

Conventions of the embedding.

* The value of a C `float` is a rational number (`FloatVal`); most floats are only copied,
  and the one `float` division of the source, by `255.0f`, is the binary32 division
  `binary32Div`.
* `uint32` values are natural numbers, reduced modulo `2 ^ 32` wherever the
  source increments or narrows them; `int32` arguments are integers.
* A pointer to an array is a function from indices to elements, wrapped in
  `Option` where the source tests the pointer against null.
* A `ComPtr` is an `Option`; `Reset()` stores `none`.
* Calls into Direct3D whose outcome the program cannot control
  (`CreateCommittedResource`, `Map`, shader compilation) take their outcome
  as an extra argument of the embedded function.
* Commands recorded on an `ID3D12GraphicsCommandList` are appended to a list.
* The GPU is a queue that executes its entries in order; how far it has got when the driver
  reads the fence is an argument of the embedded function, and a wait that can never end
  makes the function return `none`.
-/

namespace Styx3D

/-- Value of a C `float` that the driver stores or copies. -/
abbrev FloatVal := ℚ

/-- The `sizeof(D3D12Vertex)`: eleven packed 4-byte floats. -/
def sizeofD3D12Vertex : Nat := 44

/-- Number of values of a `UINT` / `uint32`. -/
def UINT_RANGE : Nat := 2 ^ 32

/-- The `MAX_LAYERS` constant of `Direct3D12Driver.h`. -/
def MAX_LAYERS : Nat := 2

/-- The fields of `jeTLVertex` (declared in `DCommon.h`) that the polygon cache reads. -/
structure jeTLVertex where
  x : FloatVal
  y : FloatVal
  z : FloatVal
  u : FloatVal
  v : FloatVal
  r : FloatVal
  g : FloatVal
  b : FloatVal
  a : FloatVal
deriving DecidableEq, Inhabited

/-- The `jeVec3d` position of a hardware vertex. -/
structure jeVec3d where
  X : FloatVal
  Y : FloatVal
  Z : FloatVal
deriving DecidableEq, Inhabited

/-- The fields of `jeHWVertex` (declared in `DCommon.h`) that the polygon cache reads. -/
structure jeHWVertex where
  Pos : jeVec3d
  Diffuse : Nat
  u : FloatVal
  v : FloatVal
  lu : FloatVal
  lv : FloatVal
deriving DecidableEq, Inhabited

/-- A texture layer descriptor (`jeRDriver_Layer`, declared in `DCommon.h`); the cache only
copies it as a whole, so its contents are one value. -/
structure jeRDriver_Layer where
  raw : Nat
deriving DecidableEq, Inhabited

/-- The `D3D12Vertex` of `D3D12PolyCache.h`. -/
structure D3D12Vertex where
  x : FloatVal
  y : FloatVal
  z : FloatVal
  r : FloatVal
  g : FloatVal
  b : FloatVal
  a : FloatVal
  u : FloatVal
  v : FloatVal
  u2 : FloatVal
  v2 : FloatVal
deriving DecidableEq, Inhabited

/-- The `D3D12_VERTEX_BUFFER_VIEW`: GPU address, size (a `UINT`) and stride (a `UINT`). -/
structure D3D12_VERTEX_BUFFER_VIEW where
  BufferLocation : Nat
  SizeInBytes : Nat
  StrideInBytes : Nat
deriving DecidableEq, Inhabited

/-- A committed buffer resource: the `Width` it was created with, its GPU virtual address and
the vertices that have been copied into it through `Map`/`memcpy`. -/
structure Resource where
  Width : Nat
  gpuVirtualAddress : Nat
  data : List D3D12Vertex
deriving DecidableEq, Inhabited

/-- The `D3D12StaticBuffer` of `D3D12PolyCache.h`. -/
structure D3D12StaticBuffer where
  pVertexBuffer : Option Resource
  VBView : D3D12_VERTEX_BUFFER_VIEW
  NumVertices : Int
  Layers : List jeRDriver_Layer
  NumLayers : Int
  Flags : Nat
  ID : Nat
deriving DecidableEq, Inhabited

/-- Primitive topologies the cache selects. -/
inductive Topology where
  | TRIANGLELIST
deriving DecidableEq, Inhabited

/-- Resource states named in the transitions of the render target. -/
inductive ResourceState where
  | PRESENT
  | RENDER_TARGET
deriving DecidableEq, Inhabited

/-- Commands the polygon cache and the scene functions of the driver record on a graphics
command list. A render target and its view are named by their index in the swap chain. -/
inductive Cmd where
  | SetGraphicsRootSignature (sig : Option Nat)
  | SetPipelineState (pso : Option Nat)
  | IASetPrimitiveTopology (t : Topology)
  | IASetVertexBuffers (StartSlot : Nat) (NumViews : Nat) (view : D3D12_VERTEX_BUFFER_VIEW)
  | DrawInstanced (VertexCountPerInstance : Nat) (InstanceCount : Nat)
      (StartVertexLocation : Nat) (StartInstanceLocation : Nat)
  | RSSetViewports
  | RSSetScissorRects
  | ResourceBarrier (renderTarget : Nat) (StateBefore : ResourceState)
      (StateAfter : ResourceState)
  | OMSetRenderTargets (rtv : Nat)
  | ClearRenderTargetView (rtv : Nat)
  | ClearDepthStencilView
  | SetDescriptorHeaps
deriving DecidableEq, Inhabited

/-- Calls that `Flush` makes on the device and on the dynamic buffer, in program order. -/
inductive Event where
  | ResetDynamicVB
  | CreateCommittedResource (Width : Nat)
  | Map
  | Memcpy (bytes : Nat)
  | Unmap
deriving DecidableEq, Inhabited

/-- The data members of `class D3D12PolyCache`. -/
structure D3D12PolyCache where
  m_pDevice : Option Nat
  m_pCommandQueue : Option Nat
  m_pDynamicVB : Option Resource
  m_DynamicVBView : D3D12_VERTEX_BUFFER_VIEW
  m_Vertices : List D3D12Vertex
  m_StaticBuffers : List (Nat × Option D3D12StaticBuffer)
  m_NextStaticID : Nat
  m_pRootSignature : Option Nat
  m_pPipelineState : Option Nat
  m_pWireframePSO : Option Nat
  m_bInitialized : Bool
deriving DecidableEq, Inhabited

/-- The constructor `D3D12PolyCache::D3D12PolyCache()`. It leaves `m_DynamicVBView` without an
initializer, so the value found there is an argument. -/
def D3D12PolyCache.new (view0 : D3D12_VERTEX_BUFFER_VIEW) : D3D12PolyCache :=
  { m_pDevice := none
    m_pCommandQueue := none
    m_pDynamicVB := none
    m_DynamicVBView := view0
    m_Vertices := []
    m_StaticBuffers := []
    m_NextStaticID := 1
    m_pRootSignature := none
    m_pPipelineState := none
    m_pWireframePSO := none
    m_bInitialized := false }

/-! ## The handle map (`std::unordered_map<uint32, D3D12StaticBuffer*>`) -/

/-- The `m_StaticBuffers.find(id)`: the mapped pointer, or `none` for `end()`. -/
def mapFind (m : List (Nat × Option D3D12StaticBuffer)) (id : Nat) :
    Option (Option D3D12StaticBuffer) :=
  match m with
  | [] => none
  | (k, p) :: rest => if k = id then some p else mapFind rest id

/-- The `m_StaticBuffers.erase(it)` for the entry with key `id`. -/
def mapErase (m : List (Nat × Option D3D12StaticBuffer)) (id : Nat) :
    List (Nat × Option D3D12StaticBuffer) :=
  m.filter (fun e => decide (e.1 ≠ id))

/-- The `m_StaticBuffers[id] = p`: replaces the mapped pointer when the key is present. -/
def mapAssign (m : List (Nat × Option D3D12StaticBuffer)) (id : Nat)
    (p : Option D3D12StaticBuffer) : List (Nat × Option D3D12StaticBuffer) :=
  (id, p) :: mapErase m id

/-! ## Dynamic batch: `AddGouraudPoly` and its two aliases -/

/-- The eleven assignments that build one `D3D12Vertex` from `Pnts[j]` in `AddGouraudPoly`. -/
def toD3D12Vertex (p : jeTLVertex) : D3D12Vertex :=
  { x := p.x, y := p.y, z := p.z
    r := p.r, g := p.g, b := p.b, a := p.a
    u := p.u, v := p.v
    u2 := 0, v2 := 0 }

/-- The loop `for (int32 i = 2; i < NumPoints; i++)` of `AddGouraudPoly`, started at `i` with
the staging list `vs`; `fuel` bounds the number of iterations. -/
def fanLoop (Pnts : Nat → jeTLVertex) (NumPoints : Int) :
    Nat → Nat → List D3D12Vertex → List D3D12Vertex
  | 0, _, vs => vs
  | fuel + 1, i, vs =>
    if (i : Int) < NumPoints then
      let v0 := toD3D12Vertex (Pnts 0)
      let v1 := toD3D12Vertex (Pnts (i - 1))
      let v2 := toD3D12Vertex (Pnts i)
      fanLoop Pnts NumPoints fuel (i + 1) (((vs ++ [v0]) ++ [v1]) ++ [v2])
    else vs

/-- The method `D3D12PolyCache::AddGouraudPoly`. The loop runs at most `NumPoints - 2` times,
so `NumPoints` is enough fuel. -/
def AddGouraudPoly (s : D3D12PolyCache) (Pnts : Nat → jeTLVertex) (NumPoints : Int)
    (_Flags : Nat) : Bool × D3D12PolyCache :=
  if !s.m_bInitialized || decide (NumPoints < 3) then (false, s)
  else (true, { s with m_Vertices := fanLoop Pnts NumPoints NumPoints.toNat 2 s.m_Vertices })

/-- The method `D3D12PolyCache::AddWorldPoly`. -/
def AddWorldPoly (s : D3D12PolyCache) (Pnts : Nat → jeTLVertex) (NumPoints : Int)
    (_Layers : Nat → jeRDriver_Layer) (_NumLayers : Int) (_LMapCBContext : Option Nat)
    (Flags : Nat) : Bool × D3D12PolyCache :=
  AddGouraudPoly s Pnts NumPoints Flags

/-- The method `D3D12PolyCache::AddMiscTexturePoly`. -/
def AddMiscTexturePoly (s : D3D12PolyCache) (Pnts : Nat → jeTLVertex) (NumPoints : Int)
    (_Layers : Nat → jeRDriver_Layer) (_NumLayers : Int) (Flags : Nat) :
    Bool × D3D12PolyCache :=
  AddGouraudPoly s Pnts NumPoints Flags

/-- The triangle `(v[0], v[k+1], v[k+2])` of the fan over `Pnts`. -/
def fanTriangle (Pnts : Nat → jeTLVertex) (k : Nat) : List D3D12Vertex :=
  [toD3D12Vertex (Pnts 0), toD3D12Vertex (Pnts (k + 1)), toD3D12Vertex (Pnts (k + 2))]

/-- The first `n` triangles of the fan over `Pnts`, flattened in increasing order. -/
def fanTriangles (Pnts : Nat → jeTLVertex) (n : Nat) : List D3D12Vertex :=
  (List.range n).flatMap (fanTriangle Pnts)

/-! ## Life cycle: `Initialize` and `Shutdown` -/

/-- Outcomes of the Direct3D calls made while initializing: root-signature serialization and
creation, the two shader compilations, and the creation of the two pipeline states. A created
object is `some` of its identity, a failed creation is `none`. -/
structure InitEnv where
  serializeOk : Bool
  rootSignature : Option Nat
  vertexShaderOk : Bool
  colorPixelShaderOk : Bool
  pipelineState : Option Nat
  wireframePSO : Option Nat
deriving DecidableEq, Inhabited

/-- The method `D3D12PolyCache::CreateRootSignature`. -/
def CreateRootSignature (s : D3D12PolyCache) (env : InitEnv) : Bool × D3D12PolyCache :=
  if !env.serializeOk then (false, s)
  else
    match env.rootSignature with
    | none => (false, { s with m_pRootSignature := none })
    | some sig => (true, { s with m_pRootSignature := some sig })

/-- The method `D3D12PolyCache::CreatePipelineStates`. -/
def CreatePipelineStates (s : D3D12PolyCache) (env : InitEnv) : Bool × D3D12PolyCache :=
  if !env.vertexShaderOk then (false, s)
  else if !env.colorPixelShaderOk then (false, s)
  else
    match env.pipelineState with
    | none => (false, { s with m_pPipelineState := none })
    | some pso =>
      let s1 := { s with m_pPipelineState := some pso }
      match env.wireframePSO with
      | none => (false, { s1 with m_pWireframePSO := none })
      | some wire => (true, { s1 with m_pWireframePSO := some wire })

/-- The method `D3D12PolyCache::Initialize`. -/
def Initialize (s : D3D12PolyCache) (pDevice : Option Nat) (pCommandQueue : Option Nat)
    (env : InitEnv) : Bool × D3D12PolyCache :=
  if s.m_bInitialized then (true, s)
  else
    let s1 := { s with m_pDevice := pDevice, m_pCommandQueue := pCommandQueue }
    let r1 := CreateRootSignature s1 env
    if !r1.1 then (false, r1.2)
    else
      let r2 := CreatePipelineStates r1.2 env
      if !r2.1 then (false, r2.2)
      else (true, { r2.2 with m_bInitialized := true })

/-- The method `D3D12PolyCache::Shutdown`. -/
def Shutdown (s : D3D12PolyCache) : D3D12PolyCache :=
  { s with
    m_StaticBuffers := []
    m_Vertices := []
    m_pDynamicVB := none
    m_pPipelineState := none
    m_pWireframePSO := none
    m_pRootSignature := none
    m_pDevice := none
    m_pCommandQueue := none
    m_bInitialized := false }

/-! ## Static buffers -/

/-- The loop `for (i = 0; i < NumLayers && i < MAX_LAYERS; i++) pBuffer->Layers[i] = Layers[i]`
of `AddStaticBuffer`, started at `i` on the destination array `dst`. -/
def copyLayers (Layers : Nat → jeRDriver_Layer) (NumLayers : Int) :
    Nat → Nat → List jeRDriver_Layer → List jeRDriver_Layer
  | 0, _, dst => dst
  | fuel + 1, i, dst =>
    if decide ((i : Int) < NumLayers) && decide (i < MAX_LAYERS) then
      copyLayers Layers NumLayers fuel (i + 1) (dst.set i (Layers i))
    else dst

/-- The quotient `num / den` of two naturals rounded to the nearest integer, ties to the even
one: the rounding of IEEE 754 arithmetic. -/
def roundHalfEven (num den : Nat) : Nat :=
  if den < 2 * (num % den) ∨ (2 * (num % den) = den ∧ num / den % 2 = 1) then num / den + 1
  else num / den

/-- The scaling of a binary32 quotient: the least `s`, searched upwards from `s` with `fuel`
steps, for which `a * 2 ^ s / b` is at least `2 ^ 23`, so that its integer part fills the 24
bits of a binary32 significand. -/
def binary32Scale (a b : Nat) : Nat → Nat → Nat
  | 0, s => s
  | fuel + 1, s => if b * 2 ^ 23 ≤ a * 2 ^ s then s else binary32Scale a b fuel (s + 1)

/-- The `float` division `a / b` of two operands that hold the integers `a` and `b`, with
`0 < b` and both below `2 ^ 24` (such operands are exact in binary32, and their quotient is
neither subnormal nor infinite, so 48 steps find its scaling): the exact quotient rounded to a
24-bit significand, ties to even. -/
def binary32Div (a b : Nat) : FloatVal :=
  if a = 0 then 0
  else
    ((roundHalfEven (a * 2 ^ binary32Scale a b 48 0) b : Nat) : FloatVal)
      / 2 ^ binary32Scale a b 48 0

/-- The body of the conversion loop of `AddStaticBuffer`: one raw vertex to one `D3D12Vertex`.
Each colour byte is converted to `float` and divided by `255.0f` in binary32. -/
def convertHWVertex (p : jeHWVertex) : D3D12Vertex :=
  { x := p.Pos.X, y := p.Pos.Y, z := p.Pos.Z
    a := binary32Div ((p.Diffuse >>> 24) &&& 0xFF) 255
    r := binary32Div ((p.Diffuse >>> 16) &&& 0xFF) 255
    g := binary32Div ((p.Diffuse >>> 8) &&& 0xFF) 255
    b := binary32Div (p.Diffuse &&& 0xFF) 255
    u := p.u, v := p.v
    u2 := p.lu, v2 := p.lv }

/-- The method `D3D12PolyCache::AddStaticBuffer`. `hrCreate` is the outcome of
`CreateCommittedResource` (`some` of the GPU address of the new resource, or `none` on failure),
`hrMap` the outcome of `Map`. -/
def AddStaticBuffer (s : D3D12PolyCache) (Points : Option (Nat → jeHWVertex)) (NumPoints : Int)
    (Layers : Nat → jeRDriver_Layer) (NumLayers : Int) (Flags : Nat)
    (hrCreate : Option Nat) (hrMap : Bool) : Nat × D3D12PolyCache :=
  if !s.m_bInitialized || Points.isNone || decide (NumPoints ≤ 0) then (0, s)
  else
    match Points with
    | none => (0, s)
    | some pts =>
      let ID := s.m_NextStaticID
      let s1 := { s with m_NextStaticID := (s.m_NextStaticID + 1) % UINT_RANGE }
      let layers := copyLayers Layers NumLayers MAX_LAYERS 0 (List.replicate MAX_LAYERS default)
      let bufferSize := sizeofD3D12Vertex * NumPoints.toNat
      let vertices := (List.range NumPoints.toNat).map (fun i => convertHWVertex (pts i))
      match hrCreate with
      | none => (0, s1)
      | some addr =>
        let res : Resource :=
          { Width := bufferSize
            gpuVirtualAddress := addr
            data := if hrMap then vertices else [] }
        let pBuffer : D3D12StaticBuffer :=
          { pVertexBuffer := some res
            VBView :=
              { BufferLocation := addr
                StrideInBytes := sizeofD3D12Vertex
                SizeInBytes := bufferSize % UINT_RANGE }
            NumVertices := NumPoints
            Layers := layers
            NumLayers := NumLayers
            Flags := Flags
            ID := ID }
        (ID, { s1 with m_StaticBuffers := mapAssign s1.m_StaticBuffers ID (some pBuffer) })

/-- The method `D3D12PolyCache::RemoveStaticBuffer`. -/
def RemoveStaticBuffer (s : D3D12PolyCache) (id : Nat) : Bool × D3D12PolyCache :=
  match mapFind s.m_StaticBuffers id with
  | none => (false, s)
  | some _ => (true, { s with m_StaticBuffers := mapErase s.m_StaticBuffers id })

/-- The `jeXForm3d` transform (declared in the engine headers): three rows and a translation. -/
structure jeXForm3d where
  AX : FloatVal
  AY : FloatVal
  AZ : FloatVal
  BX : FloatVal
  BY : FloatVal
  BZ : FloatVal
  CX : FloatVal
  CY : FloatVal
  CZ : FloatVal
  Translation : jeVec3d
deriving DecidableEq, Inhabited

/-- The method `D3D12PolyCache::RenderStaticBuffer`: a lookup, then `return true`. -/
def RenderStaticBuffer (s : D3D12PolyCache) (id : Nat) (_StartVertex : Int) (_NumPolys : Int)
    (_XForm : Option jeXForm3d) : Bool × D3D12PolyCache :=
  match mapFind s.m_StaticBuffers id with
  | none => (false, s)
  | some none => (false, s)
  | some (some _) => (true, s)

/-! ## Dynamic batch: `Flush` -/

/-- What one call of `Flush` leaves behind: the return value, the cache, the command list and
the calls made on the device and the dynamic buffer. -/
structure FlushResult where
  ret : Bool
  cache : D3D12PolyCache
  pCmdList : Option (List Cmd)
  events : List Event
deriving DecidableEq, Inhabited

/-- The method `D3D12PolyCache::Flush`. `pCmdList` is `none` for a null pointer and otherwise
the commands recorded so far; `hrCreate` is the outcome of `CreateCommittedResource` (`some` of
the GPU address of the new resource, or `none` on failure), `hrMap` the outcome of `Map`.
`bufferSize` is a 64-bit `size_t`, which the byte size of a vector in memory never exceeds;
the view size and the vertex count of the draw are narrowed to `UINT`. -/
def Flush (s : D3D12PolyCache) (pCmdList : Option (List Cmd)) (hrCreate : Option Nat)
    (hrMap : Bool) : FlushResult :=
  if !s.m_bInitialized || s.m_Vertices.isEmpty || pCmdList.isNone then
    { ret := true, cache := s, pCmdList := pCmdList, events := [] }
  else
    let bufferSize := sizeofD3D12Vertex * s.m_Vertices.length
    let realloc : Option (D3D12PolyCache × List Event) :=
      if s.m_pDynamicVB.isNone || decide (s.m_DynamicVBView.SizeInBytes < bufferSize) then
        match hrCreate with
        | none => none
        | some addr =>
          some ({ s with
                  m_pDynamicVB :=
                    some { Width := bufferSize, gpuVirtualAddress := addr, data := [] }
                  m_DynamicVBView :=
                    { BufferLocation := addr
                      StrideInBytes := sizeofD3D12Vertex
                      SizeInBytes := bufferSize % UINT_RANGE } },
                [Event.ResetDynamicVB, Event.CreateCommittedResource bufferSize])
      else some (s, [])
    match realloc with
    | none =>
      { ret := false
        cache := { s with m_pDynamicVB := none }
        pCmdList := pCmdList
        events := [Event.ResetDynamicVB, Event.CreateCommittedResource bufferSize] }
    | some (s1, ev) =>
      let vb : Option Resource :=
        if hrMap then
          s1.m_pDynamicVB.map
            (fun res => { res with data := s.m_Vertices ++ res.data.drop s.m_Vertices.length })
        else s1.m_pDynamicVB
      let copyEvents : List Event :=
        if hrMap then [Event.Map, Event.Memcpy bufferSize, Event.Unmap] else [Event.Map]
      let cmds : List Cmd :=
        [ Cmd.SetGraphicsRootSignature s1.m_pRootSignature,
          Cmd.SetPipelineState s1.m_pPipelineState,
          Cmd.IASetPrimitiveTopology Topology.TRIANGLELIST,
          Cmd.IASetVertexBuffers 0 1 s1.m_DynamicVBView,
          Cmd.DrawInstanced (s.m_Vertices.length % UINT_RANGE) 1 0 0 ]
      { ret := true
        cache := { s1 with m_pDynamicVB := vb, m_Vertices := [] }
        pCmdList := pCmdList.map (fun cl => cl ++ cmds)
        events := ev ++ copyEvents }

/-- The capacity (`Width`) of the dynamic buffer that a `Flush` call copied into and drew
from, when it got that far. -/
def FlushResult.usedCapacity (r : FlushResult) : Option Nat :=
  if Event.Map ∈ r.events then r.cache.m_pDynamicVB.map (fun res => res.Width) else none

/-- The vertices that the draw recorded by a `Flush` call reads from the dynamic buffer. -/
def FlushResult.drawnVertices (r : FlushResult) (count : Nat) : List D3D12Vertex :=
  match r.cache.m_pDynamicVB with
  | none => []
  | some res => res.data.take count

/-! ## Call sequences on one cache -/

/-- One call on a `D3D12PolyCache`, with the outcomes of the Direct3D calls it makes. -/
inductive Op where
  | Initialize (pDevice : Option Nat) (pCommandQueue : Option Nat) (env : InitEnv)
  | Shutdown
  | AddGouraudPoly (Pnts : Nat → jeTLVertex) (NumPoints : Int) (Flags : Nat)
  | Flush (pCmdList : Option (List Cmd)) (hrCreate : Option Nat) (hrMap : Bool)
  | AddStaticBuffer (Points : Option (Nat → jeHWVertex)) (NumPoints : Int)
      (Layers : Nat → jeRDriver_Layer) (NumLayers : Int) (Flags : Nat)
      (hrCreate : Option Nat) (hrMap : Bool)
  | RemoveStaticBuffer (id : Nat)
  | RenderStaticBuffer (id : Nat) (StartVertex : Int) (NumPolys : Int) (XForm : Option jeXForm3d)

/-- The cache after one call. -/
def step (s : D3D12PolyCache) : Op → D3D12PolyCache
  | Op.Initialize d q env => (Initialize s d q env).2
  | Op.Shutdown => Shutdown s
  | Op.AddGouraudPoly Pnts n f => (AddGouraudPoly s Pnts n f).2
  | Op.Flush cl hc hm => (Flush s cl hc hm).cache
  | Op.AddStaticBuffer pts n ls nl f hc hm => (AddStaticBuffer s pts n ls nl f hc hm).2
  | Op.RemoveStaticBuffer id => (RemoveStaticBuffer s id).2
  | Op.RenderStaticBuffer id sv np x => (RenderStaticBuffer s id sv np x).2

/-- The cache after a sequence of calls. -/
def run (s : D3D12PolyCache) (ops : List Op) : D3D12PolyCache :=
  ops.foldl step s

/-- Whether a call is an `AddStaticBuffer` call. -/
def Op.isCreate : Op → Bool
  | Op.AddStaticBuffer _ _ _ _ _ _ _ => true
  | _ => false

/-- Whether a call is a `Shutdown` call. -/
def Op.isShutdown : Op → Bool
  | Op.Shutdown => true
  | _ => false

/-- The values returned by the `AddStaticBuffer` calls of a sequence, in call order. -/
def createdHandles (s : D3D12PolyCache) : List Op → List Nat
  | [] => []
  | Op.AddStaticBuffer pts n ls nl f hc hm :: rest =>
    (AddStaticBuffer s pts n ls nl f hc hm).1 ::
      createdHandles (AddStaticBuffer s pts n ls nl f hc hm).2 rest
  | op :: rest => createdHandles (step s op) rest

/-- The capacities of the dynamic buffer used by the `Flush` calls of a sequence that copied
and drew, in call order. -/
def usedCapacities (s : D3D12PolyCache) : List Op → List Nat
  | [] => []
  | Op.Flush cl hc hm :: rest =>
    (Flush s cl hc hm).usedCapacity.toList ++ usedCapacities (Flush s cl hc hm).cache rest
  | op :: rest => usedCapacities (step s op) rest

/-- The dynamic buffer view points at the dynamic buffer whenever there is one. -/
def ViewBound (s : D3D12PolyCache) : Prop :=
  match s.m_pDynamicVB with
  | some res => s.m_DynamicVBView.BufferLocation = res.gpuVirtualAddress
  | none => True

instance ViewBound.decidable (s : D3D12PolyCache) : Decidable (ViewBound s) := by
  unfold ViewBound
  split <;> infer_instance

/-- Invariant of the dynamic buffer relative to a capacity `hw` reached earlier: a buffer
that is present is at least that large, smaller than `2 ^ 32` bytes and recorded with its true
size; while the buffer is absent the staged vertices need at least `hw` bytes. -/
def DynInv (s : D3D12PolyCache) (hw : Nat) : Prop :=
  match s.m_pDynamicVB with
  | some res =>
    hw ≤ res.Width ∧ res.Width < UINT_RANGE ∧ s.m_DynamicVBView.SizeInBytes = res.Width
  | none => hw ≤ sizeofD3D12Vertex * s.m_Vertices.length

instance DynInv.decidable (s : D3D12PolyCache) (hw : Nat) : Decidable (DynInv s hw) := by
  unfold DynInv
  split <;> infer_instance

/-- The recorded 32-bit size of the dynamic buffer view does not exceed the allocated size
(`Width`) of the dynamic buffer, whenever there is one. -/
def ViewWithinBuffer (s : D3D12PolyCache) : Prop :=
  match s.m_pDynamicVB with
  | some res => s.m_DynamicVBView.SizeInBytes ≤ res.Width
  | none => True

instance ViewWithinBuffer.decidable (s : D3D12PolyCache) : Decidable (ViewWithinBuffer s) := by
  unfold ViewWithinBuffer
  split <;> infer_instance

/-! ## The driver: command queue, fence and frames (`Direct3D12Driver.cpp`) -/

/-- The `FRAME_COUNT` constant of `Direct3D12Driver.h`. -/
def FRAME_COUNT : Nat := 2

/-- Number of values of a `UINT64`. -/
def UINT64_RANGE : Nat := 2 ^ 64

/-- What the driver submits to the `ID3D12CommandQueue`: a command list, recorded on the
command allocator of a frame slot, or a fence signal. The queue executes its entries in
order. -/
inductive QueueItem where
  | ExecuteCommandLists (allocator : Nat) (cmds : List Cmd)
  | Signal (value : Nat)
deriving DecidableEq, Inhabited

/-- The command queue with the fence, as the GPU sees them: the entries submitted so far,
how many of them the GPU has finished, and the value the fence was created with. -/
structure GpuQueue where
  queue : List QueueItem
  done : Nat
  fenceInit : Nat
deriving DecidableEq, Inhabited

/-- The value of a fence created with `init` once the GPU has finished `items`: the value of
the last `Signal` among them. -/
def fenceValueAfter (init : Nat) : List QueueItem → Nat
  | [] => init
  | QueueItem.Signal v :: rest => fenceValueAfter v rest
  | QueueItem.ExecuteCommandLists _ _ :: rest => fenceValueAfter init rest

/-- The `g_pFence->GetCompletedValue()`. -/
def GpuQueue.GetCompletedValue (g : GpuQueue) : Nat :=
  fenceValueAfter g.fenceInit (g.queue.take g.done)

/-- One more entry submitted to the queue. -/
def GpuQueue.submit (g : GpuQueue) (item : QueueItem) : GpuQueue :=
  { g with queue := g.queue ++ [item] }

/-- The GPU finishes up to `k` more entries. -/
def GpuQueue.progress (g : GpuQueue) (k : Nat) : GpuQueue :=
  { g with done := min (g.done + k) g.queue.length }

/-- The GPU runs until the fence has reached `target`, one entry at a time; `none` when the
queue is exhausted before that, in which case the wait never ends. -/
def GpuQueue.waitLoop (target : Nat) : Nat → GpuQueue → Option GpuQueue
  | 0, g => if target ≤ g.GetCompletedValue then some g else none
  | fuel + 1, g =>
    if target ≤ g.GetCompletedValue then some g
    else if g.done < g.queue.length then
      GpuQueue.waitLoop target fuel { g with done := g.done + 1 }
    else none

/-- The pair `SetEventOnCompletion(target, g_FenceEvent)` and
`WaitForSingleObjectEx(g_FenceEvent, INFINITE, FALSE)`: the state of the queue at the moment
the fence reaches `target`. The entries left in the queue are enough fuel. -/
def GpuQueue.WaitForFence (g : GpuQueue) (target : Nat) : Option GpuQueue :=
  GpuQueue.waitLoop target (g.queue.length - g.done) g

/-- Whether the GPU has finished every command list recorded on the allocator of `slot`. -/
def GpuQueue.slotIdle (g : GpuQueue) (slot : Nat) : Bool :=
  (g.queue.drop g.done).all (fun item =>
    match item with
    | QueueItem.ExecuteCommandLists a _ => decide (a ≠ slot)
    | QueueItem.Signal _ => true)

/-- Calls of the scene functions on the allocators, the command list, the queue, the swap
chain and the fence, in program order. -/
inductive DrvCall where
  | AllocatorReset (slot : Nat) (ok : Bool)
  | CommandListReset (slot : Nat) (ok : Bool)
  | FlushPolyCache (ok : Bool)
  | Close (ok : Bool)
  | ExecuteCommandLists (allocator : Nat)
  | Present (ok : Bool)
  | Signal (value : Nat)
  | GetCurrentBackBufferIndex (index : Nat)
  | Wait (target : Nat)
deriving DecidableEq, Inhabited

/-- The globals of `Direct3D12Driver.cpp` that the scene and frame functions use.
`g_pCommandList` holds the commands recorded since the last `Reset` of the list and
`listAllocator` the frame slot whose allocator the list records on; `gpu` is the command queue
with the fence, `calls` the calls made so far. -/
structure Driver where
  g_FrameIndex : Nat
  g_FenceValues : List Nat
  g_pCommandQueue : Bool
  g_pFence : Bool
  g_pCommandList : List Cmd
  listAllocator : Nat
  g_IsWindowed : Bool
  NumRenderedPolys : Nat
  g_pPolyCache : Option D3D12PolyCache
  gpu : GpuQueue
  calls : List DrvCall
deriving DecidableEq, Inhabited

/-- Outcomes of the calls of `D3D12Drv_Init` that the driver does not control, in program
order: the creation of the factory, of the device (at feature level 12.0, then 11.0), of the
command queue, whether the hook asks for a window, the creation of the swap chain and the back
buffer index it starts with, the three descriptor heaps, `GetBuffer` for each back buffer, the
depth stencil, the command allocator of each slot, the command list, the fence and the fence
event; then what the new polygon cache is made of: the bytes its constructor leaves in the
dynamic buffer view, the device and queue pointers it is given and the outcomes of its
`Initialize`. -/
structure InitDrvEnv where
  hrFactory : Bool
  hrDevice12 : Bool
  hrDevice11 : Bool
  hrQueue : Bool
  windowed : Bool
  hrSwapChain : Bool
  backBufferIndex : Nat
  hrRTVHeap : Bool
  hrDSVHeap : Bool
  hrSRVHeap : Bool
  hrGetBuffer : Nat → Bool
  hrDepthStencil : Bool
  hrAllocator : Nat → Bool
  hrCommandList : Bool
  hrFence : Bool
  fenceEvent : Bool
  view0 : D3D12_VERTEX_BUFFER_VIEW
  pDevice : Nat
  pCommandQueue : Nat
  cacheEnv : InitEnv

/-- The globals of `Direct3D12Driver.cpp` as the program starts with them: null pointers,
`g_FenceValues = {}`, `g_FrameIndex = 0`, `g_IsWindowed = true`; nothing has been called. -/
def processStart : Driver :=
  { g_FrameIndex := 0
    g_FenceValues := List.replicate FRAME_COUNT 0
    g_pCommandQueue := false
    g_pFence := false
    g_pCommandList := []
    listAllocator := 0
    g_IsWindowed := true
    NumRenderedPolys := 0
    g_pPolyCache := none
    gpu := { queue := [], done := 0, fenceInit := 0 }
    calls := [] }

/-- The function `D3D12Drv_Init`, on the globals it finds. Every failing step returns
`JE_FALSE` and leaves what the earlier steps stored. `CreateCommandQueue` stores a new, empty
queue (a fence left by an earlier call keeps its value), the swap chain gives the frame index,
the command list is created on the allocator of that slot and closed, `CreateFence` creates
the fence with the value found in `g_FenceValues[g_FrameIndex]` and that entry is then
incremented; `g_FenceValues` is not written anywhere else. `new D3D12PolyCache()` does not
return null. -/
def D3D12Drv_Init (st : Driver) (env : InitDrvEnv) : Bool × Driver :=
  if !env.hrFactory then (false, st)
  else if !env.hrDevice12 && !env.hrDevice11 then (false, st)
  else if !env.hrQueue then (false, st)
  else
    let st1 : Driver :=
      { st with
        g_pCommandQueue := true
        gpu := { queue := [], done := 0, fenceInit := st.gpu.GetCompletedValue }
        g_IsWindowed := env.windowed }
    if !env.hrSwapChain then (false, st1)
    else
      let st2 : Driver := { st1 with g_FrameIndex := env.backBufferIndex }
      if !env.hrRTVHeap then (false, st2)
      else if !env.hrDSVHeap then (false, st2)
      else if !env.hrSRVHeap then (false, st2)
      else if !(List.range FRAME_COUNT).all env.hrGetBuffer then (false, st2)
      else if !env.hrDepthStencil then (false, st2)
      else if !(List.range FRAME_COUNT).all env.hrAllocator then (false, st2)
      else if !env.hrCommandList then (false, st2)
      else
        let st3 : Driver :=
          { st2 with g_pCommandList := [], listAllocator := st2.g_FrameIndex }
        if !env.hrFence then (false, st3)
        else
          let st4 : Driver :=
            { st3 with
              g_pFence := true
              gpu := { st3.gpu with fenceInit := st3.g_FenceValues.getD st3.g_FrameIndex 0 }
              g_FenceValues := st3.g_FenceValues.set st3.g_FrameIndex
                ((st3.g_FenceValues.getD st3.g_FrameIndex 0 + 1) % UINT64_RANGE) }
          if !env.fenceEvent then (false, st4)
          else
            let c := Initialize (D3D12PolyCache.new env.view0) (some env.pDevice)
              (some env.pCommandQueue) env.cacheEnv
            (c.1, { st4 with g_pPolyCache := some c.2 })

/-- Whether `D3D12Drv_Init` gets as far as creating the fence: every step up to and including
`CreateFence` succeeds. -/
def InitDrvEnv.reachesFence (env : InitDrvEnv) : Bool :=
  env.hrFactory && (env.hrDevice12 || env.hrDevice11) && env.hrQueue && env.hrSwapChain &&
    env.hrRTVHeap && env.hrDSVHeap && env.hrSRVHeap && (List.range FRAME_COUNT).all env.hrGetBuffer &&
    env.hrDepthStencil && (List.range FRAME_COUNT).all env.hrAllocator && env.hrCommandList &&
    env.hrFence

/-- An environment in which every step of `D3D12Drv_Init` succeeds, for a window whose swap
chain starts at `backBufferIndex`. -/
def firstInit (backBufferIndex : Nat) : InitDrvEnv :=
  { hrFactory := true
    hrDevice12 := true
    hrDevice11 := true
    hrQueue := true
    windowed := true
    hrSwapChain := true
    backBufferIndex := backBufferIndex
    hrRTVHeap := true
    hrDSVHeap := true
    hrSRVHeap := true
    hrGetBuffer := fun _ => true
    hrDepthStencil := true
    hrAllocator := fun _ => true
    hrCommandList := true
    hrFence := true
    fenceEvent := true
    view0 := default
    pDevice := 7
    pCommandQueue := 8
    cacheEnv :=
      { serializeOk := true
        rootSignature := some 1
        vertexShaderOk := true
        colorPixelShaderOk := true
        pipelineState := some 2
        wireframePSO := some 3 } }

/-- The state after the first `D3D12Drv_Init` of the program, in which every step succeeds
and the swap chain starts at `backBufferIndex`, once the calls on the polygon cache have
brought it to `cache`. -/
def postInit (backBufferIndex : Nat) (cache : D3D12PolyCache) : Driver :=
  { (D3D12Drv_Init processStart (firstInit backBufferIndex)).2 with g_pPolyCache := some cache }

/-- The function `TransitionResource`, on the commands recorded so far. -/
def TransitionResource (pCmdList : List Cmd) (pResource : Nat) (stateBefore : ResourceState)
    (stateAfter : ResourceState) : List Cmd :=
  if stateBefore = stateAfter then pCmdList
  else pCmdList ++ [Cmd.ResourceBarrier pResource stateBefore stateAfter]

/-- The function `WaitForGPU`. `gpuProgress` is the number of entries the GPU finishes between
the signal and the reading of the fence; the result is `none` when the wait never ends. -/
def WaitForGPU (st : Driver) (gpuProgress : Nat) : Option Driver :=
  if !st.g_pCommandQueue || !st.g_pFence then some st
  else
    let currentFenceValue := st.g_FenceValues.getD st.g_FrameIndex 0
    let gpu1 := (st.gpu.submit (QueueItem.Signal currentFenceValue)).progress gpuProgress
    let calls1 := st.calls ++ [DrvCall.Signal currentFenceValue]
    let fenceValues := st.g_FenceValues.set st.g_FrameIndex
      ((st.g_FenceValues.getD st.g_FrameIndex 0 + 1) % UINT64_RANGE)
    if gpu1.GetCompletedValue < currentFenceValue then
      match gpu1.WaitForFence currentFenceValue with
      | none => none
      | some gpu2 =>
        some { st with
               g_FenceValues := fenceValues
               gpu := gpu2
               calls := calls1 ++ [DrvCall.Wait currentFenceValue] }
    else some { st with g_FenceValues := fenceValues, gpu := gpu1, calls := calls1 }

/-- The function `MoveToNextFrame`. `backBufferIndex` is what
`g_pSwapChain->GetCurrentBackBufferIndex()` returns, `gpuProgress` the number of entries the
GPU finishes between the signal and the reading of the fence; the result is `none` when the
wait never ends. -/
def MoveToNextFrame (st : Driver) (backBufferIndex : Nat) (gpuProgress : Nat) :
    Option Driver :=
  let currentFenceValue := st.g_FenceValues.getD st.g_FrameIndex 0
  let gpu1 := (st.gpu.submit (QueueItem.Signal currentFenceValue)).progress gpuProgress
  let calls1 := st.calls ++
    [DrvCall.Signal currentFenceValue, DrvCall.GetCurrentBackBufferIndex backBufferIndex]
  let target := st.g_FenceValues.getD backBufferIndex 0
  let fenceValues := st.g_FenceValues.set backBufferIndex
    ((currentFenceValue + 1) % UINT64_RANGE)
  if gpu1.GetCompletedValue < target then
    match gpu1.WaitForFence target with
    | none => none
    | some gpu2 =>
      some { st with
             g_FrameIndex := backBufferIndex
             g_FenceValues := fenceValues
             gpu := gpu2
             calls := calls1 ++ [DrvCall.Wait target] }
  else
    some { st with
           g_FrameIndex := backBufferIndex
           g_FenceValues := fenceValues
           gpu := gpu1
           calls := calls1 }

/-- The function `D3D12Drv_Shutdown`: `WaitForGPU`, then the polygon cache is shut down and
deleted and the command list, the fence and the queue are released. `g_FenceValues` and
`g_FrameIndex` keep their values. The result is `none` when the wait never ends. -/
def D3D12Drv_Shutdown (st : Driver) (gpuProgress : Nat) : Option (Bool × Driver) :=
  (WaitForGPU st gpuProgress).map (fun s =>
    (true,
      { s with
        g_pPolyCache := none
        g_pCommandList := []
        g_pFence := false
        g_pCommandQueue := false }))

/-- Outcomes of the two fallible calls of `D3D12Drv_BeginScene`. -/
structure BeginSceneEnv where
  hrAllocatorReset : Bool
  hrListReset : Bool
deriving DecidableEq, Inhabited

/-- The function `D3D12Drv_BeginScene`. -/
def D3D12Drv_BeginScene (st : Driver) (Clear : Bool) (ClearZ : Bool) (_WorldRect : Option Nat)
    (_Wireframe : Bool) (env : BeginSceneEnv) : Bool × Driver :=
  let calls1 := st.calls ++ [DrvCall.AllocatorReset st.g_FrameIndex env.hrAllocatorReset]
  if !env.hrAllocatorReset then (false, { st with calls := calls1 })
  else
    let calls2 := calls1 ++ [DrvCall.CommandListReset st.g_FrameIndex env.hrListReset]
    if !env.hrListReset then (false, { st with calls := calls2 })
    else
      let cl1 : List Cmd := [Cmd.RSSetViewports, Cmd.RSSetScissorRects]
      let cl2 := TransitionResource cl1 st.g_FrameIndex ResourceState.PRESENT
        ResourceState.RENDER_TARGET
      let cl3 := cl2 ++ [Cmd.OMSetRenderTargets st.g_FrameIndex]
      let cl4 := if Clear then cl3 ++ [Cmd.ClearRenderTargetView st.g_FrameIndex] else cl3
      let cl5 := if ClearZ then cl4 ++ [Cmd.ClearDepthStencilView] else cl4
      (true,
        { st with
          calls := calls2
          g_pCommandList := cl5 ++ [Cmd.SetDescriptorHeaps]
          listAllocator := st.g_FrameIndex
          NumRenderedPolys := if Clear then 0 else st.NumRenderedPolys })

/-- Outcomes of the calls of `D3D12Drv_EndScene` that the driver does not control: the
allocation and the mapping inside `Flush`, `Close`, `Present`, the back buffer index and the
progress of the GPU seen by `MoveToNextFrame`. -/
structure EndSceneEnv where
  hrCreate : Option Nat
  hrMap : Bool
  hrClose : Bool
  hrPresent : Bool
  backBufferIndex : Nat
  gpuProgress : Nat
deriving DecidableEq, Inhabited

/-- The first statement of `D3D12Drv_EndScene`: the flush of the polygon cache, when there is
one, on the command list. The result is the value of `Flush` (`true` without a cache). -/
def flushPolyCache (st : Driver) (env : EndSceneEnv) : Bool × Driver :=
  match st.g_pPolyCache with
  | none => (true, st)
  | some cache =>
    let r := Flush cache (some st.g_pCommandList) env.hrCreate env.hrMap
    (r.ret,
      { st with
        g_pPolyCache := some r.cache
        g_pCommandList := r.pCmdList.getD st.g_pCommandList
        calls := st.calls ++ [DrvCall.FlushPolyCache r.ret] })

/-- The function `D3D12Drv_EndScene`; the result is `none` when the wait inside
`MoveToNextFrame` never ends. -/
def D3D12Drv_EndScene (st : Driver) (env : EndSceneEnv) : Option (Bool × Driver) :=
  let f := flushPolyCache st env
  if !f.1 then some (false, f.2)
  else
    let st1 := f.2
    let cl := TransitionResource st1.g_pCommandList st1.g_FrameIndex
      ResourceState.RENDER_TARGET ResourceState.PRESENT
    let st2 := { st1 with g_pCommandList := cl, calls := st1.calls ++ [DrvCall.Close env.hrClose] }
    if !env.hrClose then some (false, st2)
    else
      let st3 :=
        { st2 with
          gpu := st2.gpu.submit (QueueItem.ExecuteCommandLists st2.listAllocator cl)
          calls := st2.calls ++
            [DrvCall.ExecuteCommandLists st2.listAllocator, DrvCall.Present env.hrPresent] }
      if !env.hrPresent then some (false, st3)
      else (MoveToNextFrame st3 env.backBufferIndex env.gpuProgress).map (fun s => (true, s))

/-- The function `D3D12Drv_RenderStaticMesh`. -/
def D3D12Drv_RenderStaticMesh (st : Driver) (id : Nat) (StartVertex : Int) (NumPolys : Int)
    (XForm : Option jeXForm3d) : Bool × Driver :=
  match st.g_pPolyCache with
  | none => (false, st)
  | some cache =>
    ((RenderStaticBuffer cache id StartVertex NumPolys XForm).1,
      { st with
        g_pPolyCache := some (RenderStaticBuffer cache id StartVertex NumPolys XForm).2 })

/-! ## Sequences of driver calls -/

/-- One call that the engine makes between `D3D12Drv_Init` and `D3D12Drv_Shutdown`, with what
the swap chain, Direct3D and the GPU do during it: the two fence functions, the submission of
a command list, the two scene functions, and a call that the driver forwards to the polygon
cache. -/
inductive FrameOp where
  | MoveToNextFrame (backBufferIndex : Nat) (gpuProgress : Nat)
  | WaitForGPU (gpuProgress : Nat)
  | ExecuteCommandLists (allocator : Nat) (cmds : List Cmd)
  | BeginScene (Clear : Bool) (ClearZ : Bool) (WorldRect : Option Nat) (Wireframe : Bool)
      (env : BeginSceneEnv)
  | EndScene (env : EndSceneEnv)
  | PolyCache (op : Op)

/-- Whether the back buffer index that a call receives names one of the `FRAME_COUNT`
slots. -/
def FrameOp.slotOk : FrameOp → Bool
  | FrameOp.MoveToNextFrame idx _ => decide (idx < FRAME_COUNT)
  | FrameOp.EndScene env => decide (env.backBufferIndex < FRAME_COUNT)
  | _ => true

/-- The driver after one call; `none` when the call never returns. -/
def frameStep (st : Driver) : FrameOp → Option Driver
  | FrameOp.MoveToNextFrame idx k => MoveToNextFrame st idx k
  | FrameOp.WaitForGPU k => WaitForGPU st k
  | FrameOp.ExecuteCommandLists a cmds =>
    some { st with
           gpu := st.gpu.submit (QueueItem.ExecuteCommandLists a cmds)
           calls := st.calls ++ [DrvCall.ExecuteCommandLists a] }
  | FrameOp.BeginScene c z w wf env => some (D3D12Drv_BeginScene st c z w wf env).2
  | FrameOp.EndScene env => (D3D12Drv_EndScene st env).map (fun r => r.2)
  | FrameOp.PolyCache op =>
    some { st with g_pPolyCache := st.g_pPolyCache.map (fun c => step c op) }

/-- The driver after a sequence of calls; `none` when one of them never returns. -/
def frameRun (st : Driver) : List FrameOp → Option Driver
  | [] => some st
  | op :: rest => (frameStep st op).bind (fun s => frameRun s rest)

/-- The values passed to the `Signal` calls on a queue, in the order of the calls. -/
def signalledValues (queue : List QueueItem) : List Nat :=
  queue.filterMap (fun item =>
    match item with
    | QueueItem.Signal v => some v
    | QueueItem.ExecuteCommandLists _ _ => none)

/-- Two driver states have the same frame index, fence values, queue and fence. -/
def FenceSame (st st2 : Driver) : Prop :=
  st2.g_FrameIndex = st.g_FrameIndex ∧ st2.g_FenceValues = st.g_FenceValues ∧
  st2.g_pCommandQueue = st.g_pCommandQueue ∧ st2.g_pFence = st.g_pFence ∧ st2.gpu = st.gpu

instance FenceSame.decidable (st st2 : Driver) : Decidable (FenceSame st st2) := by
  unfold FenceSame
  infer_instance

/-- The second state differs from the first, as far as frame index, fence values, queue and
fence go, by one command list submitted to the queue. -/
def FenceExec (st st2 : Driver) : Prop :=
  st2.g_FrameIndex = st.g_FrameIndex ∧ st2.g_FenceValues = st.g_FenceValues ∧
  st2.g_pCommandQueue = st.g_pCommandQueue ∧ st2.g_pFence = st.g_pFence ∧
  ∃ a cmds, st2.gpu = st.gpu.submit (QueueItem.ExecuteCommandLists a cmds)

/-- The fence state of a session, while no fence value passes `bound`: queue and fence exist,
the value recorded for the current slot is above the value the fence was created with and
above every value signalled on the queue, the signalled values increase, and the GPU has
finished no more than what was submitted. -/
def SessionInv (st : Driver) (bound : Nat) : Prop :=
  st.g_FrameIndex < FRAME_COUNT ∧ st.g_FenceValues.length = FRAME_COUNT ∧
  st.g_pCommandQueue = true ∧ st.g_pFence = true ∧
  st.g_FenceValues.getD st.g_FrameIndex 0 ≤ bound ∧
  st.gpu.fenceInit < st.g_FenceValues.getD st.g_FrameIndex 0 ∧
  (∀ v ∈ signalledValues st.gpu.queue, v < st.g_FenceValues.getD st.g_FrameIndex 0) ∧
  (signalledValues st.gpu.queue).Pairwise (fun a b => a < b) ∧
  st.gpu.done ≤ st.gpu.queue.length

instance SessionInv.decidable (st : Driver) (bound : Nat) : Decidable (SessionInv st bound) := by
  unfold SessionInv
  infer_instance

/-- The value recorded for the current slot is strictly greater than the value of every
other slot. -/
def CurrentGreatest (st : Driver) : Prop :=
  ∀ j, j < FRAME_COUNT → j ≠ st.g_FrameIndex →
    st.g_FenceValues.getD j 0 < st.g_FenceValues.getD st.g_FrameIndex 0

instance CurrentGreatest.decidable (st : Driver) : Decidable (CurrentGreatest st) := by
  unfold CurrentGreatest
  infer_instance

/-- The fence state after `m` completed alternating frames of a session whose fence was
created with the value `f0`, while no fence value has wrapped: the current slot holds
`f0 + m + 1`, the queue has signalled `f0 + 1` to `f0 + m`, and from the first frame on the
other slot holds `f0 + m`. -/
def AlternatingInv (st : Driver) (f0 m : Nat) : Prop :=
  st.g_FrameIndex < 2 ∧ st.g_FenceValues.length = 2 ∧
  st.g_pCommandQueue = true ∧ st.g_pFence = true ∧
  st.g_FenceValues.getD st.g_FrameIndex 0 = f0 + m + 1 ∧
  (1 ≤ m → st.g_FenceValues.getD (1 - st.g_FrameIndex) 0 = f0 + m) ∧
  st.gpu.fenceInit = f0 ∧
  signalledValues st.gpu.queue = List.range' (f0 + 1) m ∧
  st.gpu.done ≤ st.gpu.queue.length

instance AlternatingInv.decidable (st : Driver) (f0 m : Nat) :
    Decidable (AlternatingInv st f0 m) := by
  unfold AlternatingInv
  infer_instance

/-! ## The driver: stored matrices (`D3D12Drv_SetMatrix`, `D3D12Drv_GetMatrix`) -/

/-- The `DirectX::XMFLOAT4X4`: sixteen floats, row by row. -/
structure XMFLOAT4X4 where
  _11 : FloatVal
  _12 : FloatVal
  _13 : FloatVal
  _14 : FloatVal
  _21 : FloatVal
  _22 : FloatVal
  _23 : FloatVal
  _24 : FloatVal
  _31 : FloatVal
  _32 : FloatVal
  _33 : FloatVal
  _34 : FloatVal
  _41 : FloatVal
  _42 : FloatVal
  _43 : FloatVal
  _44 : FloatVal
deriving DecidableEq, Inhabited

/-- The function `jeXForm3d_ToD3DMatrix`: it assigns all sixteen entries of `*mat`. -/
def jeXForm3d_ToD3DMatrix (XForm : jeXForm3d) : XMFLOAT4X4 :=
  { _11 := XForm.AX, _12 := XForm.AY, _13 := XForm.AZ, _14 := 0
    _21 := XForm.BX, _22 := XForm.BY, _23 := XForm.BZ, _24 := 0
    _31 := XForm.CX, _32 := XForm.CY, _33 := XForm.CZ, _34 := 0
    _41 := XForm.Translation.X, _42 := XForm.Translation.Y, _43 := XForm.Translation.Z
    _44 := 1 }

/-- The function `D3DMatrix_ToXForm3d`: it assigns twelve members of `*XForm`, whose value
before the call is the second argument. -/
def D3DMatrix_ToXForm3d (mat : XMFLOAT4X4) (XForm : jeXForm3d) : jeXForm3d :=
  { XForm with
    AX := mat._11, AY := mat._12, AZ := mat._13
    BX := mat._21, BY := mat._22, BZ := mat._23
    CX := mat._31, CY := mat._32, CZ := mat._33
    Translation := { XForm.Translation with X := mat._41, Y := mat._42, Z := mat._43 } }

/-- The constants `JE_XFORM_TYPE_WORLD`, `JE_XFORM_TYPE_VIEW` and `JE_XFORM_TYPE_PROJECTION`.
They are declared in the engine headers, which are not among the sources, so their values are
taken as given; as labels of one `switch` they are pairwise different. -/
structure XFormTypes where
  JE_XFORM_TYPE_WORLD : Nat
  JE_XFORM_TYPE_VIEW : Nat
  JE_XFORM_TYPE_PROJECTION : Nat
deriving DecidableEq, Inhabited

/-- The three labels of the `switch` are pairwise different. -/
def XFormTypes.distinct (T : XFormTypes) : Prop :=
  T.JE_XFORM_TYPE_WORLD ≠ T.JE_XFORM_TYPE_VIEW ∧
  T.JE_XFORM_TYPE_WORLD ≠ T.JE_XFORM_TYPE_PROJECTION ∧
  T.JE_XFORM_TYPE_VIEW ≠ T.JE_XFORM_TYPE_PROJECTION

instance XFormTypes.distinct.decidable (T : XFormTypes) : Decidable T.distinct := by
  unfold XFormTypes.distinct
  infer_instance

/-- The globals `g_WorldMatrix`, `g_ViewMatrix` and `g_ProjMatrix`. -/
structure Matrices where
  g_WorldMatrix : XMFLOAT4X4
  g_ViewMatrix : XMFLOAT4X4
  g_ProjMatrix : XMFLOAT4X4
deriving DecidableEq, Inhabited

/-- The function `D3D12Drv_SetMatrix`. -/
def D3D12Drv_SetMatrix (T : XFormTypes) (m : Matrices) (Type_ : Nat) (Matrix : jeXForm3d) :
    Bool × Matrices :=
  if Type_ = T.JE_XFORM_TYPE_WORLD then
    (true, { m with g_WorldMatrix := jeXForm3d_ToD3DMatrix Matrix })
  else if Type_ = T.JE_XFORM_TYPE_VIEW then
    (true, { m with g_ViewMatrix := jeXForm3d_ToD3DMatrix Matrix })
  else if Type_ = T.JE_XFORM_TYPE_PROJECTION then
    (true, { m with g_ProjMatrix := jeXForm3d_ToD3DMatrix Matrix })
  else (false, m)

/-- The function `D3D12Drv_GetMatrix`; the second component is `*Matrix` after the call. -/
def D3D12Drv_GetMatrix (T : XFormTypes) (m : Matrices) (Type_ : Nat) (Matrix : jeXForm3d) :
    Bool × jeXForm3d :=
  if Type_ = T.JE_XFORM_TYPE_WORLD then (true, D3DMatrix_ToXForm3d m.g_WorldMatrix Matrix)
  else if Type_ = T.JE_XFORM_TYPE_VIEW then (true, D3DMatrix_ToXForm3d m.g_ViewMatrix Matrix)
  else if Type_ = T.JE_XFORM_TYPE_PROJECTION then
    (true, D3DMatrix_ToXForm3d m.g_ProjMatrix Matrix)
  else (false, Matrix)

/-! ## Texture sizes: `Log2`, `SnapToPower2`, `GetLog` -/

/-- Conversion of a `uint32` value to `int32`. -/
def toInt32 (x : Nat) : Int :=
  if x % UINT_RANGE < 2 ^ 31 then ((x % UINT_RANGE : Nat) : Int)
  else ((x % UINT_RANGE : Nat) : Int) - 2 ^ 32

/-- Conversion of an `int32` value to `uint32`. -/
def toUint32 (x : Int) : Nat := (x % 2 ^ 32).toNat

/-- The loop `for (i = P2; i > 0; i >>= 1) p++;` of `Log2`, on the `int32` `i` and the
`uint32` `p`; `fuel` bounds the number of iterations. -/
def Log2Loop : Nat → Int → Nat → Nat
  | 0, _, p => p
  | fuel + 1, i, p => if i > 0 then Log2Loop fuel (i / 2) ((p + 1) % UINT_RANGE) else p

/-- The function `Log2`. The loop variable is an `int32` of at most 31 significant bits, so
32 is enough fuel; `p - 1` is computed in `uint32`. -/
def Log2 (P2 : Nat) : Nat :=
  (Log2Loop 32 (toInt32 P2) 0 + UINT_RANGE - 1) % UINT_RANGE

/-- The function `SnapToPower2`. -/
def SnapToPower2 (Width : Int) : Int :=
  if Width ≤ 1 then 1
  else if Width ≤ 2 then 2
  else if Width ≤ 4 then 4
  else if Width ≤ 8 then 8
  else if Width ≤ 16 then 16
  else if Width ≤ 32 then 32
  else if Width ≤ 64 then 64
  else if Width ≤ 128 then 128
  else if Width ≤ 256 then 256
  else if Width ≤ 512 then 512
  else if Width ≤ 1024 then 1024
  else if Width ≤ 2048 then 2048
  else if Width ≤ 4096 then 4096
  else -1

/-- The function `GetLog`. The `int32` result of `SnapToPower2` is converted to the `uint32`
parameter of `Log2`, and the `uint32` result of `Log2` to the `int32` return value. -/
def GetLog (Width : Int) (Height : Int) : Int :=
  toInt32 (Log2 (toUint32 (SnapToPower2 (max Width Height))))

/-! ## Concrete inputs -/

/-- A vertex array holding the four corners of a quad (and zero vertices beyond them). -/
def quadPnts : Nat → jeTLVertex := fun i =>
  match i with
  | 0 => { x := 0, y := 0, z := 1, u := 0, v := 0, r := 1, g := 0, b := 0, a := 1 }
  | 1 => { x := 1, y := 0, z := 1, u := 1, v := 0, r := 0, g := 1, b := 0, a := 1 }
  | 2 => { x := 1, y := 1, z := 1, u := 1, v := 1, r := 0, g := 0, b := 1, a := 1 }
  | 3 => { x := 0, y := 1, z := 1, u := 0, v := 1, r := 1, g := 1, b := 1, a := 1 }
  | _ => default

/-- An environment in which every step of `Initialize` succeeds. -/
def goodEnv : InitEnv :=
  { serializeOk := true
    rootSignature := some 1
    vertexShaderOk := true
    colorPixelShaderOk := true
    pipelineState := some 2
    wireframePSO := some 3 }

/-- A freshly constructed cache. -/
def freshCache : D3D12PolyCache := D3D12PolyCache.new default

/-- A freshly constructed cache after a successful `Initialize`. -/
def readyCache : D3D12PolyCache := (Initialize freshCache (some 7) (some 8) goodEnv).2

/-- A ready cache on which the quad has been submitted: six staged vertices, no dynamic
buffer yet. -/
def stagedCache : D3D12PolyCache := (AddGouraudPoly readyCache quadPnts 4 0).2

/-- A ready cache on which two fans of `2 ^ 30 + 2` points each have been submitted:
`3 * 2 ^ 31` staged vertices. -/
def hugeCache : D3D12PolyCache :=
  (AddGouraudPoly (AddGouraudPoly readyCache quadPnts ((2 ^ 30 + 2 : Nat) : Int) 0).2 quadPnts
    ((2 ^ 30 + 2 : Nat) : Int) 0).2

/-- A call sequence on a fresh cache: a fan of `2 ^ 30 + 2` points is flushed, then one
triangle is flushed. -/
def shrinkOps : List Op :=
  [ Op.Initialize (some 7) (some 8) goodEnv,
    Op.AddGouraudPoly quadPnts ((2 ^ 30 + 2 : Nat) : Int) 0,
    Op.Flush (some []) (some 4096) true,
    Op.AddGouraudPoly quadPnts ((3 : Nat) : Int) 0,
    Op.Flush (some []) (some 8192) true ]

/-- A call sequence on a fresh cache: the quad is flushed, then one triangle is flushed. -/
def twoFrameOps : List Op :=
  [ Op.Initialize (some 7) (some 8) goodEnv,
    Op.AddGouraudPoly quadPnts 4 0,
    Op.Flush (some []) (some 4096) true,
    Op.AddGouraudPoly quadPnts 3 0,
    Op.Flush (some []) (some 8192) true ]

/-- A raw vertex array whose every entry is the zero vertex. -/
def zeroPoints : Nat → jeHWVertex := fun _ => default

/-- A layer array whose every entry is the zero descriptor. -/
def zeroLayers : Nat → jeRDriver_Layer := fun _ => default

/-- A raw vertex array whose every entry has the packed colour `0x80402010`: the bytes 128,
64, 32 and 16. -/
def tintedPoints : Nat → jeHWVertex := fun _ =>
  { Pos := { X := 1, Y := 2, Z := 3 }, Diffuse := 0x80402010, u := 4, v := 5, lu := 6, lv := 7 }

/-- An `AddStaticBuffer` call with valid arguments whose allocation fails. -/
def failingCreate : Op := Op.AddStaticBuffer (some zeroPoints) 1 zeroLayers 0 0 none true

/-- An `AddStaticBuffer` call with valid arguments whose allocation and upload succeed. -/
def goodCreate : Op := Op.AddStaticBuffer (some zeroPoints) 1 zeroLayers 0 0 (some 4096) true

/-- A call sequence on a fresh cache: the first creation fails in the allocation, the second
succeeds. -/
def burnOps : List Op :=
  [Op.Initialize (some 7) (some 8) goodEnv, failingCreate, goodCreate]

/-- A call sequence on a fresh cache: three creations, the removal of the second buffer, a
fourth creation. -/
def createRemoveOps : List Op :=
  [ Op.Initialize (some 7) (some 8) goodEnv, goodCreate, goodCreate, goodCreate,
    Op.RemoveStaticBuffer 2, goodCreate ]

/-- A call sequence on a fresh cache: `2 ^ 32 - 1` creations with valid arguments. -/
def wrapOps : List Op :=
  Op.Initialize (some 7) (some 8) goodEnv :: List.replicate (UINT_RANGE - 1) failingCreate

/-- A ready cache holding one static buffer, registered under handle 1. -/
def oneBufferCache : D3D12PolyCache :=
  (AddStaticBuffer readyCache (some zeroPoints) 1 zeroLayers 0 0 (some 4096) true).2

/-- A call sequence on a fresh cache: `2 ^ 32 - 2` creations with valid arguments. -/
def nearWrapOps : List Op :=
  Op.Initialize (some 7) (some 8) goodEnv :: List.replicate (UINT_RANGE - 2) failingCreate

/-- A call sequence on a fresh cache: one buffer is created under handle 1 and removed, then
`2 ^ 32 - 1` more creations with valid arguments follow. -/
def aliasOps : List Op :=
  Op.Initialize (some 7) (some 8) goodEnv :: goodCreate :: Op.RemoveStaticBuffer 1 ::
    List.replicate (UINT_RANGE - 1) failingCreate

/-- The cache that held one buffer, after the removal of handle 1. -/
def removedCache : D3D12PolyCache := (RemoveStaticBuffer oneBufferCache 1).2

/-- The driver after a successful `D3D12Drv_Init` whose swap chain starts at back buffer 0,
with a polygon cache that holds one static buffer under handle 1. -/
def driver0 : Driver := postInit 0 oneBufferCache

/-- An environment in which both resets of `D3D12Drv_BeginScene` succeed. -/
def goodBegin : BeginSceneEnv := { hrAllocatorReset := true, hrListReset := true }

/-- The driver `driver0` after a successful `D3D12Drv_BeginScene`: a scene is open on
slot 0. -/
def sceneOpen : Driver := (D3D12Drv_BeginScene driver0 true true none false goodBegin).2

/-- An environment for `D3D12Drv_EndScene` in which `Present` fails and the GPU makes no
progress during the call. -/
def presentFails : EndSceneEnv :=
  { hrCreate := some 4096
    hrMap := true
    hrClose := true
    hrPresent := false
    backBufferIndex := 1
    gpuProgress := 0 }

/-- The driver after `D3D12Drv_EndScene` has failed in `Present` on the open scene. -/
def afterFailedPresent : Driver :=
  ((D3D12Drv_EndScene sceneOpen presentFails).getD (false, default)).2

/-- Values for the three matrix type constants. -/
def sampleTypes : XFormTypes :=
  { JE_XFORM_TYPE_WORLD := 0, JE_XFORM_TYPE_VIEW := 1, JE_XFORM_TYPE_PROJECTION := 2 }

/-- A transform with twelve different components. -/
def sampleXForm : jeXForm3d :=
  { AX := 1, AY := 2, AZ := 3, BX := 4, BY := 5, BZ := 6, CX := 7, CY := 8, CZ := 9
    Translation := { X := 10, Y := 11, Z := 12 } }

/-- An environment for `D3D12Drv_EndScene` in which every call succeeds, the swap chain moves
to back buffer 1 and the GPU finishes two entries during the call. -/
def goodEnd : EndSceneEnv :=
  { hrCreate := some 4096
    hrMap := true
    hrClose := true
    hrPresent := true
    backBufferIndex := 1
    gpuProgress := 2 }

/-- An environment for `D3D12Drv_EndScene` in which the allocation inside `Flush` fails. -/
def flushFails : EndSceneEnv :=
  { hrCreate := none
    hrMap := true
    hrClose := true
    hrPresent := true
    backBufferIndex := 1
    gpuProgress := 2 }

/-- The open scene after the quad has been submitted to the polygon cache. -/
def stagedScene : Driver := { sceneOpen with g_pPolyCache := some stagedCache }

/-- The frame globals when `D3D12Drv_Init` has created the command list, the queue and the
fence and has then failed in `CreateEvent`: `g_pPolyCache` is still null. A scene has been
begun on them. -/
def noCacheScene : Driver :=
  (D3D12Drv_BeginScene { postInit 0 freshCache with g_pPolyCache := none } true true none false
    goodBegin).2

/-- One frame on the slot that `D3D12Drv_Init` selected: a scene is begun and ended with
success, and the swap chain moves to back buffer 1. -/
def frameOne : List FrameOp :=
  [FrameOp.BeginScene true true none false goodBegin, FrameOp.EndScene goodEnd]

/-- The GPU is drained, then a second frame is begun and ended with success, and the swap
chain moves back to back buffer 0. -/
def drainThenFrame : List FrameOp :=
  [ FrameOp.WaitForGPU 0, FrameOp.BeginScene true true none false goodBegin,
    FrameOp.EndScene { goodEnd with backBufferIndex := 0 } ]

/-- The globals after a first `D3D12Drv_Init`, one frame and `D3D12Drv_Shutdown`: the queue
and the fence are released, `g_FenceValues` is `[1, 3]` and the frame index is 1. -/
def afterShutdown : Driver :=
  (((frameRun (D3D12Drv_Init processStart (firstInit 0)).2 frameOne).bind
    (fun s => D3D12Drv_Shutdown s 0)).getD (false, default)).2

theorem fanLoop_eq (Pnts : Nat → jeTLVertex) :
    ∀ (m fuel k : Nat) (vs : List D3D12Vertex), m ≤ fuel →
      fanLoop Pnts ((k + 2 + m : Nat) : Int) fuel (k + 2) vs
        = vs ++ (List.range' k m).flatMap (fanTriangle Pnts) := by
  intro m
  induction m with
  | zero =>
    intro fuel k vs _
    cases fuel with
    | zero => simp [fanLoop]
    | succ f => simp [fanLoop]
  | succ m ih =>
    intro fuel k vs hle
    cases fuel with
    | zero => omega
    | succ f =>
      have hlt : ((k + 2 : Nat) : Int) < ((k + 2 + (m + 1) : Nat) : Int) := by omega
      have hN : k + 2 + (m + 1) = (k + 1) + 2 + m := by omega
      have hstep := ih f (k + 1) (((vs ++ [toD3D12Vertex (Pnts 0)]) ++
        [toD3D12Vertex (Pnts (k + 2 - 1))]) ++ [toD3D12Vertex (Pnts (k + 2))]) (by omega)
      rw [fanLoop, if_pos hlt]
      simp only []
      rw [hN, hstep]
      simp [List.range'_succ, fanTriangle, List.append_assoc]

theorem fanTriangles_length (Pnts : Nat → jeTLVertex) (n : Nat) :
    (fanTriangles Pnts n).length = 3 * n := by
  induction n with
  | zero => simp [fanTriangles]
  | succ n ih =>
    simp only [fanTriangles] at ih ⊢
    rw [List.range_succ, List.flatMap_append, List.length_append, ih]
    simp [fanTriangle]
    omega

theorem fanTriangles_block (Pnts : Nat → jeTLVertex) :
    ∀ (n k : Nat), k < n →
      ((fanTriangles Pnts n).drop (3 * k)).take 3 = fanTriangle Pnts k := by
  intro n
  induction n with
  | zero => intro k hk; omega
  | succ n ih =>
    intro k hk
    have hsplit : fanTriangles Pnts (n + 1) = fanTriangles Pnts n ++ fanTriangle Pnts n := by
      simp [fanTriangles, List.range_succ, List.flatMap_append]
    have hlen := fanTriangles_length Pnts n
    rw [hsplit]
    by_cases hkn : k < n
    · have h1 : 3 * k ≤ (fanTriangles Pnts n).length := by omega
      rw [List.drop_append_of_le_length h1]
      have h2 : 3 ≤ ((fanTriangles Pnts n).drop (3 * k)).length := by
        rw [List.length_drop]; omega
      rw [List.take_append_of_le_length h2]
      exact ih k hkn
    · have hk2 : k = n := by omega
      subst hk2
      have h1 : 3 * k = (fanTriangles Pnts k).length := by omega
      rw [h1, List.drop_left]
      simp [fanTriangle]

theorem AddGouraudPoly_ok (s : D3D12PolyCache) (Pnts : Nat → jeTLVertex) (N : Nat) (Flags : Nat)
    (hinit : s.m_bInitialized = true) (hN : 3 ≤ N) :
    AddGouraudPoly s Pnts (N : Int) Flags
      = (true, { s with m_Vertices := s.m_Vertices ++ fanTriangles Pnts (N - 2) }) := by
  have hnot : ¬ ((N : Int) < 3) := by omega
  have hsplit : N = 0 + 2 + (N - 2) := by omega
  have hloop := fanLoop_eq Pnts (N - 2) N 0 s.m_Vertices (by omega)
  rw [← hsplit] at hloop
  simp only [AddGouraudPoly, hinit, hnot, Bool.not_true, decide_False, Bool.or_self,
    Bool.false_eq_true, if_false, Int.toNat_ofNat]
  rw [hloop, fanTriangles, List.range_eq_range']

/-- Claim C1. On an initialized cache, `AddGouraudPoly` with `N >= 3` points returns `true` and
appends to the staging list exactly the `N - 2` fan triangles, `3 * (N - 2)` vertices, the
`k`-th of them being `(v[0], v[k+1], v[k+2])`; every staged vertex carries the position, colour
and primary texture coordinate of the point it was built from; the vertices staged before are
kept in front and no other field of the cache changes. -/
theorem C1_fan_triangulation (s : D3D12PolyCache) (Pnts : Nat → jeTLVertex) (N : Nat)
    (Flags : Nat) (hinit : s.m_bInitialized = true) (hN : 3 ≤ N) :
    (AddGouraudPoly s Pnts (N : Int) Flags).1 = true ∧
    (AddGouraudPoly s Pnts (N : Int) Flags).2
      = { s with m_Vertices := s.m_Vertices ++ fanTriangles Pnts (N - 2) } ∧
    (fanTriangles Pnts (N - 2)).length = 3 * (N - 2) ∧
    (∀ k, k < N - 2 →
      ((fanTriangles Pnts (N - 2)).drop (3 * k)).take 3
        = [toD3D12Vertex (Pnts 0), toD3D12Vertex (Pnts (k + 1)), toD3D12Vertex (Pnts (k + 2))]) ∧
    (∀ p : jeTLVertex,
      ((toD3D12Vertex p).x = p.x ∧ (toD3D12Vertex p).y = p.y ∧ (toD3D12Vertex p).z = p.z) ∧
      ((toD3D12Vertex p).r = p.r ∧ (toD3D12Vertex p).g = p.g ∧ (toD3D12Vertex p).b = p.b ∧
        (toD3D12Vertex p).a = p.a) ∧
      ((toD3D12Vertex p).u = p.u ∧ (toD3D12Vertex p).v = p.v)) := by
  rw [AddGouraudPoly_ok s Pnts N Flags hinit hN]
  refine ⟨rfl, rfl, fanTriangles_length Pnts (N - 2), ?_, ?_⟩
  · intro k hk
    exact fanTriangles_block Pnts (N - 2) k hk
  · intro p
    exact ⟨⟨rfl, rfl, rfl⟩, ⟨rfl, rfl, rfl, rfl⟩, ⟨rfl, rfl⟩⟩

/-- Witness of C1: the quad, a fan of four points, on a ready cache. -/
theorem C1_fan_triangulation_witness :
    (readyCache.m_bInitialized = true ∧ 3 ≤ 4) ∧
    (AddGouraudPoly readyCache quadPnts ((4 : Nat) : Int) 0).1 = true ∧
    (AddGouraudPoly readyCache quadPnts ((4 : Nat) : Int) 0).2
      = { readyCache with m_Vertices := readyCache.m_Vertices ++ fanTriangles quadPnts (4 - 2) } ∧
    (fanTriangles quadPnts (4 - 2)).length = 3 * (4 - 2) :=
  ⟨⟨rfl, by decide⟩,
    (C1_fan_triangulation readyCache quadPnts 4 0 rfl (by decide)).1,
    (C1_fan_triangulation readyCache quadPnts 4 0 rfl (by decide)).2.1,
    (C1_fan_triangulation readyCache quadPnts 4 0 rfl (by decide)).2.2.1⟩

/-- Claim C2. `AddGouraudPoly` called with fewer than three points (zero and negative counts
included) or on a cache that is not initialized returns `false` and leaves the whole cache,
staging list included, as it was. -/
theorem C2_add_polygon_rejection (s : D3D12PolyCache) (Pnts : Nat → jeTLVertex)
    (NumPoints : Int) (Flags : Nat) (h : NumPoints < 3 ∨ s.m_bInitialized = false) :
    AddGouraudPoly s Pnts NumPoints Flags = (false, s) := by
  unfold AddGouraudPoly
  rcases h with h | h
  · simp [h]
  · simp [h]

/-- Witness of C2: two points on a ready cache. -/
theorem C2_add_polygon_rejection_witness :
    ((2 : Int) < 3 ∨ readyCache.m_bInitialized = false) ∧
    AddGouraudPoly readyCache quadPnts 2 0 = (false, readyCache) :=
  ⟨Or.inl (by decide), C2_add_polygon_rejection readyCache quadPnts 2 0 (Or.inl (by decide))⟩

/-! ## Flush -/

theorem Flush_idle (s : D3D12PolyCache) (pCmdList : Option (List Cmd)) (hrCreate : Option Nat)
    (hrMap : Bool)
    (h : s.m_bInitialized = false ∨ s.m_Vertices = [] ∨ pCmdList = none) :
    Flush s pCmdList hrCreate hrMap
      = { ret := true, cache := s, pCmdList := pCmdList, events := [] } := by
  unfold Flush
  rcases h with h | h | h <;> simp [h]

theorem Flush_fail (s : D3D12PolyCache) (cl : List Cmd) (hrMap : Bool)
    (hinit : s.m_bInitialized = true) (hne : s.m_Vertices ≠ [])
    (hneed : s.m_pDynamicVB = none ∨
      s.m_DynamicVBView.SizeInBytes < sizeofD3D12Vertex * s.m_Vertices.length) :
    Flush s (some cl) none hrMap
      = { ret := false
          cache := { s with m_pDynamicVB := none }
          pCmdList := some cl
          events := [Event.ResetDynamicVB,
            Event.CreateCommittedResource (sizeofD3D12Vertex * s.m_Vertices.length)] } := by
  unfold Flush
  rcases hneed with h | h <;> simp [hinit, hne, h]

theorem Flush_grow (s : D3D12PolyCache) (cl : List Cmd) (addr : Nat) (hrMap : Bool)
    (hinit : s.m_bInitialized = true) (hne : s.m_Vertices ≠ [])
    (hneed : s.m_pDynamicVB = none ∨
      s.m_DynamicVBView.SizeInBytes < sizeofD3D12Vertex * s.m_Vertices.length) :
    Flush s (some cl) (some addr) hrMap
      = { ret := true
          cache :=
            { s with
              m_pDynamicVB :=
                some { Width := sizeofD3D12Vertex * s.m_Vertices.length
                       gpuVirtualAddress := addr
                       data := if hrMap then s.m_Vertices else [] }
              m_DynamicVBView :=
                { BufferLocation := addr
                  StrideInBytes := sizeofD3D12Vertex
                  SizeInBytes := (sizeofD3D12Vertex * s.m_Vertices.length) % UINT_RANGE }
              m_Vertices := [] }
          pCmdList := some (cl ++
            [ Cmd.SetGraphicsRootSignature s.m_pRootSignature,
              Cmd.SetPipelineState s.m_pPipelineState,
              Cmd.IASetPrimitiveTopology Topology.TRIANGLELIST,
              Cmd.IASetVertexBuffers 0 1
                { BufferLocation := addr
                  StrideInBytes := sizeofD3D12Vertex
                  SizeInBytes := (sizeofD3D12Vertex * s.m_Vertices.length) % UINT_RANGE },
              Cmd.DrawInstanced (s.m_Vertices.length % UINT_RANGE) 1 0 0 ])
          events :=
            [Event.ResetDynamicVB,
              Event.CreateCommittedResource (sizeofD3D12Vertex * s.m_Vertices.length)] ++
            (if hrMap then
              [Event.Map, Event.Memcpy (sizeofD3D12Vertex * s.m_Vertices.length), Event.Unmap]
             else [Event.Map]) } := by
  unfold Flush
  rcases hneed with h | h <;> cases hrMap <;> simp [hinit, hne, h]

theorem Flush_keep (s : D3D12PolyCache) (cl : List Cmd) (hrCreate : Option Nat) (hrMap : Bool)
    (res : Resource)
    (hinit : s.m_bInitialized = true) (hne : s.m_Vertices ≠ [])
    (hvb : s.m_pDynamicVB = some res)
    (hfit : sizeofD3D12Vertex * s.m_Vertices.length ≤ s.m_DynamicVBView.SizeInBytes) :
    Flush s (some cl) hrCreate hrMap
      = { ret := true
          cache :=
            { s with
              m_pDynamicVB :=
                some (if hrMap then
                  { res with data := s.m_Vertices ++ res.data.drop s.m_Vertices.length }
                 else res)
              m_Vertices := [] }
          pCmdList := some (cl ++
            [ Cmd.SetGraphicsRootSignature s.m_pRootSignature,
              Cmd.SetPipelineState s.m_pPipelineState,
              Cmd.IASetPrimitiveTopology Topology.TRIANGLELIST,
              Cmd.IASetVertexBuffers 0 1 s.m_DynamicVBView,
              Cmd.DrawInstanced (s.m_Vertices.length % UINT_RANGE) 1 0 0 ])
          events :=
            if hrMap then
              [Event.Map, Event.Memcpy (sizeofD3D12Vertex * s.m_Vertices.length), Event.Unmap]
            else [Event.Map] } := by
  have hnlt : ¬ s.m_DynamicVBView.SizeInBytes < sizeofD3D12Vertex * s.m_Vertices.length := by
    omega
  unfold Flush
  cases hrMap <;> simp [hinit, hne, hvb, hnlt]

theorem hugeCache_facts :
    hugeCache.m_bInitialized = true ∧ hugeCache.m_pDynamicVB = none ∧
    hugeCache.m_pRootSignature = some 1 ∧ hugeCache.m_pPipelineState = some 2 ∧
    hugeCache.m_Vertices.length = 3 * 2 ^ 31 := by
  have h1 := AddGouraudPoly_ok readyCache quadPnts (2 ^ 30 + 2) 0 rfl (by omega)
  have h2 := AddGouraudPoly_ok
    { readyCache with
      m_Vertices := readyCache.m_Vertices ++ fanTriangles quadPnts (2 ^ 30 + 2 - 2) }
    quadPnts (2 ^ 30 + 2) 0 rfl (by omega)
  have hlen : (fanTriangles quadPnts (2 ^ 30 + 2 - 2)).length = 3 * 2 ^ 30 := by
    rw [fanTriangles_length, Nat.add_sub_cancel]
  unfold hugeCache
  rw [h1]
  simp only []
  rw [h2]
  refine ⟨rfl, rfl, rfl, rfl, ?_⟩
  simp only [List.length_append, hlen]
  have hr : readyCache.m_Vertices.length = 0 := rfl
  rw [hr]
  norm_num

/-- Claim C3, as amended. On an initialized cache with `n > 0` staged vertices and a non-null
command list, when the allocation succeeds in case one is needed, `Flush` returns `true`,
appends to the command list the root signature, the pipeline state, the triangle-list
topology, the binding of the dynamic buffer view and exactly one `DrawInstanced` whose vertex
count is `n` narrowed to a `UINT` (so `n` itself below `2 ^ 32`), and leaves the staging list
empty; the dynamic buffer is present afterwards and the bound view points at it whenever the
view pointed at the buffer before. -/
theorem C3_flush_nonempty_batch (s : D3D12PolyCache) (cl : List Cmd) (hrCreate : Option Nat)
    (hrMap : Bool) (hinit : s.m_bInitialized = true) (hne : s.m_Vertices ≠ [])
    (halloc : (s.m_pDynamicVB = none ∨
        s.m_DynamicVBView.SizeInBytes < sizeofD3D12Vertex * s.m_Vertices.length) →
      hrCreate ≠ none) :
    (Flush s (some cl) hrCreate hrMap).ret = true ∧
    (Flush s (some cl) hrCreate hrMap).cache.m_Vertices = [] ∧
    (Flush s (some cl) hrCreate hrMap).pCmdList = some (cl ++
      [ Cmd.SetGraphicsRootSignature s.m_pRootSignature,
        Cmd.SetPipelineState s.m_pPipelineState,
        Cmd.IASetPrimitiveTopology Topology.TRIANGLELIST,
        Cmd.IASetVertexBuffers 0 1 (Flush s (some cl) hrCreate hrMap).cache.m_DynamicVBView,
        Cmd.DrawInstanced (s.m_Vertices.length % UINT_RANGE) 1 0 0 ]) ∧
    (s.m_Vertices.length < UINT_RANGE →
      s.m_Vertices.length % UINT_RANGE = s.m_Vertices.length) ∧
    (∃ res, (Flush s (some cl) hrCreate hrMap).cache.m_pDynamicVB = some res) ∧
    (ViewBound s → ViewBound (Flush s (some cl) hrCreate hrMap).cache) := by
  by_cases hneed : s.m_pDynamicVB = none ∨
      s.m_DynamicVBView.SizeInBytes < sizeofD3D12Vertex * s.m_Vertices.length
  · obtain ⟨addr, haddr⟩ := Option.ne_none_iff_exists'.mp (halloc hneed)
    subst haddr
    rw [Flush_grow s cl addr hrMap hinit hne hneed]
    refine ⟨rfl, rfl, rfl, fun h => Nat.mod_eq_of_lt h, ⟨_, rfl⟩, ?_⟩
    intro _
    simp [ViewBound]
  · have hvb : s.m_pDynamicVB ≠ none := fun h => hneed (Or.inl h)
    obtain ⟨res, hres⟩ := Option.ne_none_iff_exists'.mp hvb
    have hfit : sizeofD3D12Vertex * s.m_Vertices.length ≤ s.m_DynamicVBView.SizeInBytes := by
      have := fun h => hneed (Or.inr h)
      omega
    rw [Flush_keep s cl hrCreate hrMap res hinit hne hres hfit]
    refine ⟨rfl, rfl, rfl, fun h => Nat.mod_eq_of_lt h, ⟨_, rfl⟩, ?_⟩
    intro hb
    unfold ViewBound at hb ⊢
    rw [hres] at hb
    cases hrMap <;> exact hb

/-- Witness of C3: the scenario of the specification. The quad submitted to a ready cache
stages six vertices; the flush records one draw of six vertices and empties the list. -/
theorem C3_flush_nonempty_batch_witness :
    (stagedCache.m_bInitialized = true ∧ stagedCache.m_Vertices.length = 6) ∧
    (Flush stagedCache (some []) (some 4096) true).ret = true ∧
    (Flush stagedCache (some []) (some 4096) true).cache.m_Vertices = [] ∧
    (Flush stagedCache (some []) (some 4096) true).pCmdList = some
      [ Cmd.SetGraphicsRootSignature (some 1),
        Cmd.SetPipelineState (some 2),
        Cmd.IASetPrimitiveTopology Topology.TRIANGLELIST,
        Cmd.IASetVertexBuffers 0 1
          { BufferLocation := 4096, SizeInBytes := 264, StrideInBytes := 44 },
        Cmd.DrawInstanced 6 1 0 0 ] :=
  ⟨⟨rfl, rfl⟩,
    (C3_flush_nonempty_batch stagedCache [] (some 4096) true rfl (by decide)
      (fun _ => by decide)).1,
    (C3_flush_nonempty_batch stagedCache [] (some 4096) true rfl (by decide)
      (fun _ => by decide)).2.1,
    (C3_flush_nonempty_batch stagedCache [] (some 4096) true rfl (by decide)
      (fun _ => by decide)).2.2.1⟩

/-- Counterexample to C3 as stated. With a null command list an initialized cache holding six
staged vertices returns `true` from `Flush` although the allocation would succeed, records
nothing and keeps the six vertices; and with the `3 * 2 ^ 31` staged vertices of two fans of
`2 ^ 30 + 2` points the recorded draw has vertex count `2 ^ 31`. -/
theorem C3_counterexample :
    (stagedCache.m_bInitialized = true ∧ stagedCache.m_Vertices.length = 6 ∧
      (Flush stagedCache none (some 4096) true).ret = true ∧
      (Flush stagedCache none (some 4096) true).pCmdList = none ∧
      (Flush stagedCache none (some 4096) true).events = [] ∧
      (Flush stagedCache none (some 4096) true).cache.m_Vertices.length = 6) ∧
    (hugeCache.m_bInitialized = true ∧ hugeCache.m_Vertices.length = 3 * 2 ^ 31 ∧
      (Flush hugeCache (some []) (some 4096) true).ret = true ∧
      (Flush hugeCache (some []) (some 4096) true).pCmdList = some
        [ Cmd.SetGraphicsRootSignature (some 1),
          Cmd.SetPipelineState (some 2),
          Cmd.IASetPrimitiveTopology Topology.TRIANGLELIST,
          Cmd.IASetVertexBuffers 0 1
            { BufferLocation := 4096, SizeInBytes := 0, StrideInBytes := 44 },
          Cmd.DrawInstanced (2 ^ 31) 1 0 0 ]) := by
  refine ⟨⟨rfl, rfl, ?_⟩, ⟨hugeCache_facts.1, hugeCache_facts.2.2.2.2, ?_⟩⟩
  · rw [Flush_idle stagedCache none (some 4096) true (Or.inr (Or.inr rfl))]
    exact ⟨rfl, rfl, rfl, rfl⟩
  · have hf := hugeCache_facts
    have hne : hugeCache.m_Vertices ≠ [] := by
      intro h0
      have hl := hf.2.2.2.2
      rw [h0] at hl
      simp at hl
    rw [Flush_grow hugeCache [] 4096 true hf.1 hne (Or.inl hf.2.1), hf.2.2.2.2, hf.2.2.1,
      hf.2.2.2.1]
    refine ⟨rfl, ?_⟩
    have h1 : sizeofD3D12Vertex * (3 * 2 ^ 31) % UINT_RANGE = 0 := by
      unfold sizeofD3D12Vertex UINT_RANGE
      norm_num
    have h2 : 3 * 2 ^ 31 % UINT_RANGE = 2 ^ 31 := by
      unfold UINT_RANGE
      norm_num
    simp only [h1, h2]
    rfl

/-- Claim C4. On a cache whose staging list is empty, `Flush` returns `true`, leaves the
command list as it was (no bind, no draw), makes no call on the device or the dynamic buffer
(no allocation), and returns the cache unchanged in every field, dynamic buffer and recorded
capacity included; a second `Flush` on the result gives the same result again. -/
theorem C4_flush_empty (s : D3D12PolyCache) (pCmdList : Option (List Cmd))
    (hrCreate : Option Nat) (hrMap : Bool) (hrCreate2 : Option Nat) (hrMap2 : Bool)
    (hempty : s.m_Vertices = []) :
    Flush s pCmdList hrCreate hrMap
      = { ret := true, cache := s, pCmdList := pCmdList, events := [] } ∧
    Flush (Flush s pCmdList hrCreate hrMap).cache (Flush s pCmdList hrCreate hrMap).pCmdList
        hrCreate2 hrMap2
      = Flush s pCmdList hrCreate hrMap := by
  have h1 := Flush_idle s pCmdList hrCreate hrMap (Or.inr (Or.inl hempty))
  have h2 := Flush_idle s pCmdList hrCreate2 hrMap2 (Or.inr (Or.inl hempty))
  refine ⟨h1, ?_⟩
  rw [h1]
  exact h2

/-- Witness of C4: a ready cache with nothing staged, flushed on an empty command list. -/
theorem C4_flush_empty_witness :
    readyCache.m_Vertices = [] ∧
    Flush readyCache (some []) (some 4096) true
      = { ret := true, cache := readyCache, pCmdList := some [], events := [] } :=
  ⟨rfl, (C4_flush_empty readyCache (some []) (some 4096) true none false rfl).1⟩

/-- Claim C5, evaluated on the code. The ready cache holding the six staged vertices of the
quad has no dynamic buffer, so `Flush` must allocate; when the allocation fails `Flush` returns
`false` and records no command, but the six vertices are still staged when it returns. -/
theorem C5_alloc_failure_keeps_staging :
    stagedCache.m_bInitialized = true ∧
    stagedCache.m_Vertices.length = 6 ∧
    (Flush stagedCache (some []) none true).ret = false ∧
    (Flush stagedCache (some []) none true).pCmdList = some [] ∧
    (Flush stagedCache (some []) none true).cache.m_Vertices = stagedCache.m_Vertices ∧
    (Flush stagedCache (some []) none true).cache.m_Vertices.length = 6 := by
  rw [Flush_fail stagedCache [] true rfl (by decide) (Or.inl rfl)]
  exact ⟨rfl, rfl, rfl, rfl, rfl, rfl⟩

/-- Claim C6, evaluated on the code. After a `Flush` that fails in the allocation, submitting
one triangle (`N = 3`) and flushing with success records a draw of nine vertices, not three,
and the vertices uploaded for that draw are the six of the earlier quad followed by the three
of the triangle. -/
theorem C6_residue_after_failed_flush :
    (Flush stagedCache (some []) none true).ret = false ∧
    (AddGouraudPoly (Flush stagedCache (some []) none true).cache quadPnts 3 0).1 = true ∧
    (Flush (AddGouraudPoly (Flush stagedCache (some []) none true).cache quadPnts 3 0).2
      (some []) (some 4096) true).ret = true ∧
    (Flush (AddGouraudPoly (Flush stagedCache (some []) none true).cache quadPnts 3 0).2
      (some []) (some 4096) true).pCmdList = some
        [ Cmd.SetGraphicsRootSignature (some 1),
          Cmd.SetPipelineState (some 2),
          Cmd.IASetPrimitiveTopology Topology.TRIANGLELIST,
          Cmd.IASetVertexBuffers 0 1
            { BufferLocation := 4096, SizeInBytes := 396, StrideInBytes := 44 },
          Cmd.DrawInstanced 9 1 0 0 ] ∧
    (Flush (AddGouraudPoly (Flush stagedCache (some []) none true).cache quadPnts 3 0).2
      (some []) (some 4096) true).drawnVertices 9
        = fanTriangles quadPnts 2 ++ fanTriangles quadPnts 1 := by
  have h1 := Flush_fail stagedCache [] true rfl (by decide) (Or.inl rfl)
  rw [h1]
  refine ⟨rfl, rfl, rfl, rfl, rfl⟩

/-- Claim C7, as amended. On an initialized cache with `n > 0` staged vertices of byte size
`B = 44 * n < 2 ^ 32` and a non-null command list, `Flush` releases the dynamic buffer and
requests a new one of `B` bytes if and only if the buffer is absent or its recorded capacity
(`SizeInBytes`) is below `B`; a buffer allocated by `Flush` has width `B` and recorded
capacity `B`; a buffer whose recorded capacity is at least `B` is kept, with its width, its
address and the recorded view unchanged and no call to the allocator. -/
theorem C7_flush_growth_rule (s : D3D12PolyCache) (cl : List Cmd) (hrCreate : Option Nat)
    (hrMap : Bool) (hinit : s.m_bInitialized = true) (hne : s.m_Vertices ≠ [])
    (hB : sizeofD3D12Vertex * s.m_Vertices.length < UINT_RANGE) :
    ((Event.ResetDynamicVB ∈ (Flush s (some cl) hrCreate hrMap).events ∧
        Event.CreateCommittedResource (sizeofD3D12Vertex * s.m_Vertices.length)
          ∈ (Flush s (some cl) hrCreate hrMap).events) ↔
      (s.m_pDynamicVB = none ∨
        s.m_DynamicVBView.SizeInBytes < sizeofD3D12Vertex * s.m_Vertices.length)) ∧
    (∀ w, Event.CreateCommittedResource w ∈ (Flush s (some cl) hrCreate hrMap).events →
      w = sizeofD3D12Vertex * s.m_Vertices.length) ∧
    ((s.m_pDynamicVB = none ∨
        s.m_DynamicVBView.SizeInBytes < sizeofD3D12Vertex * s.m_Vertices.length) →
      hrCreate ≠ none →
      ∃ res, (Flush s (some cl) hrCreate hrMap).cache.m_pDynamicVB = some res ∧
        res.Width = sizeofD3D12Vertex * s.m_Vertices.length ∧
        (Flush s (some cl) hrCreate hrMap).cache.m_DynamicVBView.SizeInBytes
          = sizeofD3D12Vertex * s.m_Vertices.length) ∧
    (∀ res, s.m_pDynamicVB = some res →
      sizeofD3D12Vertex * s.m_Vertices.length ≤ s.m_DynamicVBView.SizeInBytes →
      (∃ res2, (Flush s (some cl) hrCreate hrMap).cache.m_pDynamicVB = some res2 ∧
        res2.Width = res.Width ∧ res2.gpuVirtualAddress = res.gpuVirtualAddress) ∧
      (Flush s (some cl) hrCreate hrMap).cache.m_DynamicVBView = s.m_DynamicVBView ∧
      (∀ w, Event.CreateCommittedResource w ∉ (Flush s (some cl) hrCreate hrMap).events)) := by
  have hkeep : ∀ res, s.m_pDynamicVB = some res →
      sizeofD3D12Vertex * s.m_Vertices.length ≤ s.m_DynamicVBView.SizeInBytes →
      (∃ res2, (Flush s (some cl) hrCreate hrMap).cache.m_pDynamicVB = some res2 ∧
        res2.Width = res.Width ∧ res2.gpuVirtualAddress = res.gpuVirtualAddress) ∧
      (Flush s (some cl) hrCreate hrMap).cache.m_DynamicVBView = s.m_DynamicVBView ∧
      (∀ w, Event.CreateCommittedResource w ∉ (Flush s (some cl) hrCreate hrMap).events) ∧
      Event.ResetDynamicVB ∉ (Flush s (some cl) hrCreate hrMap).events := by
    intro res hres hfit
    rw [Flush_keep s cl hrCreate hrMap res hinit hne hres hfit]
    cases hrMap <;> simp
  by_cases hneed : s.m_pDynamicVB = none ∨
      s.m_DynamicVBView.SizeInBytes < sizeofD3D12Vertex * s.m_Vertices.length
  · have hnokeep : ∀ res, s.m_pDynamicVB = some res →
        ¬ sizeofD3D12Vertex * s.m_Vertices.length ≤ s.m_DynamicVBView.SizeInBytes := by
      intro res hres hfit
      rcases hneed with h | h
      · rw [h] at hres; exact Option.noConfusion hres
      · omega
    cases hrCreate with
    | none =>
      rw [Flush_fail s cl hrMap hinit hne hneed]
      refine ⟨⟨fun _ => hneed, fun _ => by simp⟩, ?_, fun _ h => absurd rfl h, ?_⟩
      · intro w hw
        simpa using hw
      · intro res hres hfit
        exact absurd hfit (hnokeep res hres)
    | some addr =>
      rw [Flush_grow s cl addr hrMap hinit hne hneed]
      refine ⟨⟨fun _ => hneed, fun _ => by simp⟩, ?_, ?_, ?_⟩
      · intro w hw
        cases hrMap <;> simpa using hw
      · intro _ _
        exact ⟨_, rfl, rfl, Nat.mod_eq_of_lt hB⟩
      · intro res hres hfit
        exact absurd hfit (hnokeep res hres)
  · have hvb : s.m_pDynamicVB ≠ none := fun h => hneed (Or.inl h)
    obtain ⟨res, hres⟩ := Option.ne_none_iff_exists'.mp hvb
    have hfit : sizeofD3D12Vertex * s.m_Vertices.length ≤ s.m_DynamicVBView.SizeInBytes := by
      have := fun h => hneed (Or.inr h)
      omega
    have hk := hkeep res hres hfit
    refine ⟨⟨fun h => absurd h.1 hk.2.2.2, fun h => absurd h hneed⟩, ?_, ?_, ?_⟩
    · intro w hw
      exact absurd hw (hk.2.2.1 w)
    · intro h
      exact absurd h hneed
    · intro res2 hres2 hfit2
      have hk2 := hkeep res2 hres2 hfit2
      exact ⟨hk2.1, hk2.2.1, hk2.2.2.1⟩

/-- Witness of C7: the six staged vertices of the quad on a ready cache that has no dynamic
buffer yet; the flush allocates `264` bytes. -/
theorem C7_flush_growth_rule_witness :
    (stagedCache.m_bInitialized = true ∧ stagedCache.m_Vertices ≠ [] ∧
      sizeofD3D12Vertex * stagedCache.m_Vertices.length < UINT_RANGE) ∧
    (∃ res, (Flush stagedCache (some []) (some 4096) true).cache.m_pDynamicVB = some res ∧
      res.Width = sizeofD3D12Vertex * stagedCache.m_Vertices.length ∧
      (Flush stagedCache (some []) (some 4096) true).cache.m_DynamicVBView.SizeInBytes
        = sizeofD3D12Vertex * stagedCache.m_Vertices.length) :=
  ⟨⟨rfl, by decide, by decide⟩,
    (C7_flush_growth_rule stagedCache [] (some 4096) true rfl (by decide) (by decide)).2.2.1
      (Or.inl rfl) (by decide)⟩

/-- Counterexample to C7 as stated. The ready cache holding six staged vertices (264 bytes)
has no dynamic buffer, yet `Flush` with a null command list neither releases nor allocates:
it makes no call at all and the buffer is still absent afterwards. -/
theorem C7_counterexample :
    stagedCache.m_bInitialized = true ∧
    stagedCache.m_Vertices.length = 6 ∧
    stagedCache.m_pDynamicVB = none ∧
    (Flush stagedCache none (some 4096) true).events = [] ∧
    (Flush stagedCache none (some 4096) true).cache.m_pDynamicVB = none := by
  rw [Flush_idle stagedCache none (some 4096) true (Or.inr (Or.inr rfl))]
  exact ⟨rfl, rfl, rfl, rfl, rfl⟩

/-! ## Capacity of the dynamic buffer over call sequences -/

theorem fanLoop_extends (Pnts : Nat → jeTLVertex) (NumPoints : Int) :
    ∀ (fuel i : Nat) (vs : List D3D12Vertex),
      vs.length ≤ (fanLoop Pnts NumPoints fuel i vs).length := by
  intro fuel
  induction fuel with
  | zero => intro i vs; simp [fanLoop]
  | succ f ih =>
    intro i vs
    rw [fanLoop]
    split
    · have h := ih (i + 1) (((vs ++ [toD3D12Vertex (Pnts 0)]) ++
        [toD3D12Vertex (Pnts (i - 1))]) ++ [toD3D12Vertex (Pnts i)])
      simp only [List.length_append, List.length_singleton] at h
      simp only []
      omega
    · exact Nat.le_refl _

theorem AddGouraudPoly_frame (s : D3D12PolyCache) (Pnts : Nat → jeTLVertex) (NumPoints : Int)
    (Flags : Nat) :
    (AddGouraudPoly s Pnts NumPoints Flags).2.m_pDynamicVB = s.m_pDynamicVB ∧
    (AddGouraudPoly s Pnts NumPoints Flags).2.m_DynamicVBView = s.m_DynamicVBView ∧
    s.m_Vertices.length ≤ (AddGouraudPoly s Pnts NumPoints Flags).2.m_Vertices.length ∧
    (AddGouraudPoly s Pnts NumPoints Flags).2.m_StaticBuffers = s.m_StaticBuffers ∧
    (AddGouraudPoly s Pnts NumPoints Flags).2.m_NextStaticID = s.m_NextStaticID ∧
    (AddGouraudPoly s Pnts NumPoints Flags).2.m_bInitialized = s.m_bInitialized := by
  unfold AddGouraudPoly
  split
  · exact ⟨rfl, rfl, Nat.le_refl _, rfl, rfl, rfl⟩
  · exact ⟨rfl, rfl, fanLoop_extends Pnts NumPoints _ _ _, rfl, rfl, rfl⟩

theorem CreateRootSignature_frame (s : D3D12PolyCache) (env : InitEnv) :
    (CreateRootSignature s env).2.m_pDynamicVB = s.m_pDynamicVB ∧
    (CreateRootSignature s env).2.m_DynamicVBView = s.m_DynamicVBView ∧
    (CreateRootSignature s env).2.m_Vertices = s.m_Vertices ∧
    (CreateRootSignature s env).2.m_StaticBuffers = s.m_StaticBuffers ∧
    (CreateRootSignature s env).2.m_NextStaticID = s.m_NextStaticID := by
  unfold CreateRootSignature
  split
  · exact ⟨rfl, rfl, rfl, rfl, rfl⟩
  · split <;> exact ⟨rfl, rfl, rfl, rfl, rfl⟩

theorem CreatePipelineStates_frame (s : D3D12PolyCache) (env : InitEnv) :
    (CreatePipelineStates s env).2.m_pDynamicVB = s.m_pDynamicVB ∧
    (CreatePipelineStates s env).2.m_DynamicVBView = s.m_DynamicVBView ∧
    (CreatePipelineStates s env).2.m_Vertices = s.m_Vertices ∧
    (CreatePipelineStates s env).2.m_StaticBuffers = s.m_StaticBuffers ∧
    (CreatePipelineStates s env).2.m_NextStaticID = s.m_NextStaticID := by
  unfold CreatePipelineStates
  split
  · exact ⟨rfl, rfl, rfl, rfl, rfl⟩
  · split
    · exact ⟨rfl, rfl, rfl, rfl, rfl⟩
    · split
      · exact ⟨rfl, rfl, rfl, rfl, rfl⟩
      · split <;> exact ⟨rfl, rfl, rfl, rfl, rfl⟩

theorem Initialize_frame (s : D3D12PolyCache) (d q : Option Nat) (env : InitEnv) :
    (Initialize s d q env).2.m_pDynamicVB = s.m_pDynamicVB ∧
    (Initialize s d q env).2.m_DynamicVBView = s.m_DynamicVBView ∧
    (Initialize s d q env).2.m_Vertices = s.m_Vertices ∧
    (Initialize s d q env).2.m_StaticBuffers = s.m_StaticBuffers ∧
    (Initialize s d q env).2.m_NextStaticID = s.m_NextStaticID := by
  have h1 := CreateRootSignature_frame
    { s with m_pDevice := d, m_pCommandQueue := q } env
  have h2 := CreatePipelineStates_frame
    (CreateRootSignature { s with m_pDevice := d, m_pCommandQueue := q } env).2 env
  unfold Initialize
  split
  · exact ⟨rfl, rfl, rfl, rfl, rfl⟩
  · simp only []
    split
    · exact h1
    · split
      · exact ⟨h2.1.trans h1.1, h2.2.1.trans h1.2.1, h2.2.2.1.trans h1.2.2.1,
          h2.2.2.2.1.trans h1.2.2.2.1, h2.2.2.2.2.trans h1.2.2.2.2⟩
      · exact ⟨h2.1.trans h1.1, h2.2.1.trans h1.2.1, h2.2.2.1.trans h1.2.2.1,
          h2.2.2.2.1.trans h1.2.2.2.1, h2.2.2.2.2.trans h1.2.2.2.2⟩

theorem AddStaticBuffer_dyn (s : D3D12PolyCache) (pts : Option (Nat → jeHWVertex)) (n : Int)
    (ls : Nat → jeRDriver_Layer) (nl : Int) (f : Nat) (hc : Option Nat) (hm : Bool) :
    (AddStaticBuffer s pts n ls nl f hc hm).2.m_pDynamicVB = s.m_pDynamicVB ∧
    (AddStaticBuffer s pts n ls nl f hc hm).2.m_DynamicVBView = s.m_DynamicVBView ∧
    (AddStaticBuffer s pts n ls nl f hc hm).2.m_Vertices = s.m_Vertices ∧
    (AddStaticBuffer s pts n ls nl f hc hm).2.m_bInitialized = s.m_bInitialized := by
  unfold AddStaticBuffer
  split
  · exact ⟨rfl, rfl, rfl, rfl⟩
  · split
    · exact ⟨rfl, rfl, rfl, rfl⟩
    · simp only []
      split <;> exact ⟨rfl, rfl, rfl, rfl⟩

theorem RemoveStaticBuffer_frame (s : D3D12PolyCache) (id : Nat) :
    (RemoveStaticBuffer s id).2.m_pDynamicVB = s.m_pDynamicVB ∧
    (RemoveStaticBuffer s id).2.m_DynamicVBView = s.m_DynamicVBView ∧
    (RemoveStaticBuffer s id).2.m_Vertices = s.m_Vertices ∧
    (RemoveStaticBuffer s id).2.m_NextStaticID = s.m_NextStaticID ∧
    (RemoveStaticBuffer s id).2.m_bInitialized = s.m_bInitialized := by
  unfold RemoveStaticBuffer
  split <;> exact ⟨rfl, rfl, rfl, rfl, rfl⟩

theorem RenderStaticBuffer_frame (s : D3D12PolyCache) (id : Nat) (sv np : Int)
    (x : Option jeXForm3d) : (RenderStaticBuffer s id sv np x).2 = s := by
  unfold RenderStaticBuffer
  split <;> rfl

theorem DynInv_of_frame (s t : D3D12PolyCache) (hw : Nat)
    (hvb : t.m_pDynamicVB = s.m_pDynamicVB) (hview : t.m_DynamicVBView = s.m_DynamicVBView)
    (hlen : s.m_Vertices.length ≤ t.m_Vertices.length) (h : DynInv s hw) : DynInv t hw := by
  unfold DynInv at h ⊢
  rw [hvb, hview]
  cases hs : s.m_pDynamicVB with
  | none =>
    rw [hs] at h
    simp only [] at h ⊢
    have : sizeofD3D12Vertex * s.m_Vertices.length ≤ sizeofD3D12Vertex * t.m_Vertices.length :=
      Nat.mul_le_mul_left _ hlen
    omega
  | some res =>
    rw [hs] at h
    exact h

theorem Flush_DynInv (s : D3D12PolyCache) (cl : Option (List Cmd)) (hc : Option Nat) (hm : Bool)
    (hw : Nat) (h : DynInv s hw)
    (hbound : ∀ c ∈ (Flush s cl hc hm).usedCapacity.toList, c < UINT_RANGE) :
    (∀ c ∈ (Flush s cl hc hm).usedCapacity.toList,
      hw ≤ c ∧ DynInv (Flush s cl hc hm).cache c) ∧
    DynInv (Flush s cl hc hm).cache hw := by
  by_cases hidle : s.m_bInitialized = false ∨ s.m_Vertices = [] ∨ cl = none
  · rw [Flush_idle s cl hc hm hidle]
    simp [FlushResult.usedCapacity, h]
  · have hinit : s.m_bInitialized = true := by
      cases hb : s.m_bInitialized with
      | true => rfl
      | false => exact absurd (Or.inl hb) hidle
    have hne : s.m_Vertices ≠ [] := fun h0 => hidle (Or.inr (Or.inl h0))
    have hcl : cl ≠ none := fun h0 => hidle (Or.inr (Or.inr h0))
    obtain ⟨l, hl⟩ := Option.ne_none_iff_exists'.mp hcl
    subst hl
    by_cases hneed : s.m_pDynamicVB = none ∨
        s.m_DynamicVBView.SizeInBytes < sizeofD3D12Vertex * s.m_Vertices.length
    · have hlow : hw ≤ sizeofD3D12Vertex * s.m_Vertices.length := by
        unfold DynInv at h
        cases hs : s.m_pDynamicVB with
        | none => rw [hs] at h; exact h
        | some res =>
          rw [hs] at h
          simp only [] at h
          rcases hneed with h0 | h0
          · rw [hs] at h0; exact Option.noConfusion h0
          · omega
      cases hc with
      | none =>
        rw [Flush_fail s l hm hinit hne hneed]
        simp [FlushResult.usedCapacity, DynInv, hlow]
      | some addr =>
        rw [Flush_grow s l addr hm hinit hne hneed] at hbound ⊢
        have hB : sizeofD3D12Vertex * s.m_Vertices.length < UINT_RANGE := by
          apply hbound
          cases hm <;> simp [FlushResult.usedCapacity]
        have hmod := Nat.mod_eq_of_lt hB
        cases hm <;> simp [FlushResult.usedCapacity, DynInv, hlow, hB, hmod]
    · have hvb : s.m_pDynamicVB ≠ none := fun h0 => hneed (Or.inl h0)
      obtain ⟨res, hres⟩ := Option.ne_none_iff_exists'.mp hvb
      have hfit : sizeofD3D12Vertex * s.m_Vertices.length ≤ s.m_DynamicVBView.SizeInBytes := by
        have := fun h0 => hneed (Or.inr h0)
        omega
      rw [Flush_keep s l hc hm res hinit hne hres hfit]
      unfold DynInv at h
      rw [hres] at h
      simp only [] at h
      cases hm <;> simp [FlushResult.usedCapacity, DynInv, h]

theorem usedCapacities_monotone :
    ∀ (ops : List Op) (s : D3D12PolyCache) (hw : Nat), DynInv s hw →
      (∀ op ∈ ops, Op.isShutdown op = false) →
      (∀ c ∈ usedCapacities s ops, c < UINT_RANGE) →
      (∀ c ∈ usedCapacities s ops, hw ≤ c) ∧
        List.Pairwise (fun a b => a ≤ b) (usedCapacities s ops) := by
  intro ops
  induction ops with
  | nil => intro s hw _ _ _; simp [usedCapacities]
  | cons op rest ih =>
    intro s hw hinv hns hbound
    have hrest : ∀ o ∈ rest, Op.isShutdown o = false :=
      fun o ho => hns o (List.mem_cons_of_mem _ ho)
    have hop := hns op (List.mem_cons_self _ _)
    cases op with
    | Shutdown => simp [Op.isShutdown] at hop
    | Flush cl hc hm =>
      simp only [usedCapacities, List.mem_append] at hbound ⊢
      have hfl := Flush_DynInv s cl hc hm hw hinv (fun c hcm => hbound c (Or.inl hcm))
      cases hu : (Flush s cl hc hm).usedCapacity with
      | none =>
        rw [hu] at hbound
        have := ih (Flush s cl hc hm).cache hw hfl.2 hrest
          (fun c hcm => hbound c (Or.inr hcm))
        simpa using this
      | some c0 =>
        rw [hu] at hbound hfl
        have h0 := hfl.1 c0 (by simp)
        have := ih (Flush s cl hc hm).cache c0 h0.2 hrest
          (fun c hcm => hbound c (Or.inr hcm))
        refine ⟨?_, ?_⟩
        · intro c hcm
          simp only [Option.toList, List.mem_cons, List.not_mem_nil, or_false] at hcm
          rcases hcm with hcm | hcm
          · omega
          · have := this.1 c hcm
            omega
        · simp only [Option.toList, List.singleton_append, List.pairwise_cons]
          exact ⟨this.1, this.2⟩
    | Initialize d q env =>
      have hf := Initialize_frame s d q env
      simp only [usedCapacities, step] at hbound ⊢
      exact ih _ hw (DynInv_of_frame s _ hw hf.1 hf.2.1 (by rw [hf.2.2.1]) hinv) hrest hbound
    | AddGouraudPoly Pnts n f =>
      have hf := AddGouraudPoly_frame s Pnts n f
      simp only [usedCapacities, step] at hbound ⊢
      exact ih _ hw (DynInv_of_frame s _ hw hf.1 hf.2.1 hf.2.2.1 hinv) hrest hbound
    | AddStaticBuffer pts n ls nl f hc hm =>
      have hf := AddStaticBuffer_dyn s pts n ls nl f hc hm
      simp only [usedCapacities, step] at hbound ⊢
      exact ih _ hw (DynInv_of_frame s _ hw hf.1 hf.2.1 (by rw [hf.2.2.1]) hinv) hrest hbound
    | RemoveStaticBuffer id =>
      have hf := RemoveStaticBuffer_frame s id
      simp only [usedCapacities, step] at hbound ⊢
      exact ih _ hw (DynInv_of_frame s _ hw hf.1 hf.2.1 (by rw [hf.2.2.1]) hinv) hrest hbound
    | RenderStaticBuffer id sv np x =>
      have hf := RenderStaticBuffer_frame s id sv np x
      simp only [usedCapacities, step] at hbound ⊢
      rw [hf] at hbound ⊢
      exact ih _ hw hinv hrest hbound

/-- Claim C8, as amended. Over every call sequence on a freshly constructed cache that
contains no `Shutdown` and in which every dynamic buffer used by a `Flush` is smaller than
`2 ^ 32` bytes, failing allocations included, the capacities of the dynamic buffer used by the
successive `Flush` calls never decrease. -/
theorem C8_capacity_monotone (view0 : D3D12_VERTEX_BUFFER_VIEW) (ops : List Op)
    (hns : ∀ op ∈ ops, Op.isShutdown op = false)
    (hbound : ∀ c ∈ usedCapacities (D3D12PolyCache.new view0) ops, c < UINT_RANGE) :
    List.Pairwise (fun a b => a ≤ b) (usedCapacities (D3D12PolyCache.new view0) ops) :=
  (usedCapacities_monotone ops (D3D12PolyCache.new view0) 0
    (by simp [DynInv, D3D12PolyCache.new]) hns hbound).2

/-- Witness of C8: the quad is flushed (264 bytes are allocated), then a triangle is flushed
into the same buffer. -/
theorem C8_capacity_monotone_witness :
    ((∀ op ∈ twoFrameOps, Op.isShutdown op = false) ∧
      (∀ c ∈ usedCapacities (D3D12PolyCache.new default) twoFrameOps, c < UINT_RANGE)) ∧
    usedCapacities (D3D12PolyCache.new default) twoFrameOps = [264, 264] ∧
    List.Pairwise (fun a b => a ≤ b) (usedCapacities (D3D12PolyCache.new default) twoFrameOps) :=
  ⟨⟨by decide, by decide⟩, by decide,
    C8_capacity_monotone default twoFrameOps (by decide) (by decide)⟩

theorem Flush_grow_used (s : D3D12PolyCache) (cl : List Cmd) (addr : Nat) (hrMap : Bool)
    (hinit : s.m_bInitialized = true) (hne : s.m_Vertices ≠ [])
    (hneed : s.m_pDynamicVB = none ∨
      s.m_DynamicVBView.SizeInBytes < sizeofD3D12Vertex * s.m_Vertices.length) :
    (Flush s (some cl) (some addr) hrMap).usedCapacity
      = some (sizeofD3D12Vertex * s.m_Vertices.length) ∧
    (Flush s (some cl) (some addr) hrMap).cache.m_bInitialized = true ∧
    (Flush s (some cl) (some addr) hrMap).cache.m_Vertices = [] ∧
    (Flush s (some cl) (some addr) hrMap).cache.m_DynamicVBView.SizeInBytes
      = (sizeofD3D12Vertex * s.m_Vertices.length) % UINT_RANGE := by
  rw [Flush_grow s cl addr hrMap hinit hne hneed]
  cases hrMap <;> simp [FlushResult.usedCapacity, hinit]

theorem shrink_after_wrapped_size (s : D3D12PolyCache) (Pnts : Nat → jeTLVertex) (a b : Nat)
    (hinit : s.m_bInitialized = true) (hvb : s.m_pDynamicVB = none) (hne : s.m_Vertices ≠ [])
    (hmod : (sizeofD3D12Vertex * s.m_Vertices.length) % UINT_RANGE = 0) :
    usedCapacities s
        [ Op.Flush (some []) (some a) true,
          Op.AddGouraudPoly Pnts ((3 : Nat) : Int) 0,
          Op.Flush (some []) (some b) true ]
      = [sizeofD3D12Vertex * s.m_Vertices.length, 132] := by
  have h1 := Flush_grow_used s [] a true hinit hne (Or.inl hvb)
  have h2 := AddGouraudPoly_ok (Flush s (some []) (some a) true).cache Pnts 3 0 h1.2.1
    (Nat.le_refl 3)
  have hlen : (fanTriangles Pnts (3 - 2)).length = 3 := by
    rw [fanTriangles_length]
  have hv3 : (AddGouraudPoly (Flush s (some []) (some a) true).cache Pnts ((3 : Nat) : Int)
      0).2.m_Vertices = fanTriangles Pnts (3 - 2) := by
    rw [h2]
    simp only [h1.2.2.1, List.nil_append]
  have hne3 : (AddGouraudPoly (Flush s (some []) (some a) true).cache Pnts ((3 : Nat) : Int)
      0).2.m_Vertices ≠ [] := by
    intro h0
    rw [hv3] at h0
    rw [h0] at hlen
    simp at hlen
  have hinit3 : (AddGouraudPoly (Flush s (some []) (some a) true).cache Pnts ((3 : Nat) : Int)
      0).2.m_bInitialized = true := by
    rw [h2]
    exact h1.2.1
  have hsz : (AddGouraudPoly (Flush s (some []) (some a) true).cache Pnts ((3 : Nat) : Int)
      0).2.m_DynamicVBView.SizeInBytes = 0 := by
    rw [h2]
    simp only []
    rw [h1.2.2.2, hmod]
  have h3 := Flush_grow_used _ [] b true hinit3 hne3
    (Or.inr (by rw [hsz, hv3, hlen]; decide))
  simp only [usedCapacities, step, h1.1, h3.1, hv3, hlen, Option.toList, sizeofD3D12Vertex]
  rfl

/-- Counterexample to C8 as stated. On a fresh cache a fan of `2 ^ 30 + 2` points is flushed
into a new buffer of `33 * 2 ^ 32` bytes, whose recorded 32-bit size is `0`; the next flush, of
one triangle, replaces it by a buffer of `132` bytes. -/
theorem C8_counterexample :
    usedCapacities (D3D12PolyCache.new default) shrinkOps = [33 * 2 ^ 32, 132] ∧
    ¬ List.Pairwise (fun a b => a ≤ b) (usedCapacities (D3D12PolyCache.new default) shrinkOps) := by
  have hadd := AddGouraudPoly_ok readyCache quadPnts (2 ^ 30 + 2) 0 rfl (by omega)
  have hlen : (fanTriangles quadPnts (2 ^ 30 + 2 - 2)).length = 3 * 2 ^ 30 := by
    rw [fanTriangles_length, Nat.add_sub_cancel]
  have hv : (AddGouraudPoly readyCache quadPnts ((2 ^ 30 + 2 : Nat) : Int) 0).2.m_Vertices
      = fanTriangles quadPnts (2 ^ 30 + 2 - 2) := by
    rw [hadd]
    exact List.nil_append _
  have hvlen : (AddGouraudPoly readyCache quadPnts ((2 ^ 30 + 2 : Nat) : Int)
      0).2.m_Vertices.length = 3 * 2 ^ 30 := by
    rw [hv, hlen]
  have hne : (AddGouraudPoly readyCache quadPnts ((2 ^ 30 + 2 : Nat) : Int) 0).2.m_Vertices
      ≠ [] := by
    intro h0
    rw [h0] at hvlen
    simp at hvlen
  have hinit : (AddGouraudPoly readyCache quadPnts ((2 ^ 30 + 2 : Nat) : Int)
      0).2.m_bInitialized = true := by
    rw [hadd]
    rfl
  have hvb : (AddGouraudPoly readyCache quadPnts ((2 ^ 30 + 2 : Nat) : Int)
      0).2.m_pDynamicVB = none := by
    rw [hadd]
    rfl
  have hmod : (sizeofD3D12Vertex * (AddGouraudPoly readyCache quadPnts
      ((2 ^ 30 + 2 : Nat) : Int) 0).2.m_Vertices.length) % UINT_RANGE = 0 := by
    rw [hvlen]
    decide
  have hmain : usedCapacities (D3D12PolyCache.new default) shrinkOps = [33 * 2 ^ 32, 132] := by
    have h := shrink_after_wrapped_size _ quadPnts 4096 8192 hinit hvb hne hmod
    rw [hvlen] at h
    show usedCapacities (AddGouraudPoly readyCache quadPnts ((2 ^ 30 + 2 : Nat) : Int) 0).2
        [ Op.Flush (some []) (some 4096) true,
          Op.AddGouraudPoly quadPnts ((3 : Nat) : Int) 0,
          Op.Flush (some []) (some 8192) true ] = [33 * 2 ^ 32, 132]
    rw [h]
    decide
  refine ⟨hmain, ?_⟩
  rw [hmain]
  decide

/-! ## Handles of static buffers -/

theorem Flush_static (s : D3D12PolyCache) (cl : Option (List Cmd)) (hc : Option Nat)
    (hm : Bool) :
    (Flush s cl hc hm).cache.m_NextStaticID = s.m_NextStaticID ∧
    (Flush s cl hc hm).cache.m_StaticBuffers = s.m_StaticBuffers ∧
    (Flush s cl hc hm).cache.m_bInitialized = s.m_bInitialized := by
  by_cases hidle : s.m_bInitialized = false ∨ s.m_Vertices = [] ∨ cl = none
  · rw [Flush_idle s cl hc hm hidle]
    exact ⟨rfl, rfl, rfl⟩
  · have hinit : s.m_bInitialized = true := by
      cases hb : s.m_bInitialized with
      | true => rfl
      | false => exact absurd (Or.inl hb) hidle
    have hne : s.m_Vertices ≠ [] := fun h0 => hidle (Or.inr (Or.inl h0))
    have hcl : cl ≠ none := fun h0 => hidle (Or.inr (Or.inr h0))
    obtain ⟨l, hl⟩ := Option.ne_none_iff_exists'.mp hcl
    subst hl
    by_cases hneed : s.m_pDynamicVB = none ∨
        s.m_DynamicVBView.SizeInBytes < sizeofD3D12Vertex * s.m_Vertices.length
    · cases hc with
      | none =>
        rw [Flush_fail s l hm hinit hne hneed]
        exact ⟨rfl, rfl, rfl⟩
      | some addr =>
        rw [Flush_grow s l addr hm hinit hne hneed]
        exact ⟨rfl, rfl, rfl⟩
    · have hvb : s.m_pDynamicVB ≠ none := fun h0 => hneed (Or.inl h0)
      obtain ⟨res, hres⟩ := Option.ne_none_iff_exists'.mp hvb
      have hfit : sizeofD3D12Vertex * s.m_Vertices.length ≤ s.m_DynamicVBView.SizeInBytes := by
        have := fun h0 => hneed (Or.inr h0)
        omega
      rw [Flush_keep s l hc hm res hinit hne hres hfit]
      exact ⟨rfl, rfl, rfl⟩

theorem step_NextStaticID (s : D3D12PolyCache) (op : Op) (h : Op.isCreate op = false) :
    (step s op).m_NextStaticID = s.m_NextStaticID := by
  cases op with
  | Initialize d q env => exact (Initialize_frame s d q env).2.2.2.2
  | Shutdown => rfl
  | AddGouraudPoly Pnts n f => exact (AddGouraudPoly_frame s Pnts n f).2.2.2.2.1
  | Flush cl hc hm => exact (Flush_static s cl hc hm).1
  | AddStaticBuffer pts n ls nl f hc hm => simp [Op.isCreate] at h
  | RemoveStaticBuffer id => exact (RemoveStaticBuffer_frame s id).2.2.2.1
  | RenderStaticBuffer id sv np x => rw [step, RenderStaticBuffer_frame]

theorem AddStaticBuffer_handle (s : D3D12PolyCache) (pts : Option (Nat → jeHWVertex)) (n : Int)
    (ls : Nat → jeRDriver_Layer) (nl : Int) (f : Nat) (hc : Option Nat) (hm : Bool) :
    ((AddStaticBuffer s pts n ls nl f hc hm).1 = 0 ∧
      (AddStaticBuffer s pts n ls nl f hc hm).2.m_NextStaticID = s.m_NextStaticID) ∨
    (((AddStaticBuffer s pts n ls nl f hc hm).1 = 0 ∨
        (AddStaticBuffer s pts n ls nl f hc hm).1 = s.m_NextStaticID) ∧
      (AddStaticBuffer s pts n ls nl f hc hm).2.m_NextStaticID
        = (s.m_NextStaticID + 1) % UINT_RANGE) := by
  unfold AddStaticBuffer
  split
  · exact Or.inl ⟨rfl, rfl⟩
  · split
    · exact Or.inl ⟨rfl, rfl⟩
    · simp only []
      split
      · exact Or.inr ⟨Or.inl rfl, rfl⟩
      · exact Or.inr ⟨Or.inr rfl, rfl⟩

theorem AddStaticBuffer_ok (s : D3D12PolyCache) (pts : Nat → jeHWVertex) (n : Int)
    (ls : Nat → jeRDriver_Layer) (nl : Int) (f : Nat) (addr : Nat) (hm : Bool)
    (hinit : s.m_bInitialized = true) (hn : 0 < n) :
    (AddStaticBuffer s (some pts) n ls nl f (some addr) hm).1 = s.m_NextStaticID ∧
    (∃ buf, mapFind (AddStaticBuffer s (some pts) n ls nl f (some addr) hm).2.m_StaticBuffers
      s.m_NextStaticID = some (some buf)) ∧
    (AddStaticBuffer s (some pts) n ls nl f (some addr) hm).2.m_bInitialized = true := by
  have hnot : ¬ n ≤ 0 := by omega
  simp [AddStaticBuffer, hinit, hnot, mapAssign, mapFind]

theorem createdHandles_bounds :
    ∀ (ops : List Op) (s : D3D12PolyCache),
      s.m_NextStaticID + (ops.filter Op.isCreate).length ≤ UINT_RANGE →
      (∀ h ∈ (createdHandles s ops).filter (fun h => decide (h ≠ 0)),
        s.m_NextStaticID ≤ h ∧ h < s.m_NextStaticID + (ops.filter Op.isCreate).length) ∧
      List.Pairwise (fun a b => a < b)
        ((createdHandles s ops).filter (fun h => decide (h ≠ 0))) := by
  intro ops
  induction ops with
  | nil => intro s _; simp [createdHandles]
  | cons op rest ih =>
    intro s hcount
    by_cases hcr : Op.isCreate op = true
    · cases op with
      | AddStaticBuffer pts n ls nl f hc hm =>
        simp only [List.filter_cons, Op.isCreate, if_true, List.length_cons] at hcount ⊢
        have hh := AddStaticBuffer_handle s pts n ls nl f hc hm
        have hlt : s.m_NextStaticID < UINT_RANGE := by omega
        have hnext : (AddStaticBuffer s pts n ls nl f hc hm).2.m_NextStaticID
              + (rest.filter Op.isCreate).length ≤ UINT_RANGE ∧
            (((rest.filter Op.isCreate).length = 0 ∨
              s.m_NextStaticID
                ≤ (AddStaticBuffer s pts n ls nl f hc hm).2.m_NextStaticID) ∧
              (AddStaticBuffer s pts n ls nl f hc hm).2.m_NextStaticID
                ≤ s.m_NextStaticID + 1) ∧
            (((AddStaticBuffer s pts n ls nl f hc hm).1 ≠ 0 →
              (AddStaticBuffer s pts n ls nl f hc hm).1 = s.m_NextStaticID ∧
              ((rest.filter Op.isCreate).length = 0 ∨
                s.m_NextStaticID
                  < (AddStaticBuffer s pts n ls nl f hc hm).2.m_NextStaticID))) := by
          rcases hh with ⟨h0, h1⟩ | ⟨h0, h1⟩
          · refine ⟨by omega, ⟨Or.inr (by omega), by omega⟩, fun hz => absurd h0 hz⟩
          · by_cases hw : s.m_NextStaticID + 1 < UINT_RANGE
            · rw [Nat.mod_eq_of_lt hw] at h1
              refine ⟨by omega, ⟨Or.inr (by omega), by omega⟩,
                fun hz => ⟨?_, Or.inr (by omega)⟩⟩
              rcases h0 with h0 | h0
              · exact absurd h0 hz
              · exact h0
            · have hz1 : s.m_NextStaticID + 1 = UINT_RANGE := by omega
              rw [hz1, Nat.mod_self] at h1
              refine ⟨by omega, ⟨Or.inl (by omega), by omega⟩,
                fun hz => ⟨?_, Or.inl (by omega)⟩⟩
              rcases h0 with h0 | h0
              · exact absurd h0 hz
              · exact h0
        have hrec := ih (AddStaticBuffer s pts n ls nl f hc hm).2 hnext.1
        simp only [createdHandles, List.filter_cons]
        by_cases hz : (AddStaticBuffer s pts n ls nl f hc hm).1 = 0
        · simp only [hz, ne_eq, not_true_eq_false, decide_False, Bool.false_eq_true, if_false]
          refine ⟨?_, hrec.2⟩
          intro h hmem
          have := hrec.1 h hmem
          have hup := hnext.2.1.2
          rcases hnext.2.1.1 with h0 | h0
          · omega
          · omega
        · have hd : decide ((AddStaticBuffer s pts n ls nl f hc hm).1 ≠ 0) = true := by
            simp [hz]
          simp only [hd, if_true, List.mem_cons, List.pairwise_cons]
          have hcur := hnext.2.2 hz
          refine ⟨?_, ?_, hrec.2⟩
          · intro h hmem
            rcases hmem with hmem | hmem
            · omega
            · have := hrec.1 h hmem
              have hup := hnext.2.1.2
              rcases hnext.2.1.1 with h0 | h0
              · omega
              · omega
          · intro h hmem
            have := hrec.1 h hmem
            rcases hcur.2 with h0 | h0
            · omega
            · omega
      | Initialize d q env => simp [Op.isCreate] at hcr
      | Shutdown => simp [Op.isCreate] at hcr
      | AddGouraudPoly Pnts n f => simp [Op.isCreate] at hcr
      | Flush cl hc hm => simp [Op.isCreate] at hcr
      | RemoveStaticBuffer id => simp [Op.isCreate] at hcr
      | RenderStaticBuffer id sv np x => simp [Op.isCreate] at hcr
    · have hcr2 : Op.isCreate op = false := by
        cases hb : Op.isCreate op with
        | true => exact absurd hb hcr
        | false => rfl
      have hid := step_NextStaticID s op hcr2
      have hfil : (op :: rest).filter Op.isCreate = rest.filter Op.isCreate := by
        simp [List.filter_cons, hcr2]
      have hch : createdHandles s (op :: rest) = createdHandles (step s op) rest := by
        cases op with
        | AddStaticBuffer pts n ls nl f hc hm => simp [Op.isCreate] at hcr2
        | Initialize d q env => rfl
        | Shutdown => rfl
        | AddGouraudPoly Pnts n f => rfl
        | Flush cl hc hm => rfl
        | RemoveStaticBuffer id => rfl
        | RenderStaticBuffer id sv np x => rfl
      rw [hfil] at hcount ⊢
      rw [hch, ← hid]
      rw [← hid] at hcount
      exact ih (step s op) hcount

theorem run_NextStaticID :
    ∀ (ops : List Op) (s : D3D12PolyCache), (∀ op ∈ ops, Op.isCreate op = false) →
      (run s ops).m_NextStaticID = s.m_NextStaticID := by
  intro ops
  induction ops with
  | nil => intro s _; rfl
  | cons op rest ih =>
    intro s h
    have h1 := step_NextStaticID s op (h op (List.mem_cons_self _ _))
    have h2 := ih (step s op) (fun o ho => h o (List.mem_cons_of_mem _ ho))
    simp only [run, List.foldl_cons] at h2 ⊢
    rw [h2, h1]

/-- Claim C9, as amended. Over every call sequence on a freshly constructed cache that
contains fewer than `2 ^ 32` `AddStaticBuffer` calls, the non-zero handles returned are
strictly increasing in call order, hence pairwise distinct also after removals, and each is at
least 1; and since the counter starts at 1 and only `AddStaticBuffer` moves it, an
`AddStaticBuffer` call with valid arguments and a successful allocation that no other
`AddStaticBuffer` call precedes returns 1. -/
theorem C9_handles_increasing (view0 : D3D12_VERTEX_BUFFER_VIEW) (ops : List Op)
    (hcount : (ops.filter Op.isCreate).length < UINT_RANGE) :
    List.Pairwise (fun a b => a < b)
      ((createdHandles (D3D12PolyCache.new view0) ops).filter (fun h => decide (h ≠ 0))) ∧
    ((createdHandles (D3D12PolyCache.new view0) ops).filter (fun h => decide (h ≠ 0))).Nodup ∧
    (∀ h ∈ (createdHandles (D3D12PolyCache.new view0) ops).filter (fun h => decide (h ≠ 0)),
      1 ≤ h) ∧
    (∀ (pre : List Op) (pts : Nat → jeHWVertex) (n : Int) (ls : Nat → jeRDriver_Layer)
      (nl : Int) (f addr : Nat) (hm : Bool),
      (∀ op ∈ pre, Op.isCreate op = false) →
      (run (D3D12PolyCache.new view0) pre).m_bInitialized = true → 0 < n →
      (AddStaticBuffer (run (D3D12PolyCache.new view0) pre) (some pts) n ls nl f (some addr)
        hm).1 = 1) := by
  have hb := createdHandles_bounds ops (D3D12PolyCache.new view0)
    (by show 1 + (ops.filter Op.isCreate).length ≤ UINT_RANGE; omega)
  refine ⟨hb.2, ?_, ?_, ?_⟩
  · exact hb.2.imp (fun h => Nat.ne_of_lt h)
  · intro h hmem
    exact (hb.1 h hmem).1
  · intro pre pts n ls nl f addr hm hpre hinit hn
    rw [(AddStaticBuffer_ok _ pts n ls nl f addr hm hinit hn).1]
    exact run_NextStaticID pre (D3D12PolyCache.new view0) hpre

/-- Witness of C9: the scenario of the specification. Three buffers are created, the second
is removed, a fourth is created; the handles are 1, 2, 3 and 4. -/
theorem C9_handles_increasing_witness :
    (createRemoveOps.filter Op.isCreate).length < UINT_RANGE ∧
    createdHandles (D3D12PolyCache.new default) createRemoveOps = [1, 2, 3, 4] ∧
    List.Pairwise (fun a b => a < b)
      ((createdHandles (D3D12PolyCache.new default) createRemoveOps).filter
        (fun h => decide (h ≠ 0))) :=
  ⟨by decide, by decide, (C9_handles_increasing default createRemoveOps (by decide)).1⟩

/-- Counterexample to C9 as stated. On a fresh cache, after `Initialize`, a creation whose
allocation fails returns 0 and the next creation returns 2: the first non-zero handle issued
is not 1. -/
theorem C9_counterexample :
    createdHandles (D3D12PolyCache.new default) burnOps = [0, 2] ∧
    ((createdHandles (D3D12PolyCache.new default) burnOps).filter
      (fun h => decide (h ≠ 0))).head? = some 2 := by
  decide

theorem run_failingCreate :
    ∀ (n : Nat) (s : D3D12PolyCache), s.m_bInitialized = true →
      s.m_NextStaticID < UINT_RANGE →
      (run s (List.replicate n failingCreate)).m_NextStaticID
          = (s.m_NextStaticID + n) % UINT_RANGE ∧
        (run s (List.replicate n failingCreate)).m_bInitialized = true := by
  intro n
  induction n with
  | zero =>
    intro s hinit hlt
    exact ⟨(Nat.mod_eq_of_lt hlt).symm, hinit⟩
  | succ n ih =>
    intro s hinit hlt
    have hstep : step s failingCreate
        = { s with m_NextStaticID := (s.m_NextStaticID + 1) % UINT_RANGE } := by
      simp [step, failingCreate, AddStaticBuffer, hinit]
    have hpos : 0 < UINT_RANGE := by decide
    have h := ih (step s failingCreate) (by rw [hstep]; exact hinit)
      (by rw [hstep]; exact Nat.mod_lt _ hpos)
    rw [List.replicate_succ]
    simp only [run, List.foldl_cons] at h ⊢
    refine ⟨?_, h.2⟩
    rw [h.1, hstep]
    simp only []
    rw [Nat.mod_add_mod, Nat.add_assoc, Nat.add_comm 1 n]

theorem RenderStaticBuffer_found (s : D3D12PolyCache) (id : Nat) (sv np : Int)
    (x : Option jeXForm3d) (buf : D3D12StaticBuffer)
    (h : mapFind s.m_StaticBuffers id = some (some buf)) :
    (RenderStaticBuffer s id sv np x).1 = true := by
  unfold RenderStaticBuffer
  rw [h]

/-- Claim C10, evaluated on the code. On a fresh cache, after `Initialize` and `2 ^ 32 - 1`
`AddStaticBuffer` calls with valid arguments (here each fails in the allocation, which still
consumes a handle value), the 32-bit counter has wrapped to 0; the next `AddStaticBuffer`,
whose allocation succeeds, returns 0 and registers its entry under handle 0, which
`RenderStaticBuffer` then resolves. -/
theorem C10_handle_zero_issued :
    (run (D3D12PolyCache.new default) wrapOps).m_bInitialized = true ∧
    (run (D3D12PolyCache.new default) wrapOps).m_NextStaticID = 0 ∧
    (AddStaticBuffer (run (D3D12PolyCache.new default) wrapOps) (some zeroPoints) 1
      zeroLayers 0 0 (some 4096) true).1 = 0 ∧
    (∃ buf, mapFind (AddStaticBuffer (run (D3D12PolyCache.new default) wrapOps)
      (some zeroPoints) 1 zeroLayers 0 0 (some 4096) true).2.m_StaticBuffers 0
        = some (some buf)) ∧
    (RenderStaticBuffer (AddStaticBuffer (run (D3D12PolyCache.new default) wrapOps)
      (some zeroPoints) 1 zeroLayers 0 0 (some 4096) true).2 0 0 0 none).1 = true := by
  have hs : step (D3D12PolyCache.new default) (Op.Initialize (some 7) (some 8) goodEnv)
      = readyCache := rfl
  have hrun : run (D3D12PolyCache.new default) wrapOps
      = run readyCache (List.replicate (UINT_RANGE - 1) failingCreate) := by
    unfold wrapOps run
    rw [List.foldl_cons, hs]
  have h1 : readyCache.m_NextStaticID = 1 := rfl
  have hlt : readyCache.m_NextStaticID < UINT_RANGE := by
    rw [h1]
    unfold UINT_RANGE
    norm_num
  have hzero : (readyCache.m_NextStaticID + (UINT_RANGE - 1)) % UINT_RANGE = 0 := by
    rw [h1]
    unfold UINT_RANGE
    norm_num
  have h := run_failingCreate (UINT_RANGE - 1) readyCache rfl hlt
  rw [hzero, ← hrun] at h
  have hpos : (0 : Int) < 1 := by norm_num
  have hok := AddStaticBuffer_ok (run (D3D12PolyCache.new default) wrapOps) zeroPoints 1
    zeroLayers 0 0 4096 true h.2 hpos
  rw [h.1] at hok
  obtain ⟨buf, hbuf⟩ := hok.2.1
  exact ⟨h.2, h.1, hok.1, ⟨buf, hbuf⟩, RenderStaticBuffer_found _ 0 0 0 none buf hbuf⟩

/-! ## Static buffers: creation, removal, teardown -/

theorem AddStaticBuffer_invalid (s : D3D12PolyCache) (Points : Option (Nat → jeHWVertex))
    (NumPoints : Int) (Layers : Nat → jeRDriver_Layer) (NumLayers : Int) (Flags : Nat)
    (hrCreate : Option Nat) (hrMap : Bool)
    (h : NumPoints ≤ 0 ∨ Points = none ∨ s.m_bInitialized = false) :
    AddStaticBuffer s Points NumPoints Layers NumLayers Flags hrCreate hrMap = (0, s) := by
  unfold AddStaticBuffer
  rcases h with h | h | h <;> simp [h]

/-- Claim C11. `AddStaticBuffer` called with `NumPoints <= 0`, with a null vertex array or on
a cache that is not initialized returns handle 0 and returns the cache unchanged in every
field: registered handles, entries and the next-handle counter are what they were. -/
theorem C11_create_rejects_invalid (s : D3D12PolyCache) (Points : Option (Nat → jeHWVertex))
    (NumPoints : Int) (Layers : Nat → jeRDriver_Layer) (NumLayers : Int) (Flags : Nat)
    (hrCreate : Option Nat) (hrMap : Bool)
    (h : NumPoints ≤ 0 ∨ Points = none ∨ s.m_bInitialized = false) :
    AddStaticBuffer s Points NumPoints Layers NumLayers Flags hrCreate hrMap = (0, s) :=
  AddStaticBuffer_invalid s Points NumPoints Layers NumLayers Flags hrCreate hrMap h

/-- Witness of C11: zero points on a cache that holds one buffer. -/
theorem C11_create_rejects_invalid_witness :
    ((0 : Int) ≤ 0 ∨ some zeroPoints = none ∨ oneBufferCache.m_bInitialized = false) ∧
    AddStaticBuffer oneBufferCache (some zeroPoints) 0 zeroLayers 0 0 (some 4096) true
      = (0, oneBufferCache) :=
  ⟨Or.inl (Int.le_refl 0),
    C11_create_rejects_invalid oneBufferCache (some zeroPoints) 0 zeroLayers 0 0 (some 4096)
      true (Or.inl (Int.le_refl 0))⟩

theorem AddStaticBuffer_alloc_fail (s : D3D12PolyCache) (pts : Nat → jeHWVertex) (n : Int)
    (ls : Nat → jeRDriver_Layer) (nl : Int) (f : Nat) (hm : Bool)
    (hinit : s.m_bInitialized = true) (hn : 0 < n) :
    AddStaticBuffer s (some pts) n ls nl f none hm
      = (0, { s with m_NextStaticID := (s.m_NextStaticID + 1) % UINT_RANGE }) := by
  have hnot : ¬ n ≤ 0 := by omega
  simp [AddStaticBuffer, hinit, hnot]

theorem AddStaticBuffer_success (s : D3D12PolyCache) (pts : Nat → jeHWVertex) (n : Int)
    (ls : Nat → jeRDriver_Layer) (nl : Int) (f : Nat) (addr : Nat) (hm : Bool)
    (hinit : s.m_bInitialized = true) (hn : 0 < n) :
    AddStaticBuffer s (some pts) n ls nl f (some addr) hm
      = (s.m_NextStaticID,
          { s with
            m_NextStaticID := (s.m_NextStaticID + 1) % UINT_RANGE
            m_StaticBuffers := mapAssign s.m_StaticBuffers s.m_NextStaticID
              (some
                { pVertexBuffer := some
                    { Width := sizeofD3D12Vertex * n.toNat
                      gpuVirtualAddress := addr
                      data := if hm then
                          (List.range n.toNat).map (fun i => convertHWVertex (pts i))
                        else [] }
                  VBView :=
                    { BufferLocation := addr
                      StrideInBytes := sizeofD3D12Vertex
                      SizeInBytes := (sizeofD3D12Vertex * n.toNat) % UINT_RANGE }
                  NumVertices := n
                  Layers := copyLayers ls nl MAX_LAYERS 0 (List.replicate MAX_LAYERS default)
                  NumLayers := nl
                  Flags := f
                  ID := s.m_NextStaticID }) }) := by
  have hnot : ¬ n ≤ 0 := by omega
  simp [AddStaticBuffer, hinit, hnot]

theorem mapFind_mapAssign_self (m : List (Nat × Option D3D12StaticBuffer)) (id : Nat)
    (p : Option D3D12StaticBuffer) : mapFind (mapAssign m id p) id = some p := by
  simp [mapAssign, mapFind]

theorem mapFind_mapErase (m : List (Nat × Option D3D12StaticBuffer)) (id k : Nat) :
    mapFind (mapErase m id) k = if k = id then none else mapFind m k := by
  induction m with
  | nil => simp [mapErase, mapFind]
  | cons e rest ih =>
    obtain ⟨key, p⟩ := e
    unfold mapErase at ih ⊢
    by_cases hkey : key = id
    · subst hkey
      simp only [List.filter_cons, ne_eq, not_true_eq_false, decide_False, Bool.false_eq_true,
        if_false, ih, mapFind]
      by_cases hk : k = key
      · simp [hk]
      · have hk2 : ¬ key = k := fun h => hk h.symm
        simp [hk, hk2]
    · have hd : decide (key ≠ id) = true := by simp [hkey]
      simp only [List.filter_cons, hd, if_true, mapFind, ih]
      by_cases hk : key = k
      · subst hk
        simp [hkey]
      · simp [hk]

theorem mapFind_mapAssign_other (m : List (Nat × Option D3D12StaticBuffer)) (id k : Nat)
    (p : Option D3D12StaticBuffer) (h : k ≠ id) :
    mapFind (mapAssign m id p) k = mapFind m k := by
  have h2 : ¬ id = k := fun e => h e.symm
  simp [mapAssign, mapFind, h2, mapFind_mapErase, h]

/-- Claim C13, as amended. Whenever `AddStaticBuffer` returns a non-zero handle `h` for
`NumPoints` input vertices, the vertex array was non-null, the allocation succeeded and the
entry registered under `h` carries the identifier `h` and owns the buffer allocated in this
call, of `44 * NumPoints` bytes; when the mapping of that buffer succeeded its contents are the
converted vertices in input order, and when the mapping failed nothing has been uploaded and
the handle is returned all the same. Invalid arguments, an uninitialized cache and a failed
allocation make `AddStaticBuffer` return 0. -/
theorem C13_successful_create_uploads (s : D3D12PolyCache) (Points : Option (Nat → jeHWVertex))
    (NumPoints : Int) (Layers : Nat → jeRDriver_Layer) (NumLayers : Int) (Flags : Nat)
    (hrCreate : Option Nat) (hrMap : Bool) :
    ((AddStaticBuffer s Points NumPoints Layers NumLayers Flags hrCreate hrMap).1 ≠ 0 →
      ∃ pts addr buf, Points = some pts ∧ hrCreate = some addr ∧
        mapFind (AddStaticBuffer s Points NumPoints Layers NumLayers Flags hrCreate
            hrMap).2.m_StaticBuffers
          (AddStaticBuffer s Points NumPoints Layers NumLayers Flags hrCreate hrMap).1
            = some (some buf) ∧
        buf.ID = (AddStaticBuffer s Points NumPoints Layers NumLayers Flags hrCreate hrMap).1 ∧
        buf.pVertexBuffer = some
          { Width := sizeofD3D12Vertex * NumPoints.toNat
            gpuVirtualAddress := addr
            data := if hrMap then
                (List.range NumPoints.toNat).map (fun i => convertHWVertex (pts i))
              else [] }) ∧
    ((NumPoints ≤ 0 ∨ Points = none ∨ s.m_bInitialized = false ∨ hrCreate = none) →
      (AddStaticBuffer s Points NumPoints Layers NumLayers Flags hrCreate hrMap).1 = 0) := by
  by_cases hbad : NumPoints ≤ 0 ∨ Points = none ∨ s.m_bInitialized = false
  · rw [AddStaticBuffer_invalid s Points NumPoints Layers NumLayers Flags hrCreate hrMap
      hbad]
    exact ⟨fun h => absurd rfl h, fun _ => rfl⟩
  · have hn : 0 < NumPoints := by
      have := fun h => hbad (Or.inl h)
      omega
    have hpts : Points ≠ none := fun h => hbad (Or.inr (Or.inl h))
    have hinit : s.m_bInitialized = true := by
      cases hb : s.m_bInitialized with
      | true => rfl
      | false => exact absurd (Or.inr (Or.inr hb)) hbad
    obtain ⟨pts, hp⟩ := Option.ne_none_iff_exists'.mp hpts
    subst hp
    cases hrCreate with
    | none =>
      rw [AddStaticBuffer_alloc_fail s pts NumPoints Layers NumLayers Flags hrMap hinit hn]
      exact ⟨fun h => absurd rfl h, fun _ => rfl⟩
    | some addr =>
      rw [AddStaticBuffer_success s pts NumPoints Layers NumLayers Flags addr hrMap hinit hn]
      refine ⟨fun _ => ⟨pts, addr, _, rfl, rfl, mapFind_mapAssign_self _ _ _, rfl, rfl⟩, ?_⟩
      intro h
      rcases h with h | h | h | h
      · omega
      · exact Option.noConfusion h
      · rw [hinit] at h
        exact Bool.noConfusion h
      · exact Option.noConfusion h

/-- Witness of C13: one vertex uploaded with success on a ready cache; the handle is 1. -/
theorem C13_successful_create_uploads_witness :
    (AddStaticBuffer readyCache (some zeroPoints) 1 zeroLayers 0 0 (some 4096) true).1 ≠ 0 ∧
    ∃ pts addr buf, some zeroPoints = some pts ∧ some 4096 = some addr ∧
      mapFind (AddStaticBuffer readyCache (some zeroPoints) 1 zeroLayers 0 0 (some 4096)
          true).2.m_StaticBuffers
        (AddStaticBuffer readyCache (some zeroPoints) 1 zeroLayers 0 0 (some 4096) true).1
          = some (some buf) ∧
      buf.ID = (AddStaticBuffer readyCache (some zeroPoints) 1 zeroLayers 0 0 (some 4096)
        true).1 ∧
      buf.pVertexBuffer = some
        { Width := sizeofD3D12Vertex * (1 : Int).toNat
          gpuVirtualAddress := addr
          data := if true = true then
              (List.range (1 : Int).toNat).map (fun i => convertHWVertex (pts i))
            else [] } :=
  ⟨by decide,
    (C13_successful_create_uploads readyCache (some zeroPoints) 1 zeroLayers 0 0 (some 4096)
      true).1 (by decide)⟩

/-- Counterexample to C13 as stated. On a ready cache, a creation of one vertex whose
allocation succeeds and whose `Map` fails returns handle 1, not 0, and the buffer registered
under 1 holds no uploaded vertex although one vertex was passed in. -/
theorem C13_counterexample :
    (AddStaticBuffer readyCache (some zeroPoints) 1 zeroLayers 0 0 (some 4096) false).1 = 1 ∧
    (∃ buf res,
      mapFind (AddStaticBuffer readyCache (some zeroPoints) 1 zeroLayers 0 0 (some 4096)
        false).2.m_StaticBuffers 1 = some (some buf) ∧
      buf.pVertexBuffer = some res ∧ res.data = []) ∧
    ((List.range (1 : Int).toNat).map (fun i => convertHWVertex (zeroPoints i))).length = 1 := by
  rw [AddStaticBuffer_success readyCache zeroPoints 1 zeroLayers 0 0 4096 false rfl
    (by decide)]
  exact ⟨rfl, ⟨_, _, mapFind_mapAssign_self _ _ _, rfl, rfl⟩, rfl⟩

theorem RemoveStaticBuffer_found (s : D3D12PolyCache) (id : Nat)
    (p : Option D3D12StaticBuffer) (h : mapFind s.m_StaticBuffers id = some p) :
    RemoveStaticBuffer s id
      = (true, { s with m_StaticBuffers := mapErase s.m_StaticBuffers id }) := by
  unfold RemoveStaticBuffer
  rw [h]

theorem RemoveStaticBuffer_unknown (s : D3D12PolyCache) (id : Nat)
    (h : mapFind s.m_StaticBuffers id = none) : RemoveStaticBuffer s id = (false, s) := by
  unfold RemoveStaticBuffer
  rw [h]

theorem RenderStaticBuffer_unknown (s : D3D12PolyCache) (id : Nat) (sv np : Int)
    (x : Option jeXForm3d) (h : mapFind s.m_StaticBuffers id = none) :
    RenderStaticBuffer s id sv np x = (false, s) := by
  unfold RenderStaticBuffer
  rw [h]

/-- Claim C14. For every cache and every handle `id` registered in it, `RemoveStaticBuffer`
returns `true`; afterwards `id` is not registered, every other handle resolves to the same
entry as before, the next-handle counter is unchanged, and nothing but the handle map has
changed. -/
theorem C14_remove_erases_one (s : D3D12PolyCache) (id : Nat) (p : Option D3D12StaticBuffer)
    (h : mapFind s.m_StaticBuffers id = some p) :
    (RemoveStaticBuffer s id).1 = true ∧
    mapFind (RemoveStaticBuffer s id).2.m_StaticBuffers id = none ∧
    (∀ k, k ≠ id →
      mapFind (RemoveStaticBuffer s id).2.m_StaticBuffers k = mapFind s.m_StaticBuffers k) ∧
    (RemoveStaticBuffer s id).2.m_NextStaticID = s.m_NextStaticID ∧
    (RemoveStaticBuffer s id).2
      = { s with m_StaticBuffers := (RemoveStaticBuffer s id).2.m_StaticBuffers } := by
  rw [RemoveStaticBuffer_found s id p h]
  refine ⟨rfl, ?_, ?_, rfl, rfl⟩
  · simp [mapFind_mapErase]
  · intro k hk
    simp [mapFind_mapErase, hk]

/-- Witness of C14: removing handle 1 from the cache that holds one buffer. -/
theorem C14_remove_erases_one_witness :
    (∃ p, mapFind oneBufferCache.m_StaticBuffers 1 = some p) ∧
    (RemoveStaticBuffer oneBufferCache 1).1 = true ∧
    mapFind (RemoveStaticBuffer oneBufferCache 1).2.m_StaticBuffers 1 = none := by
  have hreg : ∃ p, mapFind oneBufferCache.m_StaticBuffers 1 = some p := by
    unfold oneBufferCache
    rw [AddStaticBuffer_success readyCache zeroPoints 1 zeroLayers 0 0 4096 true rfl
      (by decide)]
    exact ⟨_, mapFind_mapAssign_self _ _ _⟩
  obtain ⟨p, hp⟩ := hreg
  exact ⟨⟨p, hp⟩, (C14_remove_erases_one oneBufferCache 1 p hp).1,
    (C14_remove_erases_one oneBufferCache 1 p hp).2.1⟩

/-- Claim C18. For every cache, `Shutdown` leaves the handle map empty, so that every handle
fails `RemoveStaticBuffer` and `RenderStaticBuffer` afterwards, the staging list empty, the
dynamic buffer released and the cache uninitialized; and `Shutdown` applied twice gives the
same cache as `Shutdown` applied once. -/
theorem C18_shutdown_total_idempotent (s : D3D12PolyCache) :
    (Shutdown s).m_StaticBuffers = [] ∧
    (∀ (id : Nat) (sv np : Int) (x : Option jeXForm3d),
      RemoveStaticBuffer (Shutdown s) id = (false, Shutdown s) ∧
      RenderStaticBuffer (Shutdown s) id sv np x = (false, Shutdown s)) ∧
    (Shutdown s).m_Vertices = [] ∧
    (Shutdown s).m_pDynamicVB = none ∧
    (Shutdown s).m_bInitialized = false ∧
    Shutdown (Shutdown s) = Shutdown s := by
  refine ⟨rfl, ?_, rfl, rfl, rfl, rfl⟩
  intro id sv np x
  have hnone : mapFind (Shutdown s).m_StaticBuffers id = none := rfl
  exact ⟨RemoveStaticBuffer_unknown _ id hnone, RenderStaticBuffer_unknown _ id sv np x hnone⟩

/-! ## Static buffers: the handle counter after `2 ^ 32` creations -/

theorem run_failingCreate_map :
    ∀ (n : Nat) (s : D3D12PolyCache), s.m_bInitialized = true →
      (run s (List.replicate n failingCreate)).m_StaticBuffers = s.m_StaticBuffers := by
  intro n
  induction n with
  | zero => intro s _; rfl
  | succ n ih =>
    intro s hinit
    have hstep : step s failingCreate
        = { s with m_NextStaticID := (s.m_NextStaticID + 1) % UINT_RANGE } := by
      simp [step, failingCreate, AddStaticBuffer, hinit]
    have h := ih (step s failingCreate) (by rw [hstep]; exact hinit)
    rw [List.replicate_succ]
    simp only [run, List.foldl_cons] at h ⊢
    rw [h, hstep]

theorem run_init_failing (n : Nat) :
    (run (D3D12PolyCache.new default)
      (Op.Initialize (some 7) (some 8) goodEnv :: List.replicate n failingCreate)).m_bInitialized
        = true ∧
    (run (D3D12PolyCache.new default)
      (Op.Initialize (some 7) (some 8) goodEnv :: List.replicate n failingCreate)).m_NextStaticID
        = (1 + n) % UINT_RANGE ∧
    (run (D3D12PolyCache.new default)
      (Op.Initialize (some 7) (some 8) goodEnv :: List.replicate n failingCreate)).m_StaticBuffers
        = [] := by
  have hs : step (D3D12PolyCache.new default) (Op.Initialize (some 7) (some 8) goodEnv)
      = readyCache := rfl
  have hrun : run (D3D12PolyCache.new default)
      (Op.Initialize (some 7) (some 8) goodEnv :: List.replicate n failingCreate)
      = run readyCache (List.replicate n failingCreate) := by
    unfold run
    rw [List.foldl_cons, hs]
  have h1 : readyCache.m_NextStaticID = 1 := rfl
  have hlt : readyCache.m_NextStaticID < UINT_RANGE := by
    rw [h1]
    unfold UINT_RANGE
    norm_num
  have h := run_failingCreate n readyCache rfl hlt
  have hm := run_failingCreate_map n readyCache rfl
  rw [hrun]
  rw [h1] at h
  exact ⟨h.2, h.1, hm⟩

theorem create_after_failure_at_max (st : D3D12PolyCache) (pts : Nat → jeHWVertex)
    (ls : Nat → jeRDriver_Layer) (addr : Nat) (hinit : st.m_bInitialized = true)
    (hcnt : st.m_NextStaticID = UINT_RANGE - 1) :
    AddStaticBuffer st (some pts) 1 ls 0 0 none true
      = (0, { st with m_NextStaticID := 0 }) ∧
    (AddStaticBuffer (AddStaticBuffer st (some pts) 1 ls 0 0 none true).2
      (some pts) 1 ls 0 0 (some addr) true).1 = 0 := by
  have hz : (UINT_RANGE - 1 + 1) % UINT_RANGE = 0 := by
    unfold UINT_RANGE
    norm_num
  have hpos : (0 : Int) < 1 := by norm_num
  have hfail := AddStaticBuffer_alloc_fail st pts 1 ls 0 0 true hinit hpos
  rw [hcnt, hz] at hfail
  refine ⟨hfail, ?_⟩
  rw [hfail]
  exact (AddStaticBuffer_ok { st with m_NextStaticID := 0 } pts 1 ls 0 0 addr true hinit
    hpos).1

/-- Claim C12, evaluated on the code. On a fresh cache, after `Initialize` and `2 ^ 32 - 2`
`AddStaticBuffer` calls with valid arguments, the counter stands at `2 ^ 32 - 1`. A creation
with valid arguments whose allocation fails then returns 0, registers nothing and leaves the
handle map as it was, but moves the counter to 0; the next creation, whose allocation
succeeds, returns 0 instead of a non-zero handle. -/
theorem C12_create_after_alloc_failure :
    (run (D3D12PolyCache.new default) nearWrapOps).m_bInitialized = true ∧
    (run (D3D12PolyCache.new default) nearWrapOps).m_NextStaticID = UINT_RANGE - 1 ∧
    AddStaticBuffer (run (D3D12PolyCache.new default) nearWrapOps) (some zeroPoints) 1
        zeroLayers 0 0 none true
      = (0, { run (D3D12PolyCache.new default) nearWrapOps with m_NextStaticID := 0 }) ∧
    (AddStaticBuffer
      (AddStaticBuffer (run (D3D12PolyCache.new default) nearWrapOps) (some zeroPoints) 1
        zeroLayers 0 0 none true).2
      (some zeroPoints) 1 zeroLayers 0 0 (some 4096) true).1 = 0 := by
  have h := run_init_failing (UINT_RANGE - 2)
  have hc : (1 + (UINT_RANGE - 2)) % UINT_RANGE = UINT_RANGE - 1 := by
    unfold UINT_RANGE
    norm_num
  rw [hc] at h
  have hinit : (run (D3D12PolyCache.new default) nearWrapOps).m_bInitialized = true := h.1
  have hcnt : (run (D3D12PolyCache.new default) nearWrapOps).m_NextStaticID
      = UINT_RANGE - 1 := h.2.1
  have hmax := create_after_failure_at_max (run (D3D12PolyCache.new default) nearWrapOps)
    zeroPoints zeroLayers 4096 hinit hcnt
  exact ⟨hinit, hcnt, hmax.1, hmax.2⟩

theorem RemoveStaticBuffer_erases (s : D3D12PolyCache) (id : Nat)
    (p : Option D3D12StaticBuffer) (h : mapFind s.m_StaticBuffers id = some p) :
    (RemoveStaticBuffer s id).1 = true ∧
    mapFind (RemoveStaticBuffer s id).2.m_StaticBuffers id = none := by
  rw [RemoveStaticBuffer_found s id p h]
  refine ⟨rfl, ?_⟩
  simp [mapFind_mapErase]

theorem create_resolves (st : D3D12PolyCache) (pts : Nat → jeHWVertex)
    (ls : Nat → jeRDriver_Layer) (addr : Nat) (sv np : Int) (x : Option jeXForm3d)
    (hinit : st.m_bInitialized = true) :
    (AddStaticBuffer st (some pts) 1 ls 0 0 (some addr) true).1 = st.m_NextStaticID ∧
    (∃ buf, mapFind (AddStaticBuffer st (some pts) 1 ls 0 0 (some addr)
      true).2.m_StaticBuffers st.m_NextStaticID = some (some buf)) ∧
    (RenderStaticBuffer (AddStaticBuffer st (some pts) 1 ls 0 0 (some addr) true).2
      st.m_NextStaticID sv np x).1 = true ∧
    (RemoveStaticBuffer (AddStaticBuffer st (some pts) 1 ls 0 0 (some addr) true).2
      st.m_NextStaticID).1 = true ∧
    mapFind (RemoveStaticBuffer (AddStaticBuffer st (some pts) 1 ls 0 0 (some addr) true).2
      st.m_NextStaticID).2.m_StaticBuffers st.m_NextStaticID = none := by
  have hpos : (0 : Int) < 1 := by norm_num
  have hok := AddStaticBuffer_ok st pts 1 ls 0 0 addr true hinit hpos
  obtain ⟨buf, hbuf⟩ := hok.2.1
  have hrem := RemoveStaticBuffer_erases _ _ _ hbuf
  exact ⟨hok.1, ⟨buf, hbuf⟩, RenderStaticBuffer_found _ _ sv np x buf hbuf, hrem.1, hrem.2⟩

theorem run_aliasOps :
    (run (D3D12PolyCache.new default) aliasOps).m_bInitialized = true ∧
    (run (D3D12PolyCache.new default) aliasOps).m_NextStaticID = 1 := by
  have hs : step (step (step (D3D12PolyCache.new default)
      (Op.Initialize (some 7) (some 8) goodEnv)) goodCreate) (Op.RemoveStaticBuffer 1)
      = removedCache := rfl
  have hrun : run (D3D12PolyCache.new default) aliasOps
      = run removedCache (List.replicate (UINT_RANGE - 1) failingCreate) := by
    unfold aliasOps run
    rw [List.foldl_cons, List.foldl_cons, List.foldl_cons, hs]
  have h2 : removedCache.m_NextStaticID = 2 := rfl
  have hlt : removedCache.m_NextStaticID < UINT_RANGE := by
    rw [h2]
    unfold UINT_RANGE
    norm_num
  have h := run_failingCreate (UINT_RANGE - 1) removedCache rfl hlt
  have hc : (2 + (UINT_RANGE - 1)) % UINT_RANGE = 1 := by
    unfold UINT_RANGE
    norm_num
  rw [h2, hc, ← hrun] at h
  exact ⟨h.2, h.1⟩

/-- Claim C15, evaluated on the code. On a fresh cache the first creation returns handle 1
and `RemoveStaticBuffer(1)` removes it, after which handle 1 fails both lookups. After
`2 ^ 32 - 1` further `AddStaticBuffer` calls with valid arguments the counter stands at 1
again: the next creation returns handle 1, and the stale handle 1 then succeeds in
`RenderStaticBuffer` and in `RemoveStaticBuffer`, on the newer entry. -/
theorem C15_stale_handle_aliases :
    (AddStaticBuffer readyCache (some zeroPoints) 1 zeroLayers 0 0 (some 4096) true).1 = 1 ∧
    RemoveStaticBuffer oneBufferCache 1 = (true, removedCache) ∧
    (RenderStaticBuffer removedCache 1 0 1 none).1 = false ∧
    (RemoveStaticBuffer removedCache 1).1 = false ∧
    (run (D3D12PolyCache.new default) aliasOps).m_NextStaticID = 1 ∧
    (AddStaticBuffer (run (D3D12PolyCache.new default) aliasOps) (some zeroPoints) 1
      zeroLayers 0 0 (some 4096) true).1 = 1 ∧
    (RenderStaticBuffer (AddStaticBuffer (run (D3D12PolyCache.new default) aliasOps)
      (some zeroPoints) 1 zeroLayers 0 0 (some 4096) true).2 1 0 1 none).1 = true ∧
    (RemoveStaticBuffer (AddStaticBuffer (run (D3D12PolyCache.new default) aliasOps)
      (some zeroPoints) 1 zeroLayers 0 0 (some 4096) true).2 1).1 = true := by
  have h := run_aliasOps
  have hc := create_resolves (run (D3D12PolyCache.new default) aliasOps) zeroPoints zeroLayers
    4096 0 1 none h.1
  rw [h.2] at hc
  exact ⟨rfl, rfl, rfl, rfl, h.2, hc.1, hc.2.2.1, hc.2.2.2.1⟩

theorem run_wrapOps :
    (run (D3D12PolyCache.new default) wrapOps).m_bInitialized = true ∧
    (run (D3D12PolyCache.new default) wrapOps).m_NextStaticID = 0 := by
  have h := run_init_failing (UINT_RANGE - 1)
  have hc : (1 + (UINT_RANGE - 1)) % UINT_RANGE = 0 := by
    unfold UINT_RANGE
    norm_num
  rw [hc] at h
  exact ⟨h.1, h.2.1⟩

/-- Claim C16, evaluated on the code. In the cache reached from a fresh one by `Initialize`,
`2 ^ 32 - 1` `AddStaticBuffer` calls with valid arguments and one more creation whose
allocation succeeds, an entry is registered under handle 0: `RemoveStaticBuffer(0)` returns
`true` and erases it, and `RenderStaticBuffer(0)` returns `true`. -/
theorem C16_handle_zero_accepted :
    (∃ buf, mapFind (AddStaticBuffer (run (D3D12PolyCache.new default) wrapOps)
      (some zeroPoints) 1 zeroLayers 0 0 (some 4096) true).2.m_StaticBuffers 0
        = some (some buf)) ∧
    (RemoveStaticBuffer (AddStaticBuffer (run (D3D12PolyCache.new default) wrapOps)
      (some zeroPoints) 1 zeroLayers 0 0 (some 4096) true).2 0).1 = true ∧
    mapFind (RemoveStaticBuffer (AddStaticBuffer (run (D3D12PolyCache.new default) wrapOps)
      (some zeroPoints) 1 zeroLayers 0 0 (some 4096) true).2 0).2.m_StaticBuffers 0 = none ∧
    (RenderStaticBuffer (AddStaticBuffer (run (D3D12PolyCache.new default) wrapOps)
      (some zeroPoints) 1 zeroLayers 0 0 (some 4096) true).2 0 0 1 none).1 = true := by
  have h := run_wrapOps
  have hc := create_resolves (run (D3D12PolyCache.new default) wrapOps) zeroPoints zeroLayers
    4096 0 1 none h.1
  rw [h.2] at hc
  exact ⟨hc.2.1, hc.2.2.2.1, hc.2.2.2.2, hc.2.2.1⟩

/-! ## Rendering a static buffer -/

/-- Claim C17, evaluated on the code. With a scene open and a buffer registered under
handle 1, `RenderStaticBuffer(1, 0, 1, null)` returns `true` and nothing else happens: the
cache is unchanged, and through `D3D12Drv_RenderStaticMesh` the whole driver state is
unchanged, so the command list holds the same commands as before, with no vertex buffer bound
and no draw recorded. -/
theorem C17_render_records_nothing :
    (∃ buf, mapFind oneBufferCache.m_StaticBuffers 1 = some (some buf)) ∧
    sceneOpen.g_pPolyCache = some oneBufferCache ∧
    RenderStaticBuffer oneBufferCache 1 0 1 none = (true, oneBufferCache) ∧
    D3D12Drv_RenderStaticMesh sceneOpen 1 0 1 none = (true, sceneOpen) ∧
    (D3D12Drv_RenderStaticMesh sceneOpen 1 0 1 none).2.g_pCommandList
      = [ Cmd.RSSetViewports, Cmd.RSSetScissorRects,
          Cmd.ResourceBarrier 0 ResourceState.PRESENT ResourceState.RENDER_TARGET,
          Cmd.OMSetRenderTargets 0, Cmd.ClearRenderTargetView 0, Cmd.ClearDepthStencilView,
          Cmd.SetDescriptorHeaps ] := by
  refine ⟨⟨_, rfl⟩, rfl, rfl, rfl, rfl⟩

/-! ## Frames and fences -/

/-- Claim C19, evaluated on the code. From the state after `D3D12Drv_Init`, a scene is begun
on slot 0 and `D3D12Drv_EndScene` fails in `Present`: it has already submitted the command
list recorded on allocator 0, and it returns `false` without `MoveToNextFrame`, so no fence
signal follows that submission and the frame index is still 0. The GPU has finished nothing
and the fence stands at 0, yet the next `D3D12Drv_BeginScene` resets allocator 0. -/
theorem C19_reset_before_completion :
    D3D12Drv_EndScene sceneOpen presentFails = some (false, afterFailedPresent) ∧
    afterFailedPresent.g_FrameIndex = 0 ∧
    afterFailedPresent.gpu.queue
      = [QueueItem.ExecuteCommandLists 0
          (sceneOpen.g_pCommandList ++
            [Cmd.ResourceBarrier 0 ResourceState.RENDER_TARGET ResourceState.PRESENT])] ∧
    afterFailedPresent.gpu.done = 0 ∧
    afterFailedPresent.gpu.GetCompletedValue = 0 ∧
    afterFailedPresent.gpu.slotIdle 0 = false ∧
    afterFailedPresent.calls
      = sceneOpen.calls ++
        [ DrvCall.FlushPolyCache true, DrvCall.Close true, DrvCall.ExecuteCommandLists 0,
          DrvCall.Present false ] ∧
    (D3D12Drv_BeginScene afterFailedPresent true true none false goodBegin).1 = true ∧
    (D3D12Drv_BeginScene afterFailedPresent true true none false goodBegin).2.calls
      = afterFailedPresent.calls ++
        [DrvCall.AllocatorReset 0 true, DrvCall.CommandListReset 0 true] := by
  refine ⟨rfl, rfl, rfl, rfl, rfl, rfl, rfl, rfl, rfl⟩

theorem waitLoop_spec (target : Nat) :
    ∀ (fuel : Nat) (g g2 : GpuQueue), GpuQueue.waitLoop target fuel g = some g2 →
      target ≤ g2.GetCompletedValue ∧ g2.queue = g.queue ∧ g2.fenceInit = g.fenceInit ∧
        g.done ≤ g2.done := by
  intro fuel
  induction fuel with
  | zero =>
    intro g g2 h
    unfold GpuQueue.waitLoop at h
    split at h
    · simp only [Option.some.injEq] at h
      subst h
      exact ⟨by assumption, rfl, rfl, Nat.le_refl _⟩
    · exact Option.noConfusion h
  | succ f ih =>
    intro g g2 h
    unfold GpuQueue.waitLoop at h
    split at h
    · simp only [Option.some.injEq] at h
      subst h
      exact ⟨by assumption, rfl, rfl, Nat.le_refl _⟩
    · split at h
      · have := ih { g with done := g.done + 1 } g2 h
        exact ⟨this.1, this.2.1, this.2.2.1, by have := this.2.2.2; simp only [] at this; omega⟩
      · exact Option.noConfusion h

theorem waitLoop_returns (target : Nat) :
    ∀ (fuel : Nat) (g : GpuQueue) (d : Nat), g.done ≤ d → d ≤ g.done + fuel →
      d ≤ g.queue.length → target ≤ fenceValueAfter g.fenceInit (g.queue.take d) →
      (GpuQueue.waitLoop target fuel g).isSome = true := by
  intro fuel
  induction fuel with
  | zero =>
    intro g d h1 h2 _ h4
    have hd : d = g.done := by omega
    subst hd
    unfold GpuQueue.waitLoop
    rw [if_pos (by unfold GpuQueue.GetCompletedValue; exact h4)]
    rfl
  | succ f ih =>
    intro g d h1 h2 h3 h4
    unfold GpuQueue.waitLoop
    by_cases hnow : target ≤ g.GetCompletedValue
    · rw [if_pos hnow]
      rfl
    · rw [if_neg hnow]
      have hne : d ≠ g.done := by
        intro hd
        subst hd
        exact hnow (by unfold GpuQueue.GetCompletedValue; exact h4)
      have hlt : g.done < g.queue.length := by omega
      rw [if_pos hlt]
      exact ih { g with done := g.done + 1 } d (by simp only []; omega)
        (by simp only []; omega) h3 h4

theorem WaitForFence_spec (g g2 : GpuQueue) (target : Nat)
    (h : g.WaitForFence target = some g2) :
    target ≤ g2.GetCompletedValue ∧ g2.queue = g.queue ∧ g2.fenceInit = g.fenceInit ∧
      g.done ≤ g2.done :=
  waitLoop_spec target _ g g2 h

theorem WaitForFence_returns (g : GpuQueue) (target d : Nat) (h1 : g.done ≤ d)
    (h3 : d ≤ g.queue.length)
    (h4 : target ≤ fenceValueAfter g.fenceInit (g.queue.take d)) :
    (g.WaitForFence target).isSome = true :=
  waitLoop_returns target _ g d h1 (by omega) h3 h4

/-- Claim C20. For every driver state, every back buffer index and every progress of the GPU:
when `MoveToNextFrame` returns, the frame index is the back buffer index and the completed
fence value is at least the fence value that was recorded for that slot before the call; the
call waits on the fence exactly when the completed value read after the signal was below
that recorded value, and otherwise leaves the queue as it read it. The call does return
whenever the GPU can reach the recorded value by finishing entries that are in the queue. -/
theorem C20_slot_selection_waits (st : Driver) (idx k : Nat) :
    (∀ st2, MoveToNextFrame st idx k = some st2 →
      st2.g_FrameIndex = idx ∧
      st.g_FenceValues.getD idx 0 ≤ st2.gpu.GetCompletedValue ∧
      (st2.calls = st.calls ++
          [ DrvCall.Signal (st.g_FenceValues.getD st.g_FrameIndex 0),
            DrvCall.GetCurrentBackBufferIndex idx,
            DrvCall.Wait (st.g_FenceValues.getD idx 0) ] ↔
        ((st.gpu.submit (QueueItem.Signal (st.g_FenceValues.getD st.g_FrameIndex 0))).progress
          k).GetCompletedValue < st.g_FenceValues.getD idx 0) ∧
      (st.g_FenceValues.getD idx 0 ≤
        ((st.gpu.submit (QueueItem.Signal (st.g_FenceValues.getD st.g_FrameIndex 0))).progress
          k).GetCompletedValue →
        st2.calls = st.calls ++
          [ DrvCall.Signal (st.g_FenceValues.getD st.g_FrameIndex 0),
            DrvCall.GetCurrentBackBufferIndex idx ] ∧
        st2.gpu = (st.gpu.submit
          (QueueItem.Signal (st.g_FenceValues.getD st.g_FrameIndex 0))).progress k)) ∧
    ((∃ d,
        ((st.gpu.submit (QueueItem.Signal (st.g_FenceValues.getD st.g_FrameIndex 0))).progress
          k).done ≤ d ∧
        d ≤ (st.gpu.queue ++ [QueueItem.Signal (st.g_FenceValues.getD st.g_FrameIndex 0)]).length ∧
        st.g_FenceValues.getD idx 0 ≤ fenceValueAfter st.gpu.fenceInit
          ((st.gpu.queue ++
            [QueueItem.Signal (st.g_FenceValues.getD st.g_FrameIndex 0)]).take d)) →
      (MoveToNextFrame st idx k).isSome = true) := by
  constructor
  · intro st2 h
    unfold MoveToNextFrame at h
    simp only [] at h
    by_cases hlt : ((st.gpu.submit
        (QueueItem.Signal (st.g_FenceValues.getD st.g_FrameIndex 0))).progress
          k).GetCompletedValue < st.g_FenceValues.getD idx 0
    · rw [if_pos hlt] at h
      cases hw : ((st.gpu.submit
          (QueueItem.Signal (st.g_FenceValues.getD st.g_FrameIndex 0))).progress
            k).WaitForFence (st.g_FenceValues.getD idx 0) with
      | none =>
        rw [hw] at h
        exact Option.noConfusion h
      | some g2 =>
        rw [hw] at h
        simp only [Option.some.injEq] at h
        subst h
        have hs := WaitForFence_spec _ g2 _ hw
        refine ⟨rfl, hs.1, ⟨fun _ => hlt, fun _ => by simp⟩, ?_⟩
        intro hge
        omega
    · rw [if_neg hlt] at h
      simp only [Option.some.injEq] at h
      subst h
      refine ⟨rfl, by simp only []; omega, ⟨?_, fun h2 => absurd h2 hlt⟩, ?_⟩
      · intro hc
        have := congrArg List.length hc
        simp at this
      · intro _
        exact ⟨rfl, rfl⟩
  · rintro ⟨d, h1, h2, h3⟩
    unfold MoveToNextFrame
    simp only []
    by_cases hlt : ((st.gpu.submit
        (QueueItem.Signal (st.g_FenceValues.getD st.g_FrameIndex 0))).progress
          k).GetCompletedValue < st.g_FenceValues.getD idx 0
    · rw [if_pos hlt]
      have hr := WaitForFence_returns
        ((st.gpu.submit (QueueItem.Signal (st.g_FenceValues.getD st.g_FrameIndex 0))).progress k)
        (st.g_FenceValues.getD idx 0) d h1 h2 h3
      cases hw : ((st.gpu.submit
          (QueueItem.Signal (st.g_FenceValues.getD st.g_FrameIndex 0))).progress
            k).WaitForFence (st.g_FenceValues.getD idx 0) with
      | none =>
        rw [hw] at hr
        exact Bool.noConfusion hr
      | some g2 => rfl
    · rw [if_neg hlt]
      rfl

/-- Witness of C20: right after `D3D12Drv_Init` the swap chain selects slot 0 again. The
value 1 recorded for slot 0 is signalled, the GPU has finished nothing, the call waits and
returns with the fence at 1. -/
theorem C20_slot_selection_waits_witness :
    ∃ st2, MoveToNextFrame driver0 0 0 = some st2 ∧
      st2.g_FrameIndex = 0 ∧
      1 ≤ st2.gpu.GetCompletedValue ∧
      st2.calls = [DrvCall.Signal 1, DrvCall.GetCurrentBackBufferIndex 0, DrvCall.Wait 1] :=
  ⟨(MoveToNextFrame driver0 0 0).getD default, rfl,
    ((C20_slot_selection_waits driver0 0 0).1 _ rfl).1,
    ((C20_slot_selection_waits driver0 0 0).1 _ rfl).2.1,
    rfl⟩

/-! ## The three polygon entry points -/

theorem fanLoop_appends (Pnts : Nat → jeTLVertex) (NumPoints : Int) :
    ∀ (fuel i : Nat) (vs : List D3D12Vertex),
      ∃ ext, fanLoop Pnts NumPoints fuel i vs = vs ++ ext ∧
        ∀ v ∈ ext, ∃ p : jeTLVertex, v = toD3D12Vertex p := by
  intro fuel
  induction fuel with
  | zero =>
    intro i vs
    exact ⟨[], by simp [fanLoop], by simp⟩
  | succ f ih =>
    intro i vs
    rw [fanLoop]
    split
    · obtain ⟨ext, hext, hall⟩ := ih (i + 1) (((vs ++ [toD3D12Vertex (Pnts 0)]) ++
        [toD3D12Vertex (Pnts (i - 1))]) ++ [toD3D12Vertex (Pnts i)])
      refine ⟨[toD3D12Vertex (Pnts 0), toD3D12Vertex (Pnts (i - 1)), toD3D12Vertex (Pnts i)]
        ++ ext, ?_, ?_⟩
      · simp only []
        rw [hext]
        simp [List.append_assoc]
      · intro v hv
        simp only [List.mem_append, List.mem_cons, List.mem_singleton, List.not_mem_nil,
          or_false] at hv
        rcases hv with (hv | hv | hv) | hv
        · exact ⟨_, hv⟩
        · exact ⟨_, hv⟩
        · exact ⟨_, hv⟩
        · exact hall v hv
    · exact ⟨[], by simp, by simp⟩

/-- Claim C28. For every cache, vertex array, point count and flags, `AddWorldPoly` and
`AddMiscTexturePoly` give the same return value and the same cache, hence the same staging
list, as `AddGouraudPoly` on the same points, whatever the layer array, the layer count and
the lightmap context are; and the vertices that the call appends to the staging list have
secondary texture coordinate `(0, 0)`. -/
theorem C28_entry_points_agree (s : D3D12PolyCache) (Pnts : Nat → jeTLVertex) (NumPoints : Int)
    (Flags : Nat) (Layers : Nat → jeRDriver_Layer) (NumLayers : Int)
    (LMapCBContext : Option Nat) :
    AddWorldPoly s Pnts NumPoints Layers NumLayers LMapCBContext Flags
      = AddGouraudPoly s Pnts NumPoints Flags ∧
    AddMiscTexturePoly s Pnts NumPoints Layers NumLayers Flags
      = AddGouraudPoly s Pnts NumPoints Flags ∧
    ∃ ext, (AddGouraudPoly s Pnts NumPoints Flags).2.m_Vertices = s.m_Vertices ++ ext ∧
      ∀ v ∈ ext, v.u2 = 0 ∧ v.v2 = 0 := by
  refine ⟨rfl, rfl, ?_⟩
  unfold AddGouraudPoly
  split
  · exact ⟨[], by simp, by simp⟩
  · obtain ⟨ext, hext, hall⟩ := fanLoop_appends Pnts NumPoints NumPoints.toNat 2 s.m_Vertices
    refine ⟨ext, hext, ?_⟩
    intro v hv
    obtain ⟨p, hp⟩ := hall v hv
    subst hp
    exact ⟨rfl, rfl⟩

/-! ## Stored matrices -/

theorem D3DMatrix_ToXForm3d_left_inverse (X out : jeXForm3d) :
    D3DMatrix_ToXForm3d (jeXForm3d_ToD3DMatrix X) out = X := by
  cases X with
  | mk AX AY AZ BX BY BZ CX CY CZ Translation =>
    cases Translation
    rfl

/-- Claim C29. `D3DMatrix_ToXForm3d` is a left inverse of `jeXForm3d_ToD3DMatrix`. For each
of the three matrix types, `D3D12Drv_SetMatrix` followed by `D3D12Drv_GetMatrix` of the same
type returns `true` and the transform that was set, in all twelve components, and
`D3D12Drv_SetMatrix` leaves the two other stored matrices unchanged; for any other type both
functions return `false`, the stored matrices are unchanged and so is the caller's
transform. -/
theorem C29_matrix_round_trip (T : XFormTypes) (hT : T.distinct) (m : Matrices)
    (X out : jeXForm3d) (Type_ : Nat) :
    D3DMatrix_ToXForm3d (jeXForm3d_ToD3DMatrix X) out = X ∧
    (Type_ = T.JE_XFORM_TYPE_WORLD →
      (D3D12Drv_SetMatrix T m Type_ X).1 = true ∧
      D3D12Drv_GetMatrix T (D3D12Drv_SetMatrix T m Type_ X).2 Type_ out = (true, X) ∧
      (D3D12Drv_SetMatrix T m Type_ X).2.g_ViewMatrix = m.g_ViewMatrix ∧
      (D3D12Drv_SetMatrix T m Type_ X).2.g_ProjMatrix = m.g_ProjMatrix) ∧
    (Type_ = T.JE_XFORM_TYPE_VIEW →
      (D3D12Drv_SetMatrix T m Type_ X).1 = true ∧
      D3D12Drv_GetMatrix T (D3D12Drv_SetMatrix T m Type_ X).2 Type_ out = (true, X) ∧
      (D3D12Drv_SetMatrix T m Type_ X).2.g_WorldMatrix = m.g_WorldMatrix ∧
      (D3D12Drv_SetMatrix T m Type_ X).2.g_ProjMatrix = m.g_ProjMatrix) ∧
    (Type_ = T.JE_XFORM_TYPE_PROJECTION →
      (D3D12Drv_SetMatrix T m Type_ X).1 = true ∧
      D3D12Drv_GetMatrix T (D3D12Drv_SetMatrix T m Type_ X).2 Type_ out = (true, X) ∧
      (D3D12Drv_SetMatrix T m Type_ X).2.g_WorldMatrix = m.g_WorldMatrix ∧
      (D3D12Drv_SetMatrix T m Type_ X).2.g_ViewMatrix = m.g_ViewMatrix) ∧
    ((Type_ ≠ T.JE_XFORM_TYPE_WORLD ∧ Type_ ≠ T.JE_XFORM_TYPE_VIEW ∧
        Type_ ≠ T.JE_XFORM_TYPE_PROJECTION) →
      D3D12Drv_SetMatrix T m Type_ X = (false, m) ∧
      D3D12Drv_GetMatrix T m Type_ out = (false, out)) := by
  obtain ⟨hwv, hwp, hvp⟩ := hT
  have hinv := D3DMatrix_ToXForm3d_left_inverse X out
  refine ⟨hinv, ?_, ?_, ?_, ?_⟩
  · intro h
    subst h
    simp [D3D12Drv_SetMatrix, D3D12Drv_GetMatrix, hinv]
  · intro h
    subst h
    have h1 : ¬ T.JE_XFORM_TYPE_VIEW = T.JE_XFORM_TYPE_WORLD := fun e => hwv e.symm
    simp [D3D12Drv_SetMatrix, D3D12Drv_GetMatrix, hinv, h1]
  · intro h
    subst h
    have h1 : ¬ T.JE_XFORM_TYPE_PROJECTION = T.JE_XFORM_TYPE_WORLD := fun e => hwp e.symm
    have h2 : ¬ T.JE_XFORM_TYPE_PROJECTION = T.JE_XFORM_TYPE_VIEW := fun e => hvp e.symm
    simp [D3D12Drv_SetMatrix, D3D12Drv_GetMatrix, hinv, h1, h2]
  · rintro ⟨h1, h2, h3⟩
    simp [D3D12Drv_SetMatrix, D3D12Drv_GetMatrix, h1, h2, h3]

/-- Witness of C29: a transform with twelve different components is set as the view matrix
and read back. -/
theorem C29_matrix_round_trip_witness :
    sampleTypes.distinct ∧
    (D3D12Drv_SetMatrix sampleTypes default 1 sampleXForm).1 = true ∧
    D3D12Drv_GetMatrix sampleTypes (D3D12Drv_SetMatrix sampleTypes default 1 sampleXForm).2 1
      default = (true, sampleXForm) :=
  ⟨by decide,
    ((C29_matrix_round_trip sampleTypes (by decide) default sampleXForm default 1).2.2.1
      rfl).1,
    ((C29_matrix_round_trip sampleTypes (by decide) default sampleXForm default 1).2.2.1
      rfl).2.1⟩

/-! ## Texture sizes -/

theorem SnapToPower2_spec (m : Int) (h1 : 1 ≤ m) (h2 : m ≤ 4096) :
    ∃ k : Nat, k ≤ 12 ∧ SnapToPower2 m = 2 ^ k ∧ m ≤ 2 ^ k ∧ (k = 0 ∨ (2 : Int) ^ (k - 1) < m) := by
  have hcases : m ≤ 1 ∨ (1 < m ∧ m ≤ 2) ∨ (2 < m ∧ m ≤ 4) ∨ (4 < m ∧ m ≤ 8) ∨
      (8 < m ∧ m ≤ 16) ∨ (16 < m ∧ m ≤ 32) ∨ (32 < m ∧ m ≤ 64) ∨ (64 < m ∧ m ≤ 128) ∨
      (128 < m ∧ m ≤ 256) ∨ (256 < m ∧ m ≤ 512) ∨ (512 < m ∧ m ≤ 1024) ∨
      (1024 < m ∧ m ≤ 2048) ∨ (2048 < m ∧ m ≤ 4096) := by omega
  rcases hcases with h | h | h | h | h | h | h | h | h | h | h | h | h
  · refine ⟨0, by norm_num, ?_, by norm_num; omega, Or.inl rfl⟩
    unfold SnapToPower2
    rw [if_pos h]
    norm_num
  · refine ⟨1, by norm_num, ?_, by norm_num; omega, Or.inr (by norm_num; omega)⟩
    have e0 : ¬ m ≤ 1 := by omega
    unfold SnapToPower2
    rw [if_neg e0, if_pos h.2]
    norm_num
  · refine ⟨2, by norm_num, ?_, by norm_num; omega, Or.inr (by norm_num; omega)⟩
    have e0 : ¬ m ≤ 1 := by omega
    have e1 : ¬ m ≤ 2 := by omega
    unfold SnapToPower2
    rw [if_neg e0, if_neg e1, if_pos h.2]
    norm_num
  · refine ⟨3, by norm_num, ?_, by norm_num; omega, Or.inr (by norm_num; omega)⟩
    have e0 : ¬ m ≤ 1 := by omega
    have e1 : ¬ m ≤ 2 := by omega
    have e2 : ¬ m ≤ 4 := by omega
    unfold SnapToPower2
    rw [if_neg e0, if_neg e1, if_neg e2, if_pos h.2]
    norm_num
  · refine ⟨4, by norm_num, ?_, by norm_num; omega, Or.inr (by norm_num; omega)⟩
    have e0 : ¬ m ≤ 1 := by omega
    have e1 : ¬ m ≤ 2 := by omega
    have e2 : ¬ m ≤ 4 := by omega
    have e3 : ¬ m ≤ 8 := by omega
    unfold SnapToPower2
    rw [if_neg e0, if_neg e1, if_neg e2, if_neg e3, if_pos h.2]
    norm_num
  · refine ⟨5, by norm_num, ?_, by norm_num; omega, Or.inr (by norm_num; omega)⟩
    have e0 : ¬ m ≤ 1 := by omega
    have e1 : ¬ m ≤ 2 := by omega
    have e2 : ¬ m ≤ 4 := by omega
    have e3 : ¬ m ≤ 8 := by omega
    have e4 : ¬ m ≤ 16 := by omega
    unfold SnapToPower2
    rw [if_neg e0, if_neg e1, if_neg e2, if_neg e3, if_neg e4, if_pos h.2]
    norm_num
  · refine ⟨6, by norm_num, ?_, by norm_num; omega, Or.inr (by norm_num; omega)⟩
    have e0 : ¬ m ≤ 1 := by omega
    have e1 : ¬ m ≤ 2 := by omega
    have e2 : ¬ m ≤ 4 := by omega
    have e3 : ¬ m ≤ 8 := by omega
    have e4 : ¬ m ≤ 16 := by omega
    have e5 : ¬ m ≤ 32 := by omega
    unfold SnapToPower2
    rw [if_neg e0, if_neg e1, if_neg e2, if_neg e3, if_neg e4, if_neg e5, if_pos h.2]
    norm_num
  · refine ⟨7, by norm_num, ?_, by norm_num; omega, Or.inr (by norm_num; omega)⟩
    have e0 : ¬ m ≤ 1 := by omega
    have e1 : ¬ m ≤ 2 := by omega
    have e2 : ¬ m ≤ 4 := by omega
    have e3 : ¬ m ≤ 8 := by omega
    have e4 : ¬ m ≤ 16 := by omega
    have e5 : ¬ m ≤ 32 := by omega
    have e6 : ¬ m ≤ 64 := by omega
    unfold SnapToPower2
    rw [if_neg e0, if_neg e1, if_neg e2, if_neg e3, if_neg e4, if_neg e5, if_neg e6, if_pos h.2]
    norm_num
  · refine ⟨8, by norm_num, ?_, by norm_num; omega, Or.inr (by norm_num; omega)⟩
    have e0 : ¬ m ≤ 1 := by omega
    have e1 : ¬ m ≤ 2 := by omega
    have e2 : ¬ m ≤ 4 := by omega
    have e3 : ¬ m ≤ 8 := by omega
    have e4 : ¬ m ≤ 16 := by omega
    have e5 : ¬ m ≤ 32 := by omega
    have e6 : ¬ m ≤ 64 := by omega
    have e7 : ¬ m ≤ 128 := by omega
    unfold SnapToPower2
    rw [if_neg e0, if_neg e1, if_neg e2, if_neg e3, if_neg e4, if_neg e5, if_neg e6, if_neg e7,
      if_pos h.2]
    norm_num
  · refine ⟨9, by norm_num, ?_, by norm_num; omega, Or.inr (by norm_num; omega)⟩
    have e0 : ¬ m ≤ 1 := by omega
    have e1 : ¬ m ≤ 2 := by omega
    have e2 : ¬ m ≤ 4 := by omega
    have e3 : ¬ m ≤ 8 := by omega
    have e4 : ¬ m ≤ 16 := by omega
    have e5 : ¬ m ≤ 32 := by omega
    have e6 : ¬ m ≤ 64 := by omega
    have e7 : ¬ m ≤ 128 := by omega
    have e8 : ¬ m ≤ 256 := by omega
    unfold SnapToPower2
    rw [if_neg e0, if_neg e1, if_neg e2, if_neg e3, if_neg e4, if_neg e5, if_neg e6, if_neg e7,
      if_neg e8, if_pos h.2]
    norm_num
  · refine ⟨10, by norm_num, ?_, by norm_num; omega, Or.inr (by norm_num; omega)⟩
    have e0 : ¬ m ≤ 1 := by omega
    have e1 : ¬ m ≤ 2 := by omega
    have e2 : ¬ m ≤ 4 := by omega
    have e3 : ¬ m ≤ 8 := by omega
    have e4 : ¬ m ≤ 16 := by omega
    have e5 : ¬ m ≤ 32 := by omega
    have e6 : ¬ m ≤ 64 := by omega
    have e7 : ¬ m ≤ 128 := by omega
    have e8 : ¬ m ≤ 256 := by omega
    have e9 : ¬ m ≤ 512 := by omega
    unfold SnapToPower2
    rw [if_neg e0, if_neg e1, if_neg e2, if_neg e3, if_neg e4, if_neg e5, if_neg e6, if_neg e7,
      if_neg e8, if_neg e9, if_pos h.2]
    norm_num
  · refine ⟨11, by norm_num, ?_, by norm_num; omega, Or.inr (by norm_num; omega)⟩
    have e0 : ¬ m ≤ 1 := by omega
    have e1 : ¬ m ≤ 2 := by omega
    have e2 : ¬ m ≤ 4 := by omega
    have e3 : ¬ m ≤ 8 := by omega
    have e4 : ¬ m ≤ 16 := by omega
    have e5 : ¬ m ≤ 32 := by omega
    have e6 : ¬ m ≤ 64 := by omega
    have e7 : ¬ m ≤ 128 := by omega
    have e8 : ¬ m ≤ 256 := by omega
    have e9 : ¬ m ≤ 512 := by omega
    have e10 : ¬ m ≤ 1024 := by omega
    unfold SnapToPower2
    rw [if_neg e0, if_neg e1, if_neg e2, if_neg e3, if_neg e4, if_neg e5, if_neg e6, if_neg e7,
      if_neg e8, if_neg e9, if_neg e10, if_pos h.2]
    norm_num
  · refine ⟨12, by norm_num, ?_, by norm_num; omega, Or.inr (by norm_num; omega)⟩
    have e0 : ¬ m ≤ 1 := by omega
    have e1 : ¬ m ≤ 2 := by omega
    have e2 : ¬ m ≤ 4 := by omega
    have e3 : ¬ m ≤ 8 := by omega
    have e4 : ¬ m ≤ 16 := by omega
    have e5 : ¬ m ≤ 32 := by omega
    have e6 : ¬ m ≤ 64 := by omega
    have e7 : ¬ m ≤ 128 := by omega
    have e8 : ¬ m ≤ 256 := by omega
    have e9 : ¬ m ≤ 512 := by omega
    have e10 : ¬ m ≤ 1024 := by omega
    have e11 : ¬ m ≤ 2048 := by omega
    unfold SnapToPower2
    rw [if_neg e0, if_neg e1, if_neg e2, if_neg e3, if_neg e4, if_neg e5, if_neg e6, if_neg e7,
      if_neg e8, if_neg e9, if_neg e10, if_neg e11, if_pos h.2]
    norm_num

theorem Log2_two_pow (k : Nat) (hk : k ≤ 30) : Log2 (2 ^ k) = k := by
  interval_cases k <;> decide

theorem pow_least (m : Int) (k j : Nat) (hk : k = 0 ∨ (2 : Int) ^ (k - 1) < m)
    (hj : m ≤ 2 ^ j) : k ≤ j := by
  rcases hk with hk | hk
  · omega
  · by_contra hlt
    have hle : j ≤ k - 1 := by omega
    have hpow : (2 : Int) ^ j ≤ 2 ^ (k - 1) := pow_le_pow_right₀ (by norm_num) hle
    omega

theorem GetLog_of_snap (Width Height : Int) (k : Nat) (hk : k ≤ 12)
    (hsnap : SnapToPower2 (max Width Height) = 2 ^ k) : GetLog Width Height = k := by
  unfold GetLog
  rw [hsnap]
  interval_cases k <;> decide

/-- Claim C30. For all `Width` and `Height` between 1 and 4096 there is a `k` in `0..12` such
that `SnapToPower2(max(Width, Height))` is `2 ^ k`, the least power of two that is at least
`max(Width, Height)`, `Log2` of that power of two is `k`, and `GetLog(Width, Height)` is `k`,
the least exponent whose power of two reaches the larger dimension; and `Log2(2 ^ k) = k` for
every `k` up to 30. -/
theorem C30_getlog_ceiling_log2 (Width Height : Int) (hw1 : 1 ≤ Width) (hw2 : Width ≤ 4096)
    (_hh1 : 1 ≤ Height) (hh2 : Height ≤ 4096) :
    (∃ k : Nat, k ≤ 12 ∧
      SnapToPower2 (max Width Height) = 2 ^ k ∧
      max Width Height ≤ 2 ^ k ∧
      (∀ j : Nat, max Width Height ≤ (2 : Int) ^ j → k ≤ j) ∧
      Log2 (2 ^ k) = k ∧
      GetLog Width Height = k) ∧
    (∀ k : Nat, k ≤ 30 → Log2 (2 ^ k) = k) := by
  have hm1 : 1 ≤ max Width Height := le_max_of_le_left hw1
  have hm2 : max Width Height ≤ 4096 := max_le hw2 hh2
  obtain ⟨k, hk, hsnap, hle, hlow⟩ := SnapToPower2_spec (max Width Height) hm1 hm2
  refine ⟨⟨k, hk, hsnap, hle, ?_, Log2_two_pow k (by omega), GetLog_of_snap Width Height k hk
    hsnap⟩, fun k hk => Log2_two_pow k hk⟩
  intro j hj
  exact pow_least (max Width Height) k j hlow hj

/-- Witness of C30: a texture of 640 by 480 snaps to 1024 and has log 10. -/
theorem C30_getlog_ceiling_log2_witness :
    ((1 : Int) ≤ 640 ∧ (640 : Int) ≤ 4096 ∧ (1 : Int) ≤ 480 ∧ (480 : Int) ≤ 4096) ∧
    SnapToPower2 (max 640 480) = 1024 ∧ GetLog 640 480 = 10 ∧
    ∃ k : Nat, k ≤ 12 ∧ SnapToPower2 (max 640 480) = 2 ^ k ∧ GetLog 640 480 = k := by
  obtain ⟨k, hk, hsnap, _, _, _, hlog⟩ :=
    (C30_getlog_ceiling_log2 640 480 (by decide) (by decide) (by decide) (by decide)).1
  exact ⟨⟨by decide, by decide, by decide, by decide⟩, by decide, by decide,
    ⟨k, hk, hsnap, hlog⟩⟩

/-! ## Conversion of raw vertices and metadata of a static entry -/

theorem channel_eq (D : Nat) :
    (D >>> 24) &&& 0xFF = D / 2 ^ 24 % 256 ∧ (D >>> 16) &&& 0xFF = D / 2 ^ 16 % 256 ∧
    (D >>> 8) &&& 0xFF = D / 2 ^ 8 % 256 ∧ D &&& 0xFF = D % 256 := by
  have h : ∀ x : Nat, x &&& 0xFF = x % 256 := by
    intro x
    have := Nat.and_pow_two_sub_one_eq_mod x 8
    simpa using this
  simp [h, Nat.shiftRight_eq_div_pow]

theorem channels_recombine (D : Nat) (hD : D < 2 ^ 32) :
    ((D / 2 ^ 24 % 256) <<< 24 ||| (D / 2 ^ 16 % 256) <<< 16 ||| (D / 2 ^ 8 % 256) <<< 8 |||
      D % 256) = D := by
  have hb : D % 256 < 2 ^ 8 := by omega
  have hg : 2 ^ 8 * (D / 2 ^ 8 % 256) + D % 256 < 2 ^ 16 := by omega
  have hr : 2 ^ 16 * (D / 2 ^ 16 % 256) + (2 ^ 8 * (D / 2 ^ 8 % 256) + D % 256) < 2 ^ 24 := by
    omega
  have e1 := Nat.mul_add_lt_is_or hb (D / 2 ^ 8 % 256)
  have e2 := Nat.mul_add_lt_is_or hg (D / 2 ^ 16 % 256)
  have e3 := Nat.mul_add_lt_is_or hr (D / 2 ^ 24 % 256)
  rw [Nat.shiftLeft_eq, Nat.shiftLeft_eq, Nat.shiftLeft_eq, Nat.or_assoc, Nat.or_assoc,
    Nat.mul_comm _ (2 ^ 24), Nat.mul_comm _ (2 ^ 16), Nat.mul_comm _ (2 ^ 8), ← e1, ← e2, ← e3]
  omega

set_option maxRecDepth 1000000 in
theorem binary32Div_byte_facts :
    ∀ n < 256,
      roundHalfEven (n * 2 ^ binary32Scale n 255 48 0) 255 ≤ 2 ^ binary32Scale n 255 48 0 ∧
      255 * roundHalfEven (n * 2 ^ binary32Scale n 255 48 0) 255 * 2 ^ 25
        ≤ n * 2 ^ binary32Scale n 255 48 0 * 2 ^ 25 + 255 * 2 ^ binary32Scale n 255 48 0 ∧
      n * 2 ^ binary32Scale n 255 48 0 * 2 ^ 25
        ≤ 255 * roundHalfEven (n * 2 ^ binary32Scale n 255 48 0) 255 * 2 ^ 25
          + 255 * 2 ^ binary32Scale n 255 48 0 := by
  decide

theorem binary32Div_byte (n : Nat) (hn : n < 256) :
    0 ≤ binary32Div n 255 ∧ binary32Div n 255 ≤ 1 ∧
    |binary32Div n 255 - (n : FloatVal) / 255| ≤ 1 / 2 ^ 25 := by
  by_cases h0 : n = 0
  · subst h0
    simp [binary32Div]
  · obtain ⟨h1, h2, h3⟩ := binary32Div_byte_facts n hn
    unfold binary32Div
    rw [if_neg h0]
    generalize binary32Scale n 255 48 0 = s at h1 h2 h3 ⊢
    generalize roundHalfEven (n * 2 ^ s) 255 = m at h1 h2 h3 ⊢
    have hP : (0 : FloatVal) < 2 ^ s := by positivity
    have q1 : (m : FloatVal) ≤ 2 ^ s := by exact_mod_cast h1
    have q2 : (255 : FloatVal) * m * 2 ^ 25 ≤ n * 2 ^ s * 2 ^ 25 + 255 * 2 ^ s := by
      exact_mod_cast h2
    have q3 : (n : FloatVal) * 2 ^ s * 2 ^ 25 ≤ 255 * m * 2 ^ 25 + 255 * 2 ^ s := by
      exact_mod_cast h3
    refine ⟨by positivity, (div_le_one hP).mpr q1, ?_⟩
    have hdiff : (m : FloatVal) / 2 ^ s - (n : FloatVal) / 255
        = (255 * m - n * 2 ^ s) / (255 * 2 ^ s) := by
      field_simp
      ring
    rw [hdiff, abs_le]
    have hden : (0 : FloatVal) < 255 * 2 ^ s := by positivity
    constructor
    · rw [le_div_iff₀ hden]
      have : (1 : FloatVal) / 2 ^ 25 * (255 * 2 ^ s) * 2 ^ 25 = 255 * 2 ^ s := by
        field_simp
      nlinarith
    · rw [div_le_iff₀ hden]
      have : (1 : FloatVal) / 2 ^ 25 * (255 * 2 ^ s) * 2 ^ 25 = 255 * 2 ^ s := by
        field_simp
      nlinarith

theorem binary32Div_exact : binary32Div 0 255 = 0 ∧ binary32Div 255 255 = 1 := by
  have hs : binary32Scale 255 255 48 0 = 23 := by decide
  have hm : roundHalfEven (255 * 2 ^ 23) 255 = 2 ^ 23 := by decide
  refine ⟨by simp [binary32Div], ?_⟩
  unfold binary32Div
  rw [if_neg (by decide), hs, hm]
  norm_num

theorem binary32Div_tinted :
    binary32Div 128 255 = 8421505 / 2 ^ 24 ∧ binary32Div 64 255 = 8421505 / 2 ^ 25 ∧
    binary32Div 32 255 = 8421505 / 2 ^ 26 ∧ binary32Div 16 255 = 8421505 / 2 ^ 27 := by
  have s1 : binary32Scale 128 255 48 0 = 24 := by decide
  have m1 : roundHalfEven (128 * 2 ^ 24) 255 = 8421505 := by decide
  have s2 : binary32Scale 64 255 48 0 = 25 := by decide
  have m2 : roundHalfEven (64 * 2 ^ 25) 255 = 8421505 := by decide
  have s3 : binary32Scale 32 255 48 0 = 26 := by decide
  have m3 : roundHalfEven (32 * 2 ^ 26) 255 = 8421505 := by decide
  have s4 : binary32Scale 16 255 48 0 = 27 := by decide
  have m4 : roundHalfEven (16 * 2 ^ 27) 255 = 8421505 := by decide
  refine ⟨?_, ?_, ?_, ?_⟩
  · unfold binary32Div
    rw [if_neg (by decide), s1, m1]
    norm_num
  · unfold binary32Div
    rw [if_neg (by decide), s2, m2]
    norm_num
  · unfold binary32Div
    rw [if_neg (by decide), s3, m3]
    norm_num
  · unfold binary32Div
    rw [if_neg (by decide), s4, m4]
    norm_num

theorem AddStaticBuffer_nonzero (s : D3D12PolyCache) (Points : Option (Nat → jeHWVertex))
    (NumPoints : Int) (Layers : Nat → jeRDriver_Layer) (NumLayers : Int) (Flags : Nat)
    (hrCreate : Option Nat) (hrMap : Bool)
    (h : (AddStaticBuffer s Points NumPoints Layers NumLayers Flags hrCreate hrMap).1 ≠ 0) :
    s.m_bInitialized = true ∧ 0 < NumPoints ∧
    ∃ pts addr, Points = some pts ∧ hrCreate = some addr := by
  by_cases hbad : NumPoints ≤ 0 ∨ Points = none ∨ s.m_bInitialized = false
  · rw [AddStaticBuffer_invalid s Points NumPoints Layers NumLayers Flags hrCreate hrMap
      hbad] at h
    exact absurd rfl h
  · have hn : 0 < NumPoints := by
      have := fun h0 => hbad (Or.inl h0)
      omega
    have hpts : Points ≠ none := fun h0 => hbad (Or.inr (Or.inl h0))
    have hinit : s.m_bInitialized = true := by
      cases hb : s.m_bInitialized with
      | true => rfl
      | false => exact absurd (Or.inr (Or.inr hb)) hbad
    obtain ⟨pts, hp⟩ := Option.ne_none_iff_exists'.mp hpts
    subst hp
    cases hrCreate with
    | none =>
      rw [AddStaticBuffer_alloc_fail s pts NumPoints Layers NumLayers Flags hrMap hinit hn] at h
      exact absurd rfl h
    | some addr => exact ⟨hinit, hn, pts, addr, rfl, rfl⟩



theorem convertHWVertex_spec (p : jeHWVertex) :
    ((convertHWVertex p).x = p.Pos.X ∧ (convertHWVertex p).y = p.Pos.Y ∧
      (convertHWVertex p).z = p.Pos.Z) ∧
    ((convertHWVertex p).u = p.u ∧ (convertHWVertex p).v = p.v) ∧
    ((convertHWVertex p).u2 = p.lu ∧ (convertHWVertex p).v2 = p.lv) ∧
    ((convertHWVertex p).a = binary32Div (p.Diffuse / 2 ^ 24 % 256) 255 ∧
      (convertHWVertex p).r = binary32Div (p.Diffuse / 2 ^ 16 % 256) 255 ∧
      (convertHWVertex p).g = binary32Div (p.Diffuse / 2 ^ 8 % 256) 255 ∧
      (convertHWVertex p).b = binary32Div (p.Diffuse % 256) 255) := by
  have hc := channel_eq p.Diffuse
  refine ⟨⟨rfl, rfl, rfl⟩, ⟨rfl, rfl⟩, ⟨rfl, rfl⟩, ?_, ?_, ?_, ?_⟩
  · unfold convertHWVertex
    simp only []
    rw [hc.1]
  · unfold convertHWVertex
    simp only []
    rw [hc.2.1]
  · unfold convertHWVertex
    simp only []
    rw [hc.2.2.1]
  · unfold convertHWVertex
    simp only []
    rw [hc.2.2.2]

/-- Claim C24, as stated, fails: a successful creation of one raw vertex with the packed
colour `0x80402010` uploads a vertex whose alpha channel is `8421505 / 2 ^ 24`, the binary32
quotient of the byte 128 by 255, and not `128 / 255`. -/
theorem C24_conversion_counterexample :
    (AddStaticBuffer readyCache (some tintedPoints) 1 zeroLayers 0 0 (some 4096) true).1 ≠ 0 ∧
    ∃ buf res c,
      mapFind (AddStaticBuffer readyCache (some tintedPoints) 1 zeroLayers 0 0 (some 4096)
          true).2.m_StaticBuffers
        (AddStaticBuffer readyCache (some tintedPoints) 1 zeroLayers 0 0 (some 4096) true).1
          = some (some buf) ∧
      buf.pVertexBuffer = some res ∧ res.data[0]? = some c ∧
      (tintedPoints 0).Diffuse / 2 ^ 24 % 256 = 128 ∧
      c.a = 8421505 / 2 ^ 24 ∧
      c.a ≠ (((tintedPoints 0).Diffuse / 2 ^ 24 % 256 : Nat) : FloatVal) / 255 := by
  refine ⟨by decide, ?_⟩
  rw [AddStaticBuffer_success readyCache tintedPoints 1 zeroLayers 0 0 4096 true (by decide)
    (by decide)]
  have ha : (convertHWVertex (tintedPoints 0)).a = 8421505 / 2 ^ 24 := by
    rw [(convertHWVertex_spec (tintedPoints 0)).2.2.2.1]
    have hb : (tintedPoints 0).Diffuse / 2 ^ 24 % 256 = 128 := by decide
    rw [hb]
    exact binary32Div_tinted.1
  refine ⟨_, _, convertHWVertex (tintedPoints 0), mapFind_mapAssign_self _ _ _, rfl, ?_,
    by decide, ha, ?_⟩
  · simp
  · rw [ha]
    have hb : (tintedPoints 0).Diffuse / 2 ^ 24 % 256 = 128 := by decide
    rw [hb]
    norm_num

/-- Claim C24, amended. For every `AddStaticBuffer` call that returns a non-zero handle for
`NumPoints` raw vertices and every `i < NumPoints`, the `i`-th vertex of the converted array
(which is what a successful `Map` uploads into the new buffer) has the position, the primary
texture coordinate `(u, v)` and the lightmap coordinate `(lu, lv)` of raw vertex `i`; its
colour channels `a`, `r`, `g`, `b` are the binary32 quotients by 255 of the bytes at bits
31..24, 23..16, 15..8 and 7..0 of `Diffuse`: each is a rational between 0 and 1 that differs
from the byte divided by 255 by at most `2 ^ -25`; and for a 32-bit `Diffuse` the four bytes
recombine as `a << 24 | r << 16 | g << 8 | b` to `Diffuse`. -/
theorem C24_raw_vertex_conversion (s : D3D12PolyCache) (Points : Option (Nat → jeHWVertex))
    (NumPoints : Int) (Layers : Nat → jeRDriver_Layer) (NumLayers : Int) (Flags : Nat)
    (hrCreate : Option Nat) (hrMap : Bool)
    (hsucc : (AddStaticBuffer s Points NumPoints Layers NumLayers Flags hrCreate hrMap).1 ≠ 0) :
    ∃ pts, Points = some pts ∧
      (hrMap = true → ∃ buf res,
        mapFind (AddStaticBuffer s Points NumPoints Layers NumLayers Flags hrCreate
            hrMap).2.m_StaticBuffers
          (AddStaticBuffer s Points NumPoints Layers NumLayers Flags hrCreate hrMap).1
            = some (some buf) ∧
        buf.pVertexBuffer = some res ∧
        res.data = (List.range NumPoints.toNat).map (fun j => convertHWVertex (pts j))) ∧
      ∀ i : Nat, (i : Int) < NumPoints →
        ∃ c, ((List.range NumPoints.toNat).map (fun j => convertHWVertex (pts j)))[i]? = some c ∧
          (c.x = (pts i).Pos.X ∧ c.y = (pts i).Pos.Y ∧ c.z = (pts i).Pos.Z) ∧
          (c.u = (pts i).u ∧ c.v = (pts i).v) ∧
          (c.u2 = (pts i).lu ∧ c.v2 = (pts i).lv) ∧
          (c.a = binary32Div ((pts i).Diffuse / 2 ^ 24 % 256) 255 ∧
            c.r = binary32Div ((pts i).Diffuse / 2 ^ 16 % 256) 255 ∧
            c.g = binary32Div ((pts i).Diffuse / 2 ^ 8 % 256) 255 ∧
            c.b = binary32Div ((pts i).Diffuse % 256) 255) ∧
          ((0 ≤ c.a ∧ c.a ≤ 1) ∧ (0 ≤ c.r ∧ c.r ≤ 1) ∧ (0 ≤ c.g ∧ c.g ≤ 1) ∧
            (0 ≤ c.b ∧ c.b ≤ 1)) ∧
          (|c.a - (((pts i).Diffuse / 2 ^ 24 % 256 : Nat) : FloatVal) / 255| ≤ 1 / 2 ^ 25 ∧
            |c.r - (((pts i).Diffuse / 2 ^ 16 % 256 : Nat) : FloatVal) / 255| ≤ 1 / 2 ^ 25 ∧
            |c.g - (((pts i).Diffuse / 2 ^ 8 % 256 : Nat) : FloatVal) / 255| ≤ 1 / 2 ^ 25 ∧
            |c.b - (((pts i).Diffuse % 256 : Nat) : FloatVal) / 255| ≤ 1 / 2 ^ 25) ∧
          ((pts i).Diffuse < 2 ^ 32 →
            (((pts i).Diffuse / 2 ^ 24 % 256) <<< 24 ||| ((pts i).Diffuse / 2 ^ 16 % 256) <<< 16
              ||| ((pts i).Diffuse / 2 ^ 8 % 256) <<< 8 ||| (pts i).Diffuse % 256)
              = (pts i).Diffuse) := by
  obtain ⟨hinit, hn, pts, addr, hp, hc⟩ :=
    AddStaticBuffer_nonzero s Points NumPoints Layers NumLayers Flags hrCreate hrMap hsucc
  subst hp
  subst hc
  refine ⟨pts, rfl, ?_, ?_⟩
  · intro hm
    subst hm
    rw [AddStaticBuffer_success s pts NumPoints Layers NumLayers Flags addr true hinit hn]
    exact ⟨_, _, mapFind_mapAssign_self _ _ _, rfl, rfl⟩
  · intro i hi
    have hlt : i < NumPoints.toNat := by omega
    refine ⟨convertHWVertex (pts i), ?_, ?_⟩
    · rw [List.getElem?_map, List.getElem?_range hlt]
      rfl
    · obtain ⟨hpos, huv, hlm, hca, hcr, hcg, hcb⟩ := convertHWVertex_spec (pts i)
      have ba := binary32Div_byte ((pts i).Diffuse / 2 ^ 24 % 256) (Nat.mod_lt _ (by norm_num))
      have br := binary32Div_byte ((pts i).Diffuse / 2 ^ 16 % 256) (Nat.mod_lt _ (by norm_num))
      have bg := binary32Div_byte ((pts i).Diffuse / 2 ^ 8 % 256) (Nat.mod_lt _ (by norm_num))
      have bb := binary32Div_byte ((pts i).Diffuse % 256) (Nat.mod_lt _ (by norm_num))
      rw [← hca] at ba
      rw [← hcr] at br
      rw [← hcg] at bg
      rw [← hcb] at bb
      exact ⟨hpos, huv, hlm, ⟨hca, hcr, hcg, hcb⟩,
        ⟨⟨ba.1, ba.2.1⟩, ⟨br.1, br.2.1⟩, ⟨bg.1, bg.2.1⟩, ⟨bb.1, bb.2.1⟩⟩,
        ⟨ba.2.2, br.2.2, bg.2.2, bb.2.2⟩,
        fun h32 => channels_recombine _ h32⟩

/-- Witness of C24: one raw vertex with the packed colour `0x80402010`, created with success
on a ready cache; the converted vertex has the raw position and the channels
`8421505 / 2 ^ 24`, `8421505 / 2 ^ 25`, `8421505 / 2 ^ 26` and `8421505 / 2 ^ 27`. -/
theorem C24_raw_vertex_conversion_witness :
    (AddStaticBuffer readyCache (some tintedPoints) 1 zeroLayers 0 0 (some 4096) true).1 ≠ 0 ∧
    ∃ c, ((List.range (1 : Int).toNat).map (fun j => convertHWVertex (tintedPoints j)))[0]?
        = some c ∧
      (c.x = 1 ∧ c.y = 2 ∧ c.z = 3) ∧ (c.u = 4 ∧ c.v = 5) ∧ (c.u2 = 6 ∧ c.v2 = 7) ∧
      (c.a = 8421505 / 2 ^ 24 ∧ c.r = 8421505 / 2 ^ 25 ∧ c.g = 8421505 / 2 ^ 26 ∧
        c.b = 8421505 / 2 ^ 27) ∧
      |c.a - 128 / 255| ≤ 1 / 2 ^ 25 := by
  obtain ⟨pts, hp, _, hall⟩ := C24_raw_vertex_conversion readyCache (some tintedPoints) 1
    zeroLayers 0 0 (some 4096) true (by decide)
  have hpts : pts = tintedPoints := (Option.some.inj hp).symm
  subst hpts
  obtain ⟨c, hc, hpos, huv, hlm, ⟨hca, hcr, hcg, hcb⟩, _, ⟨hea, _⟩, _⟩ := hall 0 (by decide)
  have b1 : (tintedPoints 0).Diffuse / 2 ^ 24 % 256 = 128 := by decide
  have b2 : (tintedPoints 0).Diffuse / 2 ^ 16 % 256 = 64 := by decide
  have b3 : (tintedPoints 0).Diffuse / 2 ^ 8 % 256 = 32 := by decide
  have b4 : (tintedPoints 0).Diffuse % 256 = 16 := by decide
  rw [b1] at hca hea
  rw [b2] at hcr
  rw [b3] at hcg
  rw [b4] at hcb
  refine ⟨by decide, c, hc, hpos, huv, hlm, ⟨?_, ?_, ?_, ?_⟩, ?_⟩
  · rw [hca]
    exact binary32Div_tinted.1
  · rw [hcr]
    exact binary32Div_tinted.2.1
  · rw [hcg]
    exact binary32Div_tinted.2.2.1
  · rw [hcb]
    exact binary32Div_tinted.2.2.2
  · simpa using hea

theorem copyLayers_spec (Layers : Nat → jeRDriver_Layer) (NumLayers : Int) :
    (copyLayers Layers NumLayers MAX_LAYERS 0 (List.replicate MAX_LAYERS default)).length
      = MAX_LAYERS ∧
    ∀ i : Nat, i < MAX_LAYERS →
      (copyLayers Layers NumLayers MAX_LAYERS 0 (List.replicate MAX_LAYERS default))[i]?
        = some (if (i : Int) < NumLayers then Layers i else default) := by
  have hcases : NumLayers ≤ 0 ∨ NumLayers = 1 ∨ 2 ≤ NumLayers := by omega
  rcases hcases with h | h | h
  · have h0 : ¬ (0 : Int) < NumLayers := by omega
    refine ⟨by simp [copyLayers, MAX_LAYERS, h0], ?_⟩
    intro i hi
    have hi2 : i = 0 ∨ i = 1 := by
      unfold MAX_LAYERS at hi
      omega
    have h1 : ¬ (1 : Int) < NumLayers := by omega
    rcases hi2 with rfl | rfl <;> simp [copyLayers, MAX_LAYERS, h0, h1]
  · subst h
    refine ⟨by simp [copyLayers, MAX_LAYERS], ?_⟩
    intro i hi
    have hi2 : i = 0 ∨ i = 1 := by
      unfold MAX_LAYERS at hi
      omega
    rcases hi2 with rfl | rfl <;> simp [copyLayers, MAX_LAYERS]
  · have h0 : (0 : Int) < NumLayers := by omega
    have h1 : (1 : Int) < NumLayers := by omega
    refine ⟨by simp [copyLayers, MAX_LAYERS, h0, h1], ?_⟩
    intro i hi
    have hi2 : i = 0 ∨ i = 1 := by
      unfold MAX_LAYERS at hi
      omega
    rcases hi2 with rfl | rfl <;> simp [copyLayers, MAX_LAYERS, h0, h1]

theorem AddStaticBuffer_entry (s : D3D12PolyCache) (pts : Nat → jeHWVertex) (n : Int)
    (ls : Nat → jeRDriver_Layer) (nl : Int) (f : Nat) (addr : Nat) (hm : Bool)
    (hinit : s.m_bInitialized = true) (hn : 0 < n) :
    ∃ buf,
      mapFind (AddStaticBuffer s (some pts) n ls nl f (some addr) hm).2.m_StaticBuffers
        (AddStaticBuffer s (some pts) n ls nl f (some addr) hm).1 = some (some buf) ∧
      buf.NumVertices = n ∧ buf.Flags = f ∧
      buf.VBView.StrideInBytes = sizeofD3D12Vertex ∧
      buf.VBView.SizeInBytes = (sizeofD3D12Vertex * n.toNat) % UINT_RANGE ∧
      buf.NumLayers = nl ∧
      buf.Layers = copyLayers ls nl MAX_LAYERS 0 (List.replicate MAX_LAYERS default) := by
  rw [AddStaticBuffer_success s pts n ls nl f addr hm hinit hn]
  exact ⟨_, mapFind_mapAssign_self _ _ _, rfl, rfl, rfl, rfl, rfl, rfl⟩

/-- Claim C25, as stated, fails: a successful creation of `2 ^ 27` vertices with a layer list
of length 3 registers an entry whose view size is not `44 * 2 ^ 27` bytes and whose layer
count, 3, exceeds `MAX_LAYERS`, while the entry stores `MAX_LAYERS` descriptors. -/
theorem C25_metadata_counterexample :
    ∃ buf,
      mapFind (AddStaticBuffer readyCache (some zeroPoints) ((2 ^ 27 : Nat) : Int) zeroLayers 3
          0 (some 4096) true).2.m_StaticBuffers
        (AddStaticBuffer readyCache (some zeroPoints) ((2 ^ 27 : Nat) : Int) zeroLayers 3
          0 (some 4096) true).1 = some (some buf) ∧
      buf.VBView.SizeInBytes ≠ 44 * 2 ^ 27 ∧
      ¬ buf.NumLayers ≤ (MAX_LAYERS : Int) ∧
      buf.Layers.length = 2 := by
  obtain ⟨buf, hfind, _, _, _, hsize, hnl, hlayers⟩ :=
    AddStaticBuffer_entry readyCache zeroPoints ((2 ^ 27 : Nat) : Int) zeroLayers 3 0 4096 true
      (by decide) (by norm_num)
  refine ⟨buf, hfind, ?_, ?_, ?_⟩
  · rw [hsize, Int.toNat_ofNat]
    unfold sizeofD3D12Vertex UINT_RANGE
    norm_num
  · rw [hnl]
    unfold MAX_LAYERS
    norm_num
  · rw [hlayers]
    exact (copyLayers_spec zeroLayers 3).1

/-- Claim C25, amended. For every `AddStaticBuffer` call that returns a non-zero handle for
`NumPoints` vertices, a layer list `Layers` of length `NumLayers` and flags `Flags`, the entry
registered under the handle records vertex count `NumPoints`, flags `Flags`, a view of stride
44 and of size `44 * NumPoints` reduced modulo `2 ^ 32` (so `44 * NumPoints` itself when that
is below `2 ^ 32`), and it stores `MAX_LAYERS` layer descriptors, of which slot `i` is the
caller's descriptor `i` when `i < NumLayers` and the zero descriptor otherwise; when
`0 ≤ NumLayers ≤ MAX_LAYERS` the recorded layer count is at most `MAX_LAYERS` and is the
number of caller descriptors stored. -/
theorem C25_static_entry_metadata (s : D3D12PolyCache) (Points : Option (Nat → jeHWVertex))
    (NumPoints : Int) (Layers : Nat → jeRDriver_Layer) (NumLayers : Int) (Flags : Nat)
    (hrCreate : Option Nat) (hrMap : Bool)
    (hsucc : (AddStaticBuffer s Points NumPoints Layers NumLayers Flags hrCreate hrMap).1 ≠ 0) :
    ∃ buf,
      mapFind (AddStaticBuffer s Points NumPoints Layers NumLayers Flags hrCreate
          hrMap).2.m_StaticBuffers
        (AddStaticBuffer s Points NumPoints Layers NumLayers Flags hrCreate hrMap).1
          = some (some buf) ∧
      buf.NumVertices = NumPoints ∧ buf.Flags = Flags ∧
      buf.VBView.StrideInBytes = 44 ∧
      buf.VBView.SizeInBytes = (44 * NumPoints.toNat) % 2 ^ 32 ∧
      (44 * NumPoints < 2 ^ 32 → (buf.VBView.SizeInBytes : Int) = 44 * NumPoints) ∧
      buf.Layers.length = MAX_LAYERS ∧
      (∀ i : Nat, i < MAX_LAYERS →
        buf.Layers[i]? = some (if (i : Int) < NumLayers then Layers i else default)) ∧
      (0 ≤ NumLayers → NumLayers ≤ (MAX_LAYERS : Int) →
        buf.NumLayers ≤ (MAX_LAYERS : Int) ∧ buf.NumLayers = NumLayers ∧
        ∀ i : Nat, i < MAX_LAYERS →
          buf.Layers[i]? = some (if (i : Int) < buf.NumLayers then Layers i else default)) := by
  obtain ⟨hinit, hn, pts, addr, hp, hc⟩ :=
    AddStaticBuffer_nonzero s Points NumPoints Layers NumLayers Flags hrCreate hrMap hsucc
  subst hp
  subst hc
  obtain ⟨buf, hfind, hnv, hfl, hstride, hsize, hnl, hlayers⟩ :=
    AddStaticBuffer_entry s pts NumPoints Layers NumLayers Flags addr hrMap hinit hn
  have hcl := copyLayers_spec Layers NumLayers
  rw [← hlayers] at hcl
  have hsize2 : buf.VBView.SizeInBytes = (44 * NumPoints.toNat) % 2 ^ 32 := by
    rw [hsize]
    rfl
  refine ⟨buf, hfind, hnv, hfl, hstride, hsize2, ?_, hcl.1, hcl.2, ?_⟩
  · intro hlt
    rw [hsize2]
    have hnat : 44 * NumPoints.toNat < 2 ^ 32 := by omega
    rw [Nat.mod_eq_of_lt hnat]
    push_cast
    rw [Int.toNat_of_nonneg (by omega)]
  · intro _ hle
    refine ⟨by rw [hnl]; exact hle, hnl, ?_⟩
    rw [hnl]
    exact hcl.2

/-- Witness of C25: one vertex with one layer, created with success on a ready cache. -/
theorem C25_static_entry_metadata_witness :
    (AddStaticBuffer readyCache (some zeroPoints) 1 zeroLayers 1 5 (some 4096) true).1 ≠ 0 ∧
    ∃ buf,
      mapFind (AddStaticBuffer readyCache (some zeroPoints) 1 zeroLayers 1 5 (some 4096)
          true).2.m_StaticBuffers
        (AddStaticBuffer readyCache (some zeroPoints) 1 zeroLayers 1 5 (some 4096) true).1
          = some (some buf) ∧
      buf.NumVertices = 1 ∧ buf.Flags = 5 ∧ buf.VBView.StrideInBytes = 44 ∧
      buf.VBView.SizeInBytes = 44 ∧ buf.NumLayers = 1 := by
  obtain ⟨buf, hfind, hnv, hfl, hstride, hsize, _, _, _, hcount⟩ :=
    C25_static_entry_metadata readyCache (some zeroPoints) 1 zeroLayers 1 5 (some 4096) true
      (by decide)
  exact ⟨by decide, buf, hfind, hnv, hfl, hstride, by rw [hsize]; rfl,
    (hcount (by norm_num) (by unfold MAX_LAYERS; norm_num)).2.1⟩

/-! ## The upload copy stays inside the dynamic buffer -/

theorem ViewWithinBuffer_of_frame (s t : D3D12PolyCache)
    (hvb : t.m_pDynamicVB = s.m_pDynamicVB) (hview : t.m_DynamicVBView = s.m_DynamicVBView)
    (h : ViewWithinBuffer s) : ViewWithinBuffer t := by
  unfold ViewWithinBuffer at h ⊢
  rw [hvb, hview]
  exact h

theorem Flush_copy_within (s : D3D12PolyCache) (cl : Option (List Cmd)) (hc : Option Nat)
    (hm : Bool) (h : ViewWithinBuffer s) :
    ViewWithinBuffer (Flush s cl hc hm).cache ∧
    ∀ b, Event.Memcpy b ∈ (Flush s cl hc hm).events →
      b = sizeofD3D12Vertex * s.m_Vertices.length ∧
      ∃ res, (Flush s cl hc hm).cache.m_pDynamicVB = some res ∧ b ≤ res.Width := by
  unfold ViewWithinBuffer at h
  unfold Flush
  split
  · exact ⟨h, by simp⟩
  · cases hvb : s.m_pDynamicVB with
    | none =>
      cases hc with
      | none => simp [hvb, ViewWithinBuffer]
      | some addr =>
        cases hm <;> simp [hvb, ViewWithinBuffer, Nat.mod_le]
    | some res =>
      rw [hvb] at h
      simp only [] at h
      by_cases hlt : s.m_DynamicVBView.SizeInBytes < sizeofD3D12Vertex * s.m_Vertices.length
      · cases hc with
        | none => simp [hvb, hlt, ViewWithinBuffer]
        | some addr =>
          cases hm <;> simp [hvb, hlt, ViewWithinBuffer, Nat.mod_le]
      · cases hm
        · simp [hvb, hlt, ViewWithinBuffer]
          exact h
        · simp [hvb, hlt, ViewWithinBuffer]
          omega

theorem step_ViewWithinBuffer (s : D3D12PolyCache) (op : Op) (h : ViewWithinBuffer s) :
    ViewWithinBuffer (step s op) := by
  cases op with
  | Initialize d q env =>
    have hf := Initialize_frame s d q env
    exact ViewWithinBuffer_of_frame s _ hf.1 hf.2.1 h
  | Shutdown => simp [step, Shutdown, ViewWithinBuffer]
  | AddGouraudPoly Pnts n f =>
    have hf := AddGouraudPoly_frame s Pnts n f
    exact ViewWithinBuffer_of_frame s _ hf.1 hf.2.1 h
  | Flush cl hc hm => exact (Flush_copy_within s cl hc hm h).1
  | AddStaticBuffer pts n ls nl f hc hm =>
    have hf := AddStaticBuffer_dyn s pts n ls nl f hc hm
    exact ViewWithinBuffer_of_frame s _ hf.1 hf.2.1 h
  | RemoveStaticBuffer id =>
    have hf := RemoveStaticBuffer_frame s id
    exact ViewWithinBuffer_of_frame s _ hf.1 hf.2.1 h
  | RenderStaticBuffer id sv np x =>
    have hf := RenderStaticBuffer_frame s id sv np x
    simp only [step]
    rw [hf]
    exact h

theorem run_ViewWithinBuffer (ops : List Op) :
    ∀ s : D3D12PolyCache, ViewWithinBuffer s → ViewWithinBuffer (run s ops) := by
  induction ops with
  | nil => intro s h; exact h
  | cons op rest ih =>
    intro s h
    exact ih (step s op) (step_ViewWithinBuffer s op h)

/-- Claim C27. In every state reached from a freshly constructed cache by any sequence of
calls (polygon submissions, flushes with succeeding or failing allocation and mapping,
`Shutdown`, `Initialize`, and the static-buffer calls), whenever `Flush` copies the staged
vertices into the dynamic buffer, the number of bytes copied is 44 times the number of staged
vertices, the buffer is present and its allocated size is at least the number of bytes
copied - whatever the byte size, also beyond `2 ^ 32` where the recorded view size is
truncated. -/
theorem C27_upload_copy_within_buffer (view0 : D3D12_VERTEX_BUFFER_VIEW) (ops : List Op)
    (pCmdList : Option (List Cmd)) (hrCreate : Option Nat) (hrMap : Bool) (bytes : Nat)
    (hcopy : Event.Memcpy bytes
      ∈ (Flush (run (D3D12PolyCache.new view0) ops) pCmdList hrCreate hrMap).events) :
    bytes = 44 * (run (D3D12PolyCache.new view0) ops).m_Vertices.length ∧
    ∃ res,
      (Flush (run (D3D12PolyCache.new view0) ops) pCmdList hrCreate hrMap).cache.m_pDynamicVB
        = some res ∧
      44 * (run (D3D12PolyCache.new view0) ops).m_Vertices.length ≤ res.Width := by
  have hinv : ViewWithinBuffer (run (D3D12PolyCache.new view0) ops) :=
    run_ViewWithinBuffer ops _ (by simp [ViewWithinBuffer, D3D12PolyCache.new])
  obtain ⟨hb, res, hres, hle⟩ :=
    (Flush_copy_within _ pCmdList hrCreate hrMap hinv).2 bytes hcopy
  refine ⟨hb, res, hres, ?_⟩
  rw [hb] at hle
  exact hle

/-- Witness of C27: the second flush of the two-frame sequence copies the 132 bytes of a
triangle into the 264-byte buffer that the first flush allocated for the quad. -/
theorem C27_upload_copy_within_buffer_witness :
    Event.Memcpy 132 ∈ (Flush (run (D3D12PolyCache.new default) (twoFrameOps.take 4))
        (some []) (some 8192) true).events ∧
    ∃ res,
      (Flush (run (D3D12PolyCache.new default) (twoFrameOps.take 4)) (some []) (some 8192)
          true).cache.m_pDynamicVB = some res ∧
      44 * (run (D3D12PolyCache.new default) (twoFrameOps.take 4)).m_Vertices.length
        ≤ res.Width :=
  ⟨by decide,
    (C27_upload_copy_within_buffer default (twoFrameOps.take 4) (some []) (some 8192) true 132
      (by decide)).2⟩

/-! ## What one frame call does to the frame globals and the queue -/

theorem waitLoop_done_le (target : Nat) :
    ∀ (fuel : Nat) (g g2 : GpuQueue), GpuQueue.waitLoop target fuel g = some g2 →
      g.done ≤ g.queue.length → g2.done ≤ g2.queue.length := by
  intro fuel
  induction fuel with
  | zero =>
    intro g g2 h hle
    unfold GpuQueue.waitLoop at h
    split at h
    · simp only [Option.some.injEq] at h
      subst h
      exact hle
    · exact Option.noConfusion h
  | succ f ih =>
    intro g g2 h hle
    unfold GpuQueue.waitLoop at h
    split at h
    · simp only [Option.some.injEq] at h
      subst h
      exact hle
    · split at h
      · have := ih _ g2 h (by simp only []; omega)
        exact this
      · exact Option.noConfusion h

theorem progress_done_le (g : GpuQueue) (k : Nat) :
    (g.progress k).done ≤ (g.progress k).queue.length := by
  unfold GpuQueue.progress
  simp only []
  omega

theorem MoveToNextFrame_effect (st st2 : Driver) (idx k : Nat)
    (h : MoveToNextFrame st idx k = some st2) :
    st2.g_FrameIndex = idx ∧
    st2.g_FenceValues = st.g_FenceValues.set idx
      ((st.g_FenceValues.getD st.g_FrameIndex 0 + 1) % UINT64_RANGE) ∧
    st2.gpu.queue = st.gpu.queue ++ [QueueItem.Signal (st.g_FenceValues.getD st.g_FrameIndex 0)] ∧
    st2.gpu.fenceInit = st.gpu.fenceInit ∧
    st2.gpu.done ≤ st2.gpu.queue.length ∧
    st.g_FenceValues.getD idx 0 ≤ st2.gpu.GetCompletedValue ∧
    (st2.calls = st.calls ++
        [ DrvCall.Signal (st.g_FenceValues.getD st.g_FrameIndex 0),
          DrvCall.GetCurrentBackBufferIndex idx ] ∨
      st2.calls = st.calls ++
        [ DrvCall.Signal (st.g_FenceValues.getD st.g_FrameIndex 0),
          DrvCall.GetCurrentBackBufferIndex idx,
          DrvCall.Wait (st.g_FenceValues.getD idx 0) ]) ∧
    st2.g_pCommandQueue = st.g_pCommandQueue ∧ st2.g_pFence = st.g_pFence ∧
    st2.g_pCommandList = st.g_pCommandList ∧ st2.listAllocator = st.listAllocator ∧
    st2.g_pPolyCache = st.g_pPolyCache := by
  unfold MoveToNextFrame at h
  simp only [] at h
  have hp := progress_done_le
    (st.gpu.submit (QueueItem.Signal (st.g_FenceValues.getD st.g_FrameIndex 0))) k
  split at h
  · split at h
    · exact Option.noConfusion h
    · rename_i g2 hw
      simp only [Option.some.injEq] at h
      subst h
      have hs := WaitForFence_spec _ g2 _ hw
      have hd := waitLoop_done_le _ _ _ g2 hw hp
      refine ⟨rfl, rfl, ?_, ?_, hd, hs.1, Or.inr (by simp), rfl, rfl, rfl, rfl, rfl⟩
      · simp only []
        rw [hs.2.1]
        rfl
      · simp only []
        rw [hs.2.2.1]
        rfl
  · rename_i hge
    simp only [Option.some.injEq] at h
    subst h
    exact ⟨rfl, rfl, rfl, rfl, hp, by simp only []; omega, Or.inl rfl, rfl, rfl, rfl, rfl, rfl⟩

theorem WaitForGPU_effect (st st2 : Driver) (k : Nat)
    (hq : st.g_pCommandQueue = true) (hf : st.g_pFence = true)
    (h : WaitForGPU st k = some st2) :
    st2.g_FrameIndex = st.g_FrameIndex ∧
    st2.g_FenceValues = st.g_FenceValues.set st.g_FrameIndex
      ((st.g_FenceValues.getD st.g_FrameIndex 0 + 1) % UINT64_RANGE) ∧
    st2.gpu.queue = st.gpu.queue ++ [QueueItem.Signal (st.g_FenceValues.getD st.g_FrameIndex 0)] ∧
    st2.gpu.fenceInit = st.gpu.fenceInit ∧
    st2.gpu.done ≤ st2.gpu.queue.length ∧
    st.g_FenceValues.getD st.g_FrameIndex 0 ≤ st2.gpu.GetCompletedValue ∧
    (st2.calls = st.calls ++ [DrvCall.Signal (st.g_FenceValues.getD st.g_FrameIndex 0)] ∨
      st2.calls = st.calls ++
        [ DrvCall.Signal (st.g_FenceValues.getD st.g_FrameIndex 0),
          DrvCall.Wait (st.g_FenceValues.getD st.g_FrameIndex 0) ]) ∧
    st2.g_pCommandQueue = st.g_pCommandQueue ∧ st2.g_pFence = st.g_pFence ∧
    st2.g_pCommandList = st.g_pCommandList ∧ st2.listAllocator = st.listAllocator ∧
    st2.g_pPolyCache = st.g_pPolyCache := by
  unfold WaitForGPU at h
  have hguard : (!st.g_pCommandQueue || !st.g_pFence) = false := by
    rw [hq, hf]
    rfl
  rw [hguard] at h
  simp only [Bool.false_eq_true, if_false] at h
  have hp := progress_done_le
    (st.gpu.submit (QueueItem.Signal (st.g_FenceValues.getD st.g_FrameIndex 0))) k
  split at h
  · split at h
    · exact Option.noConfusion h
    · rename_i g2 hw
      simp only [Option.some.injEq] at h
      subst h
      have hs := WaitForFence_spec _ g2 _ hw
      have hd := waitLoop_done_le _ _ _ g2 hw hp
      refine ⟨rfl, rfl, ?_, ?_, hd, hs.1, Or.inr (by simp), rfl, rfl, rfl, rfl, rfl⟩
      · simp only []
        rw [hs.2.1]
        rfl
      · simp only []
        rw [hs.2.2.1]
        rfl
  · rename_i hge
    simp only [Option.some.injEq] at h
    subst h
    exact ⟨rfl, rfl, rfl, rfl, hp, by simp only []; omega, Or.inl rfl, rfl, rfl, rfl, rfl, rfl⟩

/-! ## The order of the calls of `D3D12Drv_EndScene` -/

/-- Claim C26, as stated, fails: on frame globals without a polygon cache `D3D12Drv_EndScene`
returns success having closed, submitted, presented and moved to the next frame, and no
`Flush` was called. -/
theorem C26_end_scene_counterexample :
    ∃ st2, D3D12Drv_EndScene noCacheScene goodEnd = some (true, st2) ∧
      st2.calls = noCacheScene.calls ++
        [ DrvCall.Close true, DrvCall.ExecuteCommandLists 0, DrvCall.Present true,
          DrvCall.Signal 1, DrvCall.GetCurrentBackBufferIndex 1 ] ∧
      DrvCall.FlushPolyCache true ∉ st2.calls ∧ DrvCall.FlushPolyCache false ∉ st2.calls :=
  ⟨((D3D12Drv_EndScene noCacheScene goodEnd).getD default).2, rfl, rfl, by decide, by decide⟩

/-- Claim C26, amended. For every `D3D12Drv_EndScene` call that returns success, the calls it
makes are, in this order: the `Flush` of the polygon cache on the command list (when there is
a polygon cache; none otherwise), `Close`, `ExecuteCommandLists`, `Present`, the fence
`Signal` and `GetCurrentBackBufferIndex` of `MoveToNextFrame` (followed by a wait when the
new slot is not ready); the command list that is closed and submitted is the list as `Flush`
left it followed by the transition of the current target from render-target to present state;
the queue receives that list and then the signal. And if there is a polygon cache and its
`Flush` fails, `D3D12Drv_EndScene` returns failure with no call after `Flush`: nothing is
closed, submitted or presented, and the frame index is unchanged. -/
theorem C26_end_scene_order (st : Driver) (env : EndSceneEnv) :
    (∀ st2, D3D12Drv_EndScene st env = some (true, st2) →
      ∃ flushCalls cl,
        (match st.g_pPolyCache with
          | none => flushCalls = [] ∧ cl = st.g_pCommandList
          | some cache =>
            flushCalls = [DrvCall.FlushPolyCache true] ∧
            (Flush cache (some st.g_pCommandList) env.hrCreate env.hrMap).ret = true ∧
            (Flush cache (some st.g_pCommandList) env.hrCreate env.hrMap).pCmdList = some cl) ∧
        (st2.calls = st.calls ++ flushCalls ++
            [ DrvCall.Close true, DrvCall.ExecuteCommandLists st.listAllocator,
              DrvCall.Present true,
              DrvCall.Signal (st.g_FenceValues.getD st.g_FrameIndex 0),
              DrvCall.GetCurrentBackBufferIndex env.backBufferIndex ] ∨
          st2.calls = st.calls ++ flushCalls ++
            [ DrvCall.Close true, DrvCall.ExecuteCommandLists st.listAllocator,
              DrvCall.Present true,
              DrvCall.Signal (st.g_FenceValues.getD st.g_FrameIndex 0),
              DrvCall.GetCurrentBackBufferIndex env.backBufferIndex,
              DrvCall.Wait (st.g_FenceValues.getD env.backBufferIndex 0) ]) ∧
        st2.gpu.queue = st.gpu.queue ++
          [ QueueItem.ExecuteCommandLists st.listAllocator
              (cl ++ [Cmd.ResourceBarrier st.g_FrameIndex ResourceState.RENDER_TARGET
                ResourceState.PRESENT]),
            QueueItem.Signal (st.g_FenceValues.getD st.g_FrameIndex 0) ] ∧
        st2.g_FrameIndex = env.backBufferIndex) ∧
    (∀ cache, st.g_pPolyCache = some cache →
      (Flush cache (some st.g_pCommandList) env.hrCreate env.hrMap).ret = false →
      ∃ st3, D3D12Drv_EndScene st env = some (false, st3) ∧
        st3.calls = st.calls ++ [DrvCall.FlushPolyCache false] ∧
        st3.gpu = st.gpu ∧ st3.g_FrameIndex = st.g_FrameIndex) := by
  constructor
  · intro st2 h
    unfold D3D12Drv_EndScene at h
    simp only [] at h
    split at h
    · simp at h
    · split at h
      · simp at h
      · split at h
        · simp at h
        · rename_i hflush hclose hpresent
          rw [Option.map_eq_some'] at h
          obtain ⟨s, hs, hpair⟩ := h
          simp only [Prod.mk.injEq, true_and] at hpair
          subst hpair
          have hc : env.hrClose = true := by simpa using hclose
          have hp : env.hrPresent = true := by simpa using hpresent
          have he := MoveToNextFrame_effect _ s _ _ hs
          obtain ⟨hidx, _, hq, _, _, _, hcalls, _⟩ := he
          cases hpc : st.g_pPolyCache with
          | none =>
            refine ⟨[], st.g_pCommandList, ⟨rfl, rfl⟩, ?_, ?_, hidx⟩
            · simp only [flushPolyCache, hpc, hc, hp] at hcalls
              simpa using hcalls
            · simp only [flushPolyCache, hpc] at hq
              simpa [GpuQueue.submit, TransitionResource] using hq
          | some cache =>
            have hret : (Flush cache (some st.g_pCommandList) env.hrCreate env.hrMap).ret
                = true := by
              simpa [flushPolyCache, hpc] using hflush
            have hsome : ∃ cl, (Flush cache (some st.g_pCommandList) env.hrCreate
                env.hrMap).pCmdList = some cl := by
              unfold Flush
              split
              · exact ⟨_, rfl⟩
              · simp only []
                split
                · exact ⟨_, rfl⟩
                · exact ⟨_, rfl⟩
            obtain ⟨cl, hcl⟩ := hsome
            refine ⟨[DrvCall.FlushPolyCache true], cl, ⟨rfl, hret, hcl⟩, ?_, ?_, hidx⟩
            · simp only [flushPolyCache, hpc, hc, hp, hret] at hcalls
              simpa using hcalls
            · simp only [flushPolyCache, hpc, hcl] at hq
              simpa [GpuQueue.submit, TransitionResource] using hq
  · intro cache hpc hret
    refine ⟨(flushPolyCache st env).2, ?_, ?_, ?_, ?_⟩
    · unfold D3D12Drv_EndScene
      simp [flushPolyCache, hpc, hret]
    · simp [flushPolyCache, hpc, hret]
    · simp [flushPolyCache, hpc]
    · simp [flushPolyCache, hpc]

/-- Witness of C26: the scene with the staged quad ends with success when every call succeeds,
and with failure after `Flush` alone when the allocation inside `Flush` fails. -/
theorem C26_end_scene_order_witness :
    (∃ st2, D3D12Drv_EndScene stagedScene goodEnd = some (true, st2) ∧
      st2.calls = stagedScene.calls ++
        [ DrvCall.FlushPolyCache true, DrvCall.Close true, DrvCall.ExecuteCommandLists 0,
          DrvCall.Present true, DrvCall.Signal 1, DrvCall.GetCurrentBackBufferIndex 1 ] ∧
      st2.g_FrameIndex = 1) ∧
    (∃ st3, D3D12Drv_EndScene stagedScene flushFails = some (false, st3) ∧
      st3.calls = stagedScene.calls ++ [DrvCall.FlushPolyCache false] ∧
      st3.gpu = stagedScene.gpu ∧ st3.g_FrameIndex = stagedScene.g_FrameIndex) :=
  ⟨⟨((D3D12Drv_EndScene stagedScene goodEnd).getD default).2, rfl, rfl,
      (((C26_end_scene_order stagedScene goodEnd).1 _ rfl).choose_spec.choose_spec).2.2.2⟩,
    (C26_end_scene_order stagedScene flushFails).2 stagedCache rfl rfl⟩

/-! ## Fence values along sequences of driver calls -/

theorem getD_set (l : List Nat) (i j v : Nat) (hi : i < l.length) :
    (l.set i v).getD j 0 = if i = j then v else l.getD j 0 := by
  rw [List.getD_eq_getElem?_getD, List.getD_eq_getElem?_getD, List.getElem?_set]
  by_cases hij : i = j
  · subst hij
    simp [hi]
  · simp [hij]

theorem signalledValues_append (a b : List QueueItem) :
    signalledValues (a ++ b) = signalledValues a ++ signalledValues b := by
  unfold signalledValues
  exact List.filterMap_append _ _ _

theorem signalledValues_signal (q : List QueueItem) (v : Nat) :
    signalledValues (q ++ [QueueItem.Signal v]) = signalledValues q ++ [v] := by
  rw [signalledValues_append]
  rfl

theorem signalledValues_exec (q : List QueueItem) (a : Nat) (cmds : List Cmd) :
    signalledValues (q ++ [QueueItem.ExecuteCommandLists a cmds]) = signalledValues q := by
  rw [signalledValues_append]
  exact List.append_nil _

theorem mem_signalledValues (q : List QueueItem) (v : Nat) :
    v ∈ signalledValues q ↔ QueueItem.Signal v ∈ q := by
  induction q with
  | nil => simp [signalledValues]
  | cons x rest ih =>
    cases x with
    | ExecuteCommandLists a c =>
      have : signalledValues (QueueItem.ExecuteCommandLists a c :: rest)
          = signalledValues rest := rfl
      rw [this, ih]
      simp
    | Signal w =>
      have : signalledValues (QueueItem.Signal w :: rest) = w :: signalledValues rest := rfl
      rw [this, List.mem_cons, ih, List.mem_cons]
      constructor
      · rintro (h | h)
        · exact Or.inl (by rw [h])
        · exact Or.inr h
      · rintro (h | h)
        · exact Or.inl (QueueItem.Signal.inj h)
        · exact Or.inr h

theorem fenceValueAfter_append_signal (l : List QueueItem) :
    ∀ (init v : Nat), fenceValueAfter init (l ++ [QueueItem.Signal v]) = v := by
  induction l with
  | nil => intro init v; rfl
  | cons x rest ih =>
    intro init v
    cases x with
    | ExecuteCommandLists a c => exact ih init v
    | Signal w => exact ih w v

theorem fenceValueAfter_mem (l : List QueueItem) :
    ∀ init : Nat, fenceValueAfter init l = init ∨ fenceValueAfter init l ∈ signalledValues l := by
  induction l with
  | nil => intro init; exact Or.inl rfl
  | cons x rest ih =>
    intro init
    cases x with
    | ExecuteCommandLists a c => exact ih init
    | Signal w =>
      have hsv : signalledValues (QueueItem.Signal w :: rest) = w :: signalledValues rest := rfl
      have hfv : fenceValueAfter init (QueueItem.Signal w :: rest) = fenceValueAfter w rest :=
        rfl
      rw [hsv, hfv]
      rcases ih w with h | h
      · right
        rw [h]
        exact List.mem_cons_self _ _
      · exact Or.inr (List.mem_cons_of_mem _ h)

theorem fenceValueAfter_take_bound (q : List QueueItem) (init S d : Nat) :
    (init < S → (∀ v ∈ signalledValues q, v < S) → fenceValueAfter init (q.take d) < S) ∧
    (init ≤ S → (∀ v ∈ signalledValues q, v ≤ S) → fenceValueAfter init (q.take d) ≤ S) := by
  have hsub : ∀ v ∈ signalledValues (q.take d), v ∈ signalledValues q := by
    intro v hv
    rw [mem_signalledValues] at hv ⊢
    exact List.mem_of_mem_take hv
  constructor
  · intro hinit hall
    rcases fenceValueAfter_mem (q.take d) init with h | h
    · rw [h]
      exact hinit
    · exact hall _ (hsub _ h)
  · intro hinit hall
    rcases fenceValueAfter_mem (q.take d) init with h | h
    · rw [h]
      exact hinit
    · exact hall _ (hsub _ h)

theorem D3D12Drv_Init_fence (st : Driver) (env : InitDrvEnv) (h : env.reachesFence = true) :
    (D3D12Drv_Init st env).2.g_FrameIndex = env.backBufferIndex ∧
    (D3D12Drv_Init st env).2.g_FenceValues = st.g_FenceValues.set env.backBufferIndex
      ((st.g_FenceValues.getD env.backBufferIndex 0 + 1) % UINT64_RANGE) ∧
    (D3D12Drv_Init st env).2.g_pCommandQueue = true ∧
    (D3D12Drv_Init st env).2.g_pFence = true ∧
    (D3D12Drv_Init st env).2.gpu
      = { queue := [], done := 0, fenceInit := st.g_FenceValues.getD env.backBufferIndex 0 } := by
  unfold InitDrvEnv.reachesFence at h
  simp only [Bool.and_eq_true, Bool.or_eq_true] at h
  obtain ⟨⟨⟨⟨⟨⟨⟨⟨⟨⟨⟨h1, h2⟩, h3⟩, h4⟩, h5⟩, h6⟩, h7⟩, h8⟩, h9⟩, h10⟩, h11⟩, h12⟩ := h
  have hdev : (!env.hrDevice12 && !env.hrDevice11) = false := by
    rcases h2 with h2 | h2 <;> simp [h2]
  unfold D3D12Drv_Init
  simp only [h1, hdev, h3, h4, h5, h6, h7, h8, h9, h10, h11, h12, Bool.not_true,
    Bool.false_eq_true, if_false]
  split <;> exact ⟨rfl, rfl, rfl, rfl, rfl⟩

theorem D3D12Drv_Init_SessionInv (st : Driver) (env : InitDrvEnv)
    (hlen : st.g_FenceValues.length = FRAME_COUNT) (hreach : env.reachesFence = true)
    (hidx : env.backBufferIndex < FRAME_COUNT)
    (hno : st.g_FenceValues.getD env.backBufferIndex 0 + 1 < UINT64_RANGE) :
    SessionInv (D3D12Drv_Init st env).2 (st.g_FenceValues.getD env.backBufferIndex 0 + 1) ∧
    (D3D12Drv_Init st env).2.g_FenceValues.getD (D3D12Drv_Init st env).2.g_FrameIndex 0
      = st.g_FenceValues.getD env.backBufferIndex 0 + 1 := by
  obtain ⟨hcur, hfv, hq, hf, hgpu⟩ := D3D12Drv_Init_fence st env hreach
  have hnew : (D3D12Drv_Init st env).2.g_FenceValues.getD
      (D3D12Drv_Init st env).2.g_FrameIndex 0
      = st.g_FenceValues.getD env.backBufferIndex 0 + 1 := by
    rw [hcur, hfv, getD_set _ _ _ _ (by omega), if_pos rfl, Nat.mod_eq_of_lt hno]
  refine ⟨⟨by omega, ?_, hq, hf, by omega, ?_, ?_, ?_, ?_⟩, hnew⟩
  · rw [hfv, List.length_set]
    exact hlen
  · rw [hnew, hgpu]
    exact Nat.lt_succ_self _
  · rw [hgpu]
    intro v hv
    simp [signalledValues] at hv
  · rw [hgpu]
    simp [signalledValues]
  · rw [hgpu]
    exact Nat.le_refl _

theorem D3D12Drv_Init_zero (st : Driver) (env : InitDrvEnv)
    (hzero : st.g_FenceValues = List.replicate FRAME_COUNT 0) (hreach : env.reachesFence = true)
    (hidx : env.backBufferIndex < FRAME_COUNT) :
    (D3D12Drv_Init st env).2.g_FenceValues
      = (List.replicate FRAME_COUNT 0).set (D3D12Drv_Init st env).2.g_FrameIndex 1 ∧
    (D3D12Drv_Init st env).2.gpu.fenceInit = 0 ∧
    (D3D12Drv_Init st env).2.gpu.queue = [] ∧
    CurrentGreatest (D3D12Drv_Init st env).2 := by
  obtain ⟨hcur, hfv, _, _, hgpu⟩ := D3D12Drv_Init_fence st env hreach
  have hget : ∀ j, (List.replicate FRAME_COUNT 0).getD j 0 = 0 := by
    intro j
    rw [List.getD_eq_getElem?_getD]
    by_cases hj : j < FRAME_COUNT
    · rw [List.getElem?_replicate_of_lt hj]
      rfl
    · rw [List.getElem?_eq_none (by rw [List.length_replicate]; omega)]
      rfl
  have hone : (0 + 1) % UINT64_RANGE = 1 := by
    unfold UINT64_RANGE
    norm_num
  rw [hzero, hget, hone] at hfv
  rw [hzero, hget] at hgpu
  refine ⟨by rw [hfv, hcur], by rw [hgpu], by rw [hgpu], ?_⟩
  intro j _ hne
  rw [hcur] at hne
  rw [hcur, hfv, getD_set _ _ _ _ (by rw [List.length_replicate]; exact hidx),
    getD_set _ _ _ _ (by rw [List.length_replicate]; exact hidx), if_pos rfl,
    if_neg (fun e => hne e.symm), hget]
  exact Nat.zero_lt_one

theorem SessionInv_same (st st2 : Driver) (b : Nat) (h : SessionInv st b)
    (hs : FenceSame st st2) : SessionInv st2 b := by
  obtain ⟨h1, h2, h3, h4, h5⟩ := hs
  unfold SessionInv at h ⊢
  rw [h1, h2, h3, h4, h5]
  exact h

theorem SessionInv_exec (st st2 : Driver) (b : Nat) (h : SessionInv st b)
    (hs : FenceExec st st2) : SessionInv st2 b := by
  obtain ⟨h1, h2, h3, h4, a, cmds, h5⟩ := hs
  obtain ⟨i1, i2, i3, i4, i5, i6, i7, i8, i9⟩ := h
  unfold SessionInv
  rw [h1, h2, h3, h4, h5]
  refine ⟨i1, i2, i3, i4, i5, i6, ?_, ?_, ?_⟩
  · simp only [GpuQueue.submit]
    rw [signalledValues_exec]
    exact i7
  · simp only [GpuQueue.submit]
    rw [signalledValues_exec]
    exact i8
  · simp only [GpuQueue.submit, List.length_append, List.length_singleton]
    omega

theorem CurrentGreatest_same (st st2 : Driver) (h : CurrentGreatest st)
    (h1 : st2.g_FrameIndex = st.g_FrameIndex) (h2 : st2.g_FenceValues = st.g_FenceValues) :
    CurrentGreatest st2 := by
  unfold CurrentGreatest at h ⊢
  rw [h1, h2]
  exact h

theorem SessionInv_advance (st st2 : Driver) (idx b : Nat) (h : SessionInv st b)
    (hb : b + 1 < UINT64_RANGE) (hidx : idx < FRAME_COUNT)
    (hcur : st2.g_FrameIndex = idx)
    (hfv : st2.g_FenceValues = st.g_FenceValues.set idx
      ((st.g_FenceValues.getD st.g_FrameIndex 0 + 1) % UINT64_RANGE))
    (hqueue : st2.gpu.queue
      = st.gpu.queue ++ [QueueItem.Signal (st.g_FenceValues.getD st.g_FrameIndex 0)])
    (hinit : st2.gpu.fenceInit = st.gpu.fenceInit)
    (hdone : st2.gpu.done ≤ st2.gpu.queue.length)
    (hthr : st.g_FenceValues.getD idx 0 ≤ st2.gpu.GetCompletedValue ∨ idx = st.g_FrameIndex)
    (hq : st2.g_pCommandQueue = st.g_pCommandQueue) (hf : st2.g_pFence = st.g_pFence) :
    SessionInv st2 (b + 1) ∧
    (∀ j, st.g_FenceValues.getD j 0 ≤ st2.g_FenceValues.getD j 0) ∧
    st2.g_FenceValues.getD idx 0 = st.g_FenceValues.getD st.g_FrameIndex 0 + 1 ∧
    (CurrentGreatest st → CurrentGreatest st2) := by
  obtain ⟨_, hlen, hq0, hf0, hbound, hfi, hss, hpw, _⟩ := h
  have hmod : (st.g_FenceValues.getD st.g_FrameIndex 0 + 1) % UINT64_RANGE
      = st.g_FenceValues.getD st.g_FrameIndex 0 + 1 := Nat.mod_eq_of_lt (by omega)
  rw [hmod] at hfv
  have hget : ∀ j, st2.g_FenceValues.getD j 0
      = if idx = j then st.g_FenceValues.getD st.g_FrameIndex 0 + 1
        else st.g_FenceValues.getD j 0 := by
    intro j
    rw [hfv]
    exact getD_set _ _ _ _ (by omega)
  have hnew : st2.g_FenceValues.getD idx 0 = st.g_FenceValues.getD st.g_FrameIndex 0 + 1 := by
    rw [hget idx, if_pos rfl]
  have hsig : signalledValues st2.gpu.queue
      = signalledValues st.gpu.queue ++ [st.g_FenceValues.getD st.g_FrameIndex 0] := by
    rw [hqueue, signalledValues_signal]
  have hold : st.g_FenceValues.getD idx 0 ≤ st.g_FenceValues.getD st.g_FrameIndex 0 := by
    rcases hthr with hthr | hthr
    · have hle : st2.gpu.GetCompletedValue ≤ st.g_FenceValues.getD st.g_FrameIndex 0 := by
        unfold GpuQueue.GetCompletedValue
        rw [hinit]
        refine (fenceValueAfter_take_bound _ _ _ _).2 (Nat.le_of_lt hfi) ?_
        intro v hv
        rw [hsig, List.mem_append] at hv
        rcases hv with hv | hv
        · exact Nat.le_of_lt (hss v hv)
        · simp only [List.mem_singleton] at hv
          omega
      omega
    · rw [hthr]
  refine ⟨⟨by omega, ?_, by rw [hq]; exact hq0, by rw [hf]; exact hf0, ?_, ?_, ?_, ?_, hdone⟩,
    ?_, hnew, ?_⟩
  · rw [hfv, List.length_set]
    exact hlen
  · rw [hcur, hnew]
    omega
  · rw [hcur, hnew, hinit]
    omega
  · intro v hv
    rw [hcur, hnew]
    rw [hsig, List.mem_append] at hv
    rcases hv with hv | hv
    · have := hss v hv
      omega
    · simp only [List.mem_singleton] at hv
      omega
  · rw [hsig, List.pairwise_append]
    refine ⟨hpw, List.pairwise_singleton _ _, ?_⟩
    intro a ha c hc
    simp only [List.mem_singleton] at hc
    rw [hc]
    exact hss a ha
  · intro j
    rw [hget j]
    by_cases e : idx = j
    · rw [if_pos e, ← e]
      omega
    · rw [if_neg e]
  · intro hcg j hj hne
    rw [hcur] at hne
    rw [hcur, hnew, hget j, if_neg (fun e => hne e.symm)]
    have : st.g_FenceValues.getD j 0 ≤ st.g_FenceValues.getD st.g_FrameIndex 0 := by
      by_cases hc : j = st.g_FrameIndex
      · rw [hc]
      · exact Nat.le_of_lt (hcg j hj hc)
    omega

theorem D3D12Drv_BeginScene_fence (st : Driver) (Clear ClearZ : Bool) (WorldRect : Option Nat)
    (Wireframe : Bool) (env : BeginSceneEnv) :
    FenceSame st (D3D12Drv_BeginScene st Clear ClearZ WorldRect Wireframe env).2 := by
  unfold D3D12Drv_BeginScene
  simp only []
  split
  · exact ⟨rfl, rfl, rfl, rfl, rfl⟩
  · split <;> exact ⟨rfl, rfl, rfl, rfl, rfl⟩

theorem flushPolyCache_fence (st : Driver) (env : EndSceneEnv) :
    FenceSame st (flushPolyCache st env).2 ∧
    (flushPolyCache st env).2.listAllocator = st.listAllocator := by
  unfold flushPolyCache
  split <;> exact ⟨⟨rfl, rfl, rfl, rfl, rfl⟩, rfl⟩

theorem D3D12Drv_EndScene_fence (st st2 : Driver) (env : EndSceneEnv) (r : Bool)
    (h : D3D12Drv_EndScene st env = some (r, st2)) :
    (r = false ∧ (FenceSame st st2 ∨ FenceExec st st2)) ∨
    (r = true ∧ ∃ st3, FenceExec st st3 ∧
      MoveToNextFrame st3 env.backBufferIndex env.gpuProgress = some st2) := by
  obtain ⟨⟨f1, f2, f3, f4, f5⟩, _⟩ := flushPolyCache_fence st env
  unfold D3D12Drv_EndScene at h
  simp only [] at h
  split at h
  · simp only [Option.some.injEq, Prod.mk.injEq] at h
    obtain ⟨hr, hst⟩ := h
    subst hst
    exact Or.inl ⟨hr.symm, Or.inl ⟨f1, f2, f3, f4, f5⟩⟩
  · split at h
    · simp only [Option.some.injEq, Prod.mk.injEq] at h
      obtain ⟨hr, hst⟩ := h
      subst hst
      exact Or.inl ⟨hr.symm, Or.inl ⟨f1, f2, f3, f4, f5⟩⟩
    · split at h
      · simp only [Option.some.injEq, Prod.mk.injEq] at h
        obtain ⟨hr, hst⟩ := h
        subst hst
        exact Or.inl ⟨hr.symm, Or.inr ⟨f1, f2, f3, f4, _, _,
          congrArg (fun g => GpuQueue.submit g (QueueItem.ExecuteCommandLists
            (flushPolyCache st env).2.listAllocator
            (TransitionResource (flushPolyCache st env).2.g_pCommandList
              (flushPolyCache st env).2.g_FrameIndex ResourceState.RENDER_TARGET
              ResourceState.PRESENT))) f5⟩⟩
      · rw [Option.map_eq_some'] at h
        obtain ⟨s, hs, hpair⟩ := h
        simp only [Prod.mk.injEq] at hpair
        obtain ⟨hr, hst⟩ := hpair
        subst hst
        refine Or.inr ⟨hr.symm, _, ?_, hs⟩
        exact ⟨f1, f2, f3, f4, _, _,
          congrArg (fun g => GpuQueue.submit g (QueueItem.ExecuteCommandLists
            (flushPolyCache st env).2.listAllocator
            (TransitionResource (flushPolyCache st env).2.g_pCommandList
              (flushPolyCache st env).2.g_FrameIndex ResourceState.RENDER_TARGET
              ResourceState.PRESENT))) f5⟩

theorem SessionInv_mono (st : Driver) (b c : Nat) (h : SessionInv st b) (hbc : b ≤ c) :
    SessionInv st c := by
  obtain ⟨i1, i2, i3, i4, i5, i6⟩ := h
  exact ⟨i1, i2, i3, i4, by omega, i6⟩

theorem FenceSame_inv (st st2 : Driver) (b : Nat) (h : SessionInv st b)
    (hs : FenceSame st st2) :
    SessionInv st2 (b + 1) ∧
    (∀ j, st.g_FenceValues.getD j 0 ≤ st2.g_FenceValues.getD j 0) ∧
    (CurrentGreatest st → CurrentGreatest st2) := by
  refine ⟨SessionInv_mono _ _ _ (SessionInv_same st st2 b h hs) (Nat.le_succ b), ?_, ?_⟩
  · intro j
    rw [hs.2.1]
  · intro hcg
    exact CurrentGreatest_same st st2 hcg hs.1 hs.2.1

theorem FenceExec_inv (st st2 : Driver) (b : Nat) (h : SessionInv st b)
    (hs : FenceExec st st2) :
    SessionInv st2 b ∧
    (∀ j, st.g_FenceValues.getD j 0 ≤ st2.g_FenceValues.getD j 0) ∧
    (CurrentGreatest st → CurrentGreatest st2) := by
  refine ⟨SessionInv_exec st st2 b h hs, ?_, ?_⟩
  · intro j
    rw [hs.2.1]
  · intro hcg
    exact CurrentGreatest_same st st2 hcg hs.1 hs.2.1

theorem MoveToNextFrame_inv (st st2 : Driver) (idx k b : Nat) (h : SessionInv st b)
    (hb : b + 1 < UINT64_RANGE) (hidx : idx < FRAME_COUNT)
    (hmove : MoveToNextFrame st idx k = some st2) :
    SessionInv st2 (b + 1) ∧
    (∀ j, st.g_FenceValues.getD j 0 ≤ st2.g_FenceValues.getD j 0) ∧
    (CurrentGreatest st → CurrentGreatest st2) := by
  obtain ⟨hcur, hfv, hqueue, hinit, hdone, hthr, _, hq, hf, _⟩ :=
    MoveToNextFrame_effect st st2 idx k hmove
  have := SessionInv_advance st st2 idx b h hb hidx hcur hfv hqueue hinit hdone (Or.inl hthr)
    hq hf
  exact ⟨this.1, this.2.1, this.2.2.2⟩

theorem WaitForGPU_inv (st st2 : Driver) (k b : Nat) (h : SessionInv st b)
    (hb : b + 1 < UINT64_RANGE) (hwait : WaitForGPU st k = some st2) :
    SessionInv st2 (b + 1) ∧
    (∀ j, st.g_FenceValues.getD j 0 ≤ st2.g_FenceValues.getD j 0) ∧
    (CurrentGreatest st → CurrentGreatest st2) ∧
    st2.g_FrameIndex = st.g_FrameIndex ∧
    st2.g_FenceValues.getD st2.g_FrameIndex 0 = st.g_FenceValues.getD st.g_FrameIndex 0 + 1 := by
  obtain ⟨hcur, hfv, hqueue, hinit, hdone, _, _, hq, hf, _⟩ :=
    WaitForGPU_effect st st2 k h.2.2.1 h.2.2.2.1 hwait
  have := SessionInv_advance st st2 st.g_FrameIndex b h hb h.1 hcur hfv hqueue hinit hdone
    (Or.inr rfl) hq hf
  refine ⟨this.1, this.2.1, this.2.2.2, hcur, ?_⟩
  rw [hcur]
  exact this.2.2.1

theorem frameStep_inv (st st2 : Driver) (op : FrameOp) (b : Nat) (h : SessionInv st b)
    (hb : b + 1 < UINT64_RANGE) (hop : op.slotOk = true) (hstep : frameStep st op = some st2) :
    SessionInv st2 (b + 1) ∧
    (∀ j, st.g_FenceValues.getD j 0 ≤ st2.g_FenceValues.getD j 0) ∧
    (CurrentGreatest st → CurrentGreatest st2) := by
  cases op with
  | MoveToNextFrame idx k =>
    exact MoveToNextFrame_inv st st2 idx k b h hb (by simpa [FrameOp.slotOk] using hop) hstep
  | WaitForGPU k =>
    have := WaitForGPU_inv st st2 k b h hb hstep
    exact ⟨this.1, this.2.1, this.2.2.1⟩
  | ExecuteCommandLists a cmds =>
    simp only [frameStep, Option.some.injEq] at hstep
    subst hstep
    have := FenceExec_inv st
      { st with
        gpu := st.gpu.submit (QueueItem.ExecuteCommandLists a cmds)
        calls := st.calls ++ [DrvCall.ExecuteCommandLists a] } b h
      ⟨rfl, rfl, rfl, rfl, a, cmds, rfl⟩
    exact ⟨SessionInv_mono _ _ _ this.1 (Nat.le_succ b), this.2⟩
  | BeginScene c z w wf env =>
    simp only [frameStep, Option.some.injEq] at hstep
    subst hstep
    exact FenceSame_inv st _ b h (D3D12Drv_BeginScene_fence st c z w wf env)
  | EndScene env =>
    simp only [frameStep] at hstep
    rw [Option.map_eq_some'] at hstep
    obtain ⟨⟨r, s⟩, hend, hs⟩ := hstep
    simp only [] at hs
    subst hs
    rcases D3D12Drv_EndScene_fence st s env r hend with ⟨_, hsame | hexec⟩ | ⟨_, st3, hexec, hmove⟩
    · exact FenceSame_inv st s b h hsame
    · have := FenceExec_inv st s b h hexec
      exact ⟨SessionInv_mono _ _ _ this.1 (Nat.le_succ b), this.2⟩
    · have h3 := FenceExec_inv st st3 b h hexec
      have hm := MoveToNextFrame_inv st3 s env.backBufferIndex env.gpuProgress b h3.1 hb
        (by simpa [FrameOp.slotOk] using hop) hmove
      exact ⟨hm.1, fun j => Nat.le_trans (h3.2.1 j) (hm.2.1 j), fun hcg => hm.2.2 (h3.2.2 hcg)⟩
  | PolyCache op =>
    simp only [frameStep, Option.some.injEq] at hstep
    subst hstep
    exact FenceSame_inv st
      { st with g_pPolyCache := st.g_pPolyCache.map (fun c => step c op) } b h
      ⟨rfl, rfl, rfl, rfl, rfl⟩

theorem frameRun_inv (ops : List FrameOp) :
    ∀ (st st2 : Driver) (b : Nat), SessionInv st b → b + ops.length < UINT64_RANGE →
      (∀ op ∈ ops, op.slotOk = true) → frameRun st ops = some st2 →
      SessionInv st2 (b + ops.length) ∧
      (∀ j, st.g_FenceValues.getD j 0 ≤ st2.g_FenceValues.getD j 0) ∧
      (CurrentGreatest st → CurrentGreatest st2) := by
  induction ops with
  | nil =>
    intro st st2 b h _ _ hrun
    simp only [frameRun, Option.some.injEq] at hrun
    subst hrun
    exact ⟨h, fun j => Nat.le_refl _, fun hcg => hcg⟩
  | cons op rest ih =>
    intro st st2 b h hb hok hrun
    simp only [frameRun] at hrun
    cases hs : frameStep st op with
    | none =>
      rw [hs] at hrun
      exact Option.noConfusion hrun
    | some s1 =>
      rw [hs] at hrun
      simp only [Option.some_bind] at hrun
      simp only [List.length_cons] at hb ⊢
      have h1 := frameStep_inv st s1 op b h (by omega) (hok op (List.mem_cons_self _ _)) hs
      have h2 := ih s1 st2 (b + 1) h1.1 (by omega)
        (fun o ho => hok o (List.mem_cons_of_mem _ ho)) hrun
      refine ⟨?_, fun j => Nat.le_trans (h1.2.1 j) (h2.2.1 j), fun hcg => h2.2.2 (h1.2.2 hcg)⟩
      have : b + (rest.length + 1) = b + 1 + rest.length := by omega
      rw [this]
      exact h2.1

/-- Claim C22. Let `D3D12Drv_Init` get as far as creating the fence, on a swap chain whose
back buffer index is below `FRAME_COUNT`, and let any sequence of `MoveToNextFrame`,
`WaitForGPU`, `ExecuteCommandLists`, scene and polygon calls follow, with slot indices below
`FRAME_COUNT` and no fence value reaching `2 ^ 64`. Whatever `g_FenceValues` held before the
call: from any state of the sequence to any later one the recorded fence value of every slot
does not decrease, and the values passed to the successive `Signal` calls on the queue are
strictly increasing. When `g_FenceValues` was all 0 before the call, as it is when the program
starts: the fence is created with 0, the state after `D3D12Drv_Init` has every slot value 0
except the current slot at 1, and in every state reached the value of the current slot is
strictly greater than the value of every other slot. -/
theorem C22_fence_values_monotone (g : Driver) (env : InitDrvEnv) (pre post : List FrameOp)
    (s1 s2 : Driver) (hlen : g.g_FenceValues.length = FRAME_COUNT)
    (hreach : env.reachesFence = true) (hidx : env.backBufferIndex < FRAME_COUNT)
    (hslots : ∀ op ∈ pre ++ post, op.slotOk = true)
    (hno : g.g_FenceValues.getD env.backBufferIndex 0 + (pre ++ post).length + 1 < UINT64_RANGE)
    (h1 : frameRun (D3D12Drv_Init g env).2 pre = some s1)
    (h2 : frameRun s1 post = some s2) :
    (∀ j, s1.g_FenceValues.getD j 0 ≤ s2.g_FenceValues.getD j 0) ∧
    (signalledValues s2.gpu.queue).Pairwise (fun a b => a < b) ∧
    (g.g_FenceValues = List.replicate FRAME_COUNT 0 →
      (D3D12Drv_Init g env).2.gpu.fenceInit = 0 ∧
      (D3D12Drv_Init g env).2.g_FenceValues
        = (List.replicate FRAME_COUNT 0).set (D3D12Drv_Init g env).2.g_FrameIndex 1 ∧
      ∀ j, j < FRAME_COUNT → j ≠ s2.g_FrameIndex →
        s2.g_FenceValues.getD j 0 < s2.g_FenceValues.getD s2.g_FrameIndex 0) := by
  rw [List.length_append] at hno
  have h0 := (D3D12Drv_Init_SessionInv g env hlen hreach hidx (by omega)).1
  have hpre := frameRun_inv pre _ s1 _ h0 (by omega)
    (fun op hop => hslots op (List.mem_append_left _ hop)) h1
  have hpost := frameRun_inv post s1 s2 _ hpre.1 (by omega)
    (fun op hop => hslots op (List.mem_append_right _ hop)) h2
  refine ⟨hpost.2.1, hpost.1.2.2.2.2.2.2.2.1, ?_⟩
  intro hzero
  obtain ⟨z1, z2, _, z4⟩ := D3D12Drv_Init_zero g env hzero hreach hidx
  exact ⟨z2, z1, hpost.2.2 (hpre.2.2 z4)⟩

/-- Witness of C22: the first `D3D12Drv_Init` of the program, one frame, then a drain of the
GPU and a second frame; the slot values go from `[1, 0]` over `[1, 2]` to `[4, 3]` and the
values signalled on the queue are 1, 2, 3. -/
theorem C22_fence_values_monotone_witness :
    ∃ s1 s2,
      frameRun (D3D12Drv_Init processStart (firstInit 0)).2 frameOne = some s1 ∧
      frameRun s1 drainThenFrame = some s2 ∧
      (D3D12Drv_Init processStart (firstInit 0)).2.g_FenceValues = [1, 0] ∧
      s1.g_FenceValues = [1, 2] ∧ s2.g_FenceValues = [4, 3] ∧
      signalledValues s2.gpu.queue = [1, 2, 3] ∧
      (∀ j, s1.g_FenceValues.getD j 0 ≤ s2.g_FenceValues.getD j 0) ∧
      (signalledValues s2.gpu.queue).Pairwise (fun a b => a < b) ∧
      ∀ j, j < FRAME_COUNT → j ≠ s2.g_FrameIndex →
        s2.g_FenceValues.getD j 0 < s2.g_FenceValues.getD s2.g_FrameIndex 0 :=
  ⟨(frameRun (D3D12Drv_Init processStart (firstInit 0)).2 frameOne).getD default,
    (frameRun ((frameRun (D3D12Drv_Init processStart (firstInit 0)).2 frameOne).getD default)
      drainThenFrame).getD default,
    rfl, rfl, rfl, rfl, rfl, rfl,
    (C22_fence_values_monotone processStart (firstInit 0) frameOne drainThenFrame _ _ rfl rfl
      (by decide) (by decide) (by simp [UINT64_RANGE, processStart, firstInit, frameOne,
        drainThenFrame, FRAME_COUNT]) rfl rfl).1,
    (C22_fence_values_monotone processStart (firstInit 0) frameOne drainThenFrame _ _ rfl rfl
      (by decide) (by decide) (by simp [UINT64_RANGE, processStart, firstInit, frameOne,
        drainThenFrame, FRAME_COUNT]) rfl rfl).2.1,
    ((C22_fence_values_monotone processStart (firstInit 0) frameOne drainThenFrame _ _ rfl rfl
      (by decide) (by decide) (by simp [UINT64_RANGE, processStart, firstInit, frameOne,
        drainThenFrame, FRAME_COUNT]) rfl rfl).2.2 rfl).2.2⟩

/-! ## `WaitForGPU` drains the queue -/

theorem WaitForGPU_returns (st : Driver) (k : Nat) : (WaitForGPU st k).isSome = true := by
  unfold WaitForGPU
  split
  · rfl
  · simp only []
    split
    · have hr := WaitForFence_returns
        ((st.gpu.submit (QueueItem.Signal (st.g_FenceValues.getD st.g_FrameIndex 0))).progress k)
        (st.g_FenceValues.getD st.g_FrameIndex 0)
        (st.gpu.queue ++ [QueueItem.Signal (st.g_FenceValues.getD st.g_FrameIndex 0)]).length
        (progress_done_le _ k) (Nat.le_refl _)
        (by
          simp only [GpuQueue.progress, GpuQueue.submit]
          rw [List.take_length, fenceValueAfter_append_signal])
      cases hw : ((st.gpu.submit
          (QueueItem.Signal (st.g_FenceValues.getD st.g_FrameIndex 0))).progress
            k).WaitForFence (st.g_FenceValues.getD st.g_FrameIndex 0) with
      | none =>
        rw [hw] at hr
        exact Bool.noConfusion hr
      | some g2 => rfl
    · rfl

theorem WaitForGPU_drains (st st2 : Driver) (k b : Nat) (h : SessionInv st b)
    (hw : WaitForGPU st k = some st2) :
    (∀ v ∈ signalledValues st2.gpu.queue, v ≤ st2.gpu.GetCompletedValue) ∧
    st2.gpu.done = st2.gpu.queue.length ∧
    (∀ slot, st2.gpu.slotIdle slot = true) := by
  obtain ⟨_, _, hqueue, hinit, hdone, hcv, _⟩ :=
    WaitForGPU_effect st st2 k h.2.2.1 h.2.2.2.1 hw
  obtain ⟨_, _, _, _, _, hfi, hss, _, _⟩ := h
  have hall : st2.gpu.done = st2.gpu.queue.length := by
    by_contra hne
    have hlt : st2.gpu.done ≤ st.gpu.queue.length := by
      rw [hqueue, List.length_append, List.length_singleton] at hdone hne
      omega
    have hbelow : st2.gpu.GetCompletedValue < st.g_FenceValues.getD st.g_FrameIndex 0 := by
      unfold GpuQueue.GetCompletedValue
      rw [hqueue, List.take_append_of_le_length hlt, hinit]
      exact (fenceValueAfter_take_bound _ _ _ _).1 hfi hss
    omega
  refine ⟨?_, hall, ?_⟩
  · intro v hv
    rw [hqueue, signalledValues_signal, List.mem_append] at hv
    rcases hv with hv | hv
    · have := hss v hv
      omega
    · simp only [List.mem_singleton] at hv
      omega
  · intro slot
    unfold GpuQueue.slotIdle
    rw [hall, List.drop_length]
    rfl

theorem waits_run (k : Nat) :
    ∀ (n : Nat) (st : Driver), st.g_pCommandQueue = true → st.g_pFence = true →
      st.g_FrameIndex < st.g_FenceValues.length →
      st.g_FenceValues.getD st.g_FrameIndex 0 + n < UINT64_RANGE →
      ∃ st2, frameRun st (List.replicate n (FrameOp.WaitForGPU k)) = some st2 ∧
        st2.g_pCommandQueue = true ∧ st2.g_pFence = true ∧
        st2.g_FrameIndex = st.g_FrameIndex ∧
        st2.g_FenceValues.length = st.g_FenceValues.length ∧
        st2.g_FenceValues.getD st2.g_FrameIndex 0
          = st.g_FenceValues.getD st.g_FrameIndex 0 + n := by
  intro n
  induction n with
  | zero =>
    intro st hq hf _ _
    exact ⟨st, rfl, hq, hf, rfl, rfl, rfl⟩
  | succ m ih =>
    intro st hq hf hidx hno
    obtain ⟨s1, hs1⟩ := Option.isSome_iff_exists.mp (WaitForGPU_returns st k)
    obtain ⟨hcur, hfv, _, _, _, _, _, hq1, hf1, _⟩ := WaitForGPU_effect st s1 k hq hf hs1
    have hlen1 : s1.g_FenceValues.length = st.g_FenceValues.length := by
      rw [hfv, List.length_set]
    have hval1 : s1.g_FenceValues.getD s1.g_FrameIndex 0
        = st.g_FenceValues.getD st.g_FrameIndex 0 + 1 := by
      rw [hcur, hfv, getD_set _ _ _ _ hidx, if_pos rfl, Nat.mod_eq_of_lt (by omega)]
    obtain ⟨st2, hrun, hq2, hf2, hcur2, hlen2, hval2⟩ := ih s1 (by rw [hq1]; exact hq)
      (by rw [hf1]; exact hf) (by rw [hcur, hlen1]; exact hidx) (by rw [hval1]; omega)
    refine ⟨st2, ?_, hq2, hf2, by rw [hcur2, hcur], by rw [hlen2, hlen1], ?_⟩
    · rw [List.replicate_succ]
      simp only [frameRun, frameStep, hs1, Option.some_bind]
      exact hrun
    · rw [hval2, hval1]
      omega

/-- Claim C23, as stated, fails: after the first `D3D12Drv_Init` of the program and
`2 ^ 64 - 2` calls of `WaitForGPU`, with the queue and the fence present, the current slot
holds `2 ^ 64 - 1`; `WaitForGPU` returns and leaves 0 in the current slot, not the value
advanced by one. -/
theorem C23_drain_counterexample :
    ∃ s1 s2,
      frameRun (D3D12Drv_Init processStart (firstInit 0)).2
        (List.replicate (UINT64_RANGE - 2) (FrameOp.WaitForGPU 0)) = some s1 ∧
      s1.g_pCommandQueue = true ∧ s1.g_pFence = true ∧
      WaitForGPU s1 0 = some s2 ∧
      s1.g_FenceValues.getD s1.g_FrameIndex 0 = UINT64_RANGE - 1 ∧
      s2.g_FenceValues.getD s2.g_FrameIndex 0 = 0 ∧
      s2.g_FenceValues.getD s2.g_FrameIndex 0
        ≠ s1.g_FenceValues.getD s1.g_FrameIndex 0 + 1 := by
  have hstart : (D3D12Drv_Init processStart (firstInit 0)).2.g_FenceValues.getD
      (D3D12Drv_Init processStart (firstInit 0)).2.g_FrameIndex 0 = 1 := rfl
  have hbound : 1 + (UINT64_RANGE - 2) < UINT64_RANGE := by
    unfold UINT64_RANGE
    norm_num
  obtain ⟨s1, h1, hq, hf, hcur, hlen, hval⟩ := waits_run 0 (UINT64_RANGE - 2)
    (D3D12Drv_Init processStart (firstInit 0)).2 rfl rfl (by decide)
    (by rw [hstart]; exact hbound)
  rw [hstart] at hval
  have hb : 1 + (UINT64_RANGE - 2) = UINT64_RANGE - 1 := by
    unfold UINT64_RANGE
    norm_num
  have ha : (UINT64_RANGE - 1 + 1) % UINT64_RANGE = 0 := by
    unfold UINT64_RANGE
    norm_num
  rw [hb] at hval
  obtain ⟨s2, h2⟩ := Option.isSome_iff_exists.mp (WaitForGPU_returns s1 0)
  obtain ⟨hcur2, hfv, _⟩ := WaitForGPU_effect s1 s2 0 hq hf h2
  have hidx : s1.g_FrameIndex < s1.g_FenceValues.length := by
    rw [hcur, hlen]
    decide
  have hnew : s2.g_FenceValues.getD s2.g_FrameIndex 0 = 0 := by
    rw [hcur2, hfv, getD_set _ _ _ _ hidx, if_pos rfl, hval, ha]
  refine ⟨s1, s2, h1, hq, hf, h2, hval, hnew, ?_⟩
  rw [hnew, hval]
  omega

/-- Claim C23, amended. Let `D3D12Drv_Init` get as far as creating the fence, whatever the
globals held before (a first call or a call after `D3D12Drv_Shutdown`), and let any sequence
of `MoveToNextFrame`, `WaitForGPU`, `ExecuteCommandLists`, scene and polygon calls follow,
with slot indices below `FRAME_COUNT` and no fence value reaching `2 ^ 64` (64-bit overflow
excluded). In the state reached, `WaitForGPU` returns, and when it has returned the
GPU-completed fence value is at least every fence value signalled on the queue, the GPU has
finished every entry of the queue, so no submission on any slot is in flight, and the fence
value of the current slot has been advanced by one. With no queue or no fence `WaitForGPU`
changes nothing, in any state. -/
theorem C23_wait_for_gpu_drains (g : Driver) (env : InitDrvEnv) (ops : List FrameOp)
    (st : Driver) (k : Nat) (hlen : g.g_FenceValues.length = FRAME_COUNT)
    (hreach : env.reachesFence = true) (hidx : env.backBufferIndex < FRAME_COUNT)
    (hslots : ∀ op ∈ ops, op.slotOk = true)
    (hno : g.g_FenceValues.getD env.backBufferIndex 0 + ops.length + 2 < UINT64_RANGE)
    (hrun : frameRun (D3D12Drv_Init g env).2 ops = some st) :
    (∃ st2, WaitForGPU st k = some st2 ∧
      (∀ v ∈ signalledValues st2.gpu.queue, v ≤ st2.gpu.GetCompletedValue) ∧
      st2.gpu.done = st2.gpu.queue.length ∧
      (∀ slot, st2.gpu.slotIdle slot = true) ∧
      st2.g_FrameIndex = st.g_FrameIndex ∧
      st2.g_FenceValues.getD st2.g_FrameIndex 0
        = st.g_FenceValues.getD st.g_FrameIndex 0 + 1) ∧
    (∀ (d : Driver) (j : Nat), d.g_pCommandQueue = false ∨ d.g_pFence = false →
      WaitForGPU d j = some d) := by
  have h0 := (D3D12Drv_Init_SessionInv g env hlen hreach hidx (by omega)).1
  have hinv := (frameRun_inv ops _ st _ h0 (by omega) hslots hrun).1
  constructor
  · obtain ⟨st2, h2⟩ := Option.isSome_iff_exists.mp (WaitForGPU_returns st k)
    obtain ⟨hd1, hd2, hd3⟩ := WaitForGPU_drains st st2 k _ hinv h2
    obtain ⟨_, _, _, hcur2, hadv⟩ := WaitForGPU_inv st st2 k _ hinv (by omega) h2
    exact ⟨st2, h2, hd1, hd2, hd3, hcur2, hadv⟩
  · intro d j hd
    unfold WaitForGPU
    rcases hd with hd | hd <;> simp [hd]

/-- Witness of C23: a first `D3D12Drv_Init`, one frame and `D3D12Drv_Shutdown` leave
`g_FenceValues = [1, 3]`; a second `D3D12Drv_Init` on a swap chain that starts at back buffer
0 creates the fence with 1 and makes the values `[2, 3]`; after one more submission
`WaitForGPU` returns with the whole queue finished and slot 0 advanced from 2 to 3. -/
theorem C23_wait_for_gpu_drains_witness :
    afterShutdown.g_FenceValues = [1, 3] ∧
    (D3D12Drv_Init afterShutdown (firstInit 0)).2.g_FenceValues = [2, 3] ∧
    (D3D12Drv_Init afterShutdown (firstInit 0)).2.gpu.fenceInit = 1 ∧
    ∃ st st2,
      frameRun (D3D12Drv_Init afterShutdown (firstInit 0)).2
        [FrameOp.ExecuteCommandLists 0 []] = some st ∧
      WaitForGPU st 0 = some st2 ∧
      st2.gpu.done = st2.gpu.queue.length ∧
      (∀ slot, st2.gpu.slotIdle slot = true) ∧
      st2.g_FenceValues.getD st2.g_FrameIndex 0
        = st.g_FenceValues.getD st.g_FrameIndex 0 + 1 ∧
      st2.g_FenceValues = [3, 3] := by
  obtain ⟨st2, h2, _, hdone, hidle, _, hadv⟩ :=
    (C23_wait_for_gpu_drains afterShutdown (firstInit 0) [FrameOp.ExecuteCommandLists 0 []]
      ((frameRun (D3D12Drv_Init afterShutdown (firstInit 0)).2
        [FrameOp.ExecuteCommandLists 0 []]).getD default) 0
      rfl rfl (by decide) (by decide) (by simp [UINT64_RANGE, afterShutdown]; decide) rfl).1
  have hval : st2.g_FenceValues = [3, 3] := by
    have h3 : WaitForGPU ((frameRun (D3D12Drv_Init afterShutdown (firstInit 0)).2
        [FrameOp.ExecuteCommandLists 0 []]).getD default) 0
        = some ((WaitForGPU ((frameRun (D3D12Drv_Init afterShutdown (firstInit 0)).2
          [FrameOp.ExecuteCommandLists 0 []]).getD default) 0).getD default) := rfl
    rw [h3] at h2
    rw [← Option.some.inj h2]
    rfl
  exact ⟨rfl, rfl, rfl, _, st2, rfl, h2, hdone, hidle, hadv, hval⟩

/-! ## Alternating frames -/

theorem reinit_first_move_never_returns (k : Nat) :
    (D3D12Drv_Init afterShutdown (firstInit 0)).1 = true ∧
    (D3D12Drv_Init afterShutdown (firstInit 0)).2.g_FrameIndex = 0 ∧
    (D3D12Drv_Init afterShutdown (firstInit 0)).2.g_FenceValues = [2, 3] ∧
    (D3D12Drv_Init afterShutdown (firstInit 0)).2.gpu.fenceInit = 1 ∧
    MoveToNextFrame (D3D12Drv_Init afterShutdown (firstInit 0)).2 1 k = none := by
  refine ⟨rfl, rfl, rfl, rfl, ?_⟩
  cases h : MoveToNextFrame (D3D12Drv_Init afterShutdown (firstInit 0)).2 1 k with
  | none => rfl
  | some st2 =>
    obtain ⟨_, _, hqueue, hinit, _, hthr, _⟩ := MoveToNextFrame_effect _ st2 1 k h
    have h3 : (D3D12Drv_Init afterShutdown (firstInit 0)).2.g_FenceValues.getD 1 0 = 3 := rfl
    have hq : st2.gpu.queue = [QueueItem.Signal 2] := hqueue
    have hi : st2.gpu.fenceInit = 1 := hinit
    rw [h3] at hthr
    have hle : st2.gpu.GetCompletedValue ≤ 2 := by
      unfold GpuQueue.GetCompletedValue
      rw [hq, hi]
      refine (fenceValueAfter_take_bound _ _ _ _).2 (by omega) ?_
      intro v hv
      simp [signalledValues] at hv
      omega
    omega

end Styx3D
